import Mathlib

/-!
Verification development for the MEDCoupling tutorials repository.

The repository is a corpus of Python tutorial scripts driving the external
MEDCoupling mesh/field library.  The tutorials themselves contain the concrete
meshes, fields and call sequences; the library operations they invoke
(DataArray manipulation, polygon-intersection based P0P0 interpolation,
MED file timestep storage, CSR matrix assembly, NumPy aliasing) are not part
of the repository source, so they are modelled here from the specification,
faithfully to its description of each operation, and instantiated on the
exact data that the tutorial scripts build.

All geometry is exact: coordinates are rational numbers represented by the
kernel-computable fraction type `Frac` below (numerator/denominator pairs of
integers, no normalisation invariant).  Real-valued field quantities
(involving square roots and trigonometric functions) live in `ℝ` and are
connected to the rational layer by the `Frac.toR` cast.
-/

set_option maxRecDepth 8000

namespace MCT

/-! ### Exact fraction arithmetic

`Rat` is not reducible by the kernel evaluator in this toolchain, so the
model uses an explicit fraction type.  No normalisation is performed; all
operations are plain integer arithmetic, and value-level comparisons are the
cross-multiplication tests (valid whenever denominators are positive, which
holds for every fraction the model ever builds). -/

structure Frac where
  num : Int
  den : Int
deriving DecidableEq

def Frac.zero : Frac := ⟨0, 1⟩

def Frac.one : Frac := ⟨1, 1⟩

def Frac.ofInt (n : Int) : Frac := ⟨n, 1⟩

def Frac.add (a b : Frac) : Frac := ⟨a.num * b.den + b.num * a.den, a.den * b.den⟩

def Frac.sub (a b : Frac) : Frac := ⟨a.num * b.den - b.num * a.den, a.den * b.den⟩

def Frac.mul (a b : Frac) : Frac := ⟨a.num * b.num, a.den * b.den⟩

/-- Division keeps the denominator positive whenever both inputs have a
positive denominator and the divisor has a nonzero numerator. -/
def Frac.div (a b : Frac) : Frac :=
  if 0 ≤ b.num then ⟨a.num * b.den, a.den * b.num⟩
  else ⟨-(a.num * b.den), -(a.den * b.num)⟩

def Frac.neg (a : Frac) : Frac := ⟨-a.num, a.den⟩

def Frac.habs (a : Frac) : Frac := ⟨(a.num.natAbs : Int), (a.den.natAbs : Int)⟩

/-- Boolean comparison: valid when both denominators are positive. -/
def Frac.ble (a b : Frac) : Bool := decide (a.num * b.den ≤ b.num * a.den)

/-- Boolean strict comparison: valid when both denominators are positive. -/
def Frac.blt (a b : Frac) : Bool := decide (a.num * b.den < b.num * a.den)

/-- Boolean value equality: valid when both denominators are nonzero. -/
def Frac.eqb (a b : Frac) : Bool := a.num * b.den == b.num * a.den

def Frac.isZero (a : Frac) : Bool := a.num == 0 && a.den != 0

def Frac.isOne (a : Frac) : Bool := a.num == a.den && a.den != 0

def Frac.denPos (a : Frac) : Bool := decide (0 < a.den)

/-- Value-preserving reduction of a fraction: divide numerator and
denominator by their gcd (the sign of the denominator is kept).  Keeping
the stored components small mirrors the bounded doubles of the library. -/
def Frac.norm (a : Frac) : Frac :=
  let g : Int := (Int.gcd a.num a.den : Int)
  if g == 0 then a else ⟨a.num.ediv g, a.den.ediv g⟩

/-- Interpretation of a fraction as a real number. -/
noncomputable def Frac.toR (a : Frac) : ℝ := (a.num : ℝ) / (a.den : ℝ)

/-! ### Balanced list summation

Kernel evaluation of a right fold nests one stack frame per list element,
which overflows on the list lengths appearing in the tutorials; summation is
therefore performed by repeated pairwise reduction (logarithmic nesting
depth).  The fuel argument makes the recursion structural; 64 rounds suffice
for any list of length below 2^64, and the fuel-exhausted fallback is a
plain fold. -/

def pairup : List Frac → List Frac
  | a :: b :: rest => a.add b :: pairup rest
  | l => l

def sumAux : Nat → List Frac → Frac
  | 0, l => l.foldr Frac.add Frac.zero
  | _ + 1, [] => Frac.zero
  | _ + 1, [a] => a
  | fuel + 1, a :: b :: rest => sumAux fuel (a.add b :: pairup rest)

/-- Sum of a list of fractions. -/
def sumF (l : List Frac) : Frac := sumAux 64 l

/-! ### Exact 2D polygon geometry

Points are pairs of fractions.  `shoelace` is twice the signed area of a
polygon given by its vertex list; `polyAreaF` is the absolute area.
`clipHalf` is one Sutherland-Hodgman pass clipping a convex polygon against
the half-plane `a*x + b*y ≤ c`, and `clipRect` clips against an axis-aligned
rectangle.  `polyCentroidF` is the area-weighted centroid of a polygon. -/

abbrev Pt2 : Type := Frac × Frac

def edges2 (l : List Pt2) : List (Pt2 × Pt2) := l.zip (l.drop 1 ++ l.take 1)

def cross2 (p q : Pt2) : Frac := (p.1.mul q.2).sub (q.1.mul p.2)

def shoelace (l : List Pt2) : Frac := sumF ((edges2 l).map (fun e => cross2 e.1 e.2))

def polyAreaF (l : List Pt2) : Frac := ((shoelace l).habs.div ⟨2, 1⟩).norm

/-- Coordinate of a point along an axis: `false` selects x, `true` selects y. -/
def coordOf (axis : Bool) (p : Pt2) : Frac := if axis then p.2 else p.1

/-- Intersection of the segment from p to q with the line `axis = bound`,
assuming the endpoints lie on opposite sides.  The clipped coordinate is set
to `bound` exactly; the other coordinate is interpolated linearly. -/
def axisCut (axis : Bool) (bound : Frac) (p q : Pt2) : Pt2 :=
  let pc := coordOf axis p
  let qc := coordOf axis q
  let po := coordOf (!axis) p
  let qo := coordOf (!axis) q
  let t := (bound.sub pc).div (qc.sub pc)
  let o := (po.add (t.mul (qo.sub po))).norm
  if axis then (o, bound) else (bound, o)

/-- One Sutherland-Hodgman pass clipping a polygon against the half-plane
`axis ≤ bound` (when `upper`) or `bound ≤ axis` (when `not upper`). -/
def clipAxis (axis upper : Bool) (bound : Frac) (poly : List Pt2) : List Pt2 :=
  ((edges2 poly).map (fun e =>
    let pin := if upper then (coordOf axis e.1).ble bound else bound.ble (coordOf axis e.1)
    let qin := if upper then (coordOf axis e.2).ble bound else bound.ble (coordOf axis e.2)
    if pin then (if qin then [e.2] else [axisCut axis bound e.1 e.2])
    else (if qin then [axisCut axis bound e.1 e.2, e.2] else []))).flatten

/-- Clip a polygon against the rectangle [x0,x1] x [y0,y1] by four
axis-aligned Sutherland-Hodgman passes. -/
def clipRect (x0 x1 y0 y1 : Frac) (poly : List Pt2) : List Pt2 :=
  clipAxis true true y1 (clipAxis true false y0 (clipAxis false true x1 (clipAxis false false x0 poly)))

/-- Area-weighted centroid of a polygon (for triangles this is the vertex
average, for rectangles the center). -/
def polyCentroidF (l : List Pt2) : Pt2 :=
  let s := shoelace l
  let cx := sumF ((edges2 l).map (fun e => (e.1.1.add e.2.1).mul (cross2 e.1 e.2)))
  let cy := sumF ((edges2 l).map (fun e => (e.1.2.add e.2.2).mul (cross2 e.1 e.2)))
  ((cx.div (s.mul ⟨3, 1⟩)).norm, (cy.div (s.mul ⟨3, 1⟩)).norm)

end MCT

namespace MCT

/-! ### Remapper tutorial model (Remapper.py)

The tutorial builds a target mesh `trgMesh` as the unstructured form of a
10x10 Cartesian grid with step 1 on [0,10]^2, and a source mesh `srcMesh` as
a 20x20 grid with step 1/2 whose first 20 cells (the bottom row) are
simplexized into triangles, the triangulated part being merged in front of
the remaining 380 quadrangles.  All node coordinates are integer multiples
of 1/2; cell geometry is therefore recorded in integer half-units and
converted to fractions for the exact area computations.

`MEDCouplingRemapper.prepare` with method P0P0 computes, for every target
cell, the source cells intersecting it and the exact intersection areas
(MEDCoupling prunes candidate pairs with a bounding-box tree before running
geometric intersection; the model mirrors this with an index window plus a
bounding-box test, and then exact polygon clipping). -/

/-- Geometry of source cell `id` in integer half-units. Ids 0..39 are the 40
triangles produced by simplexizing the 20 bottom-row cells (policy 0 splits
the quadrangle (n00,n10,n11,n01) along the diagonal n00-n11), ids 40..419
are the remaining quadrangles of rows 1..19 in row-major order. -/
def srcCellGeomI (id : Nat) : List (Int × Int) :=
  if id < 40 then
    let a : Int := (id : Int) / 2
    if id % 2 == 0 then [(a, 0), (a + 1, 0), (a + 1, 1)]
    else [(a, 0), (a + 1, 1), (a, 1)]
  else
    let q := id - 40
    let a : Int := ((q % 20 : Nat) : Int)
    let b : Int := ((q / 20 : Nat) : Int) + 1
    [(a, b), (a + 1, b), (a + 1, b + 1), (a, b + 1)]

/-- Source cell polygon in real coordinates (half-units divided by 2). -/
def srcPolyQ (id : Nat) : List Pt2 :=
  (srcCellGeomI id).map (fun p => (⟨p.1, 2⟩, ⟨p.2, 2⟩))

/-- Exact area of source cell `id`. -/
def srcAreaF (id : Nat) : Frac := polyAreaF (srcPolyQ id)

/-- Squared distance of the centroid of source cell `id` to the point (5,5),
the quantity under the square root in the analytic field
`7 - sqrt((x-5)^2 + (y-5)^2)` evaluated at cell centroids. -/
def srcDistSqF (id : Nat) : Frac :=
  let c := polyCentroidF (srcPolyQ id)
  let dx := c.1.sub ⟨5, 1⟩
  let dy := c.2.sub ⟨5, 1⟩
  ((dx.mul dx).add (dy.mul dy)).norm

/-- Polygon of target cell `c` (unit square, row-major: i = c % 10, j = c / 10). -/
def trgPolyQ (c : Nat) : List Pt2 :=
  let i : Int := ((c % 10 : Nat) : Int)
  let j : Int := ((c / 10 : Nat) : Int)
  [(⟨i, 1⟩, ⟨j, 1⟩), (⟨i + 1, 1⟩, ⟨j, 1⟩), (⟨i + 1, 1⟩, ⟨j + 1, 1⟩), (⟨i, 1⟩, ⟨j + 1, 1⟩)]

/-- Exact area of target cell `c`. -/
def trgAreaF (c : Nat) : Frac := polyAreaF (trgPolyQ c)

/-- Axis-aligned bounding box of an integer polygon. -/
def ibbox (l : List (Int × Int)) : (Int × Int) × (Int × Int) :=
  match l with
  | [] => ((0, 0), (0, 0))
  | p :: rest =>
    rest.foldr (fun q acc => ((min q.1 acc.1.1, min q.2 acc.1.2), (max q.1 acc.2.1, max q.2 acc.2.2)))
      ((p.1, p.2), (p.1, p.2))

/-- Strict overlap test between a source bounding box (half-units) and the
bounding box of target cell (i,j), which is [2i,2i+2] x [2j,2j+2] in
half-units. -/
def bboxOverlap (bb : (Int × Int) × (Int × Int)) (i j : Nat) : Bool :=
  decide (bb.1.1 < 2 * (i : Int) + 2) && decide ((2 * (i : Int)) < bb.2.1) &&
  decide (bb.1.2 < 2 * (j : Int) + 2) && decide ((2 * (j : Int)) < bb.2.2)

/-- Candidate source cell ids whose grid cell (a,b) falls in a window of
grid indices around target cell column i / row j (the coarse stage of the
bounding-box pruning; the window is one source cell wider than the target on
each side, so no intersecting cell is missed since source cells are half the
target width). -/
def cellIdsAt (a b : Nat) : List Nat :=
  if b = 0 then [2 * a, 2 * a + 1] else [40 + (b - 1) * 20 + a]

def windowIdx (i : Nat) : List Nat :=
  List.range' (2 * i - 1) (min 20 (2 * i + 3) - (2 * i - 1))

def candIds (i j : Nat) : List Nat :=
  (windowIdx i).flatMap (fun a => (windowIdx j).flatMap (fun b => cellIdsAt a b))

/-- Exact intersection area of target cell `c` with source cell `id`. -/
def entryF (c id : Nat) : Frac :=
  let i : Int := ((c % 10 : Nat) : Int)
  let j : Int := ((c / 10 : Nat) : Int)
  polyAreaF (clipRect ⟨i, 1⟩ ⟨i + 1, 1⟩ ⟨j, 1⟩ ⟨j + 1, 1⟩ (srcPolyQ id))

/-- Row of the crude interpolation matrix for target cell `c`: the source
cells it intersects, with the exact intersection areas. -/
def sparseRowOf (c : Nat) : List (Nat × Frac) :=
  let i := c % 10
  let j := c / 10
  ((candIds i j).filter (fun id => bboxOverlap (ibbox (srcCellGeomI id)) i j)).filterMap
    (fun id => let w := entryF c id; if w.isZero then none else some (id, w))

/-- The crude interpolation matrix of the prepared P0P0 remapper, one sparse
row per target cell. -/
def Wmat : List (List (Nat × Frac)) := (List.range 100).map sparseRowOf

/-- Helper for compact rational literals. -/
def mq (n d : Int) : Frac := ⟨n, d⟩

/-- Stored rows 0..24 of the crude matrix (proved below to equal the
computed rows). -/
def WmatL0 : List (List (Nat × Frac)) := [
[(0, mq (1) (8)), (1, mq (1) (8)), (40, mq (1) (4)), (2, mq (1) (8)), (3, mq (1) (8)), (41, mq (1) (4))],
[(4, mq (1) (8)), (5, mq (1) (8)), (42, mq (1) (4)), (6, mq (1) (8)), (7, mq (1) (8)), (43, mq (1) (4))],
[(8, mq (1) (8)), (9, mq (1) (8)), (44, mq (1) (4)), (10, mq (1) (8)), (11, mq (1) (8)), (45, mq (1) (4))],
[(12, mq (1) (8)), (13, mq (1) (8)), (46, mq (1) (4)), (14, mq (1) (8)), (15, mq (1) (8)), (47, mq (1) (4))],
[(16, mq (1) (8)), (17, mq (1) (8)), (48, mq (1) (4)), (18, mq (1) (8)), (19, mq (1) (8)), (49, mq (1) (4))],
[(20, mq (1) (8)), (21, mq (1) (8)), (50, mq (1) (4)), (22, mq (1) (8)), (23, mq (1) (8)), (51, mq (1) (4))],
[(24, mq (1) (8)), (25, mq (1) (8)), (52, mq (1) (4)), (26, mq (1) (8)), (27, mq (1) (8)), (53, mq (1) (4))],
[(28, mq (1) (8)), (29, mq (1) (8)), (54, mq (1) (4)), (30, mq (1) (8)), (31, mq (1) (8)), (55, mq (1) (4))],
[(32, mq (1) (8)), (33, mq (1) (8)), (56, mq (1) (4)), (34, mq (1) (8)), (35, mq (1) (8)), (57, mq (1) (4))],
[(36, mq (1) (8)), (37, mq (1) (8)), (58, mq (1) (4)), (38, mq (1) (8)), (39, mq (1) (8)), (59, mq (1) (4))],
[(60, mq (1) (4)), (80, mq (1) (4)), (61, mq (1) (4)), (81, mq (1) (4))],
[(62, mq (1) (4)), (82, mq (1) (4)), (63, mq (1) (4)), (83, mq (1) (4))],
[(64, mq (1) (4)), (84, mq (1) (4)), (65, mq (1) (4)), (85, mq (1) (4))],
[(66, mq (1) (4)), (86, mq (1) (4)), (67, mq (1) (4)), (87, mq (1) (4))],
[(68, mq (1) (4)), (88, mq (1) (4)), (69, mq (1) (4)), (89, mq (1) (4))],
[(70, mq (1) (4)), (90, mq (1) (4)), (71, mq (1) (4)), (91, mq (1) (4))],
[(72, mq (1) (4)), (92, mq (1) (4)), (73, mq (1) (4)), (93, mq (1) (4))],
[(74, mq (1) (4)), (94, mq (1) (4)), (75, mq (1) (4)), (95, mq (1) (4))],
[(76, mq (1) (4)), (96, mq (1) (4)), (77, mq (1) (4)), (97, mq (1) (4))],
[(78, mq (1) (4)), (98, mq (1) (4)), (79, mq (1) (4)), (99, mq (1) (4))],
[(100, mq (1) (4)), (120, mq (1) (4)), (101, mq (1) (4)), (121, mq (1) (4))],
[(102, mq (1) (4)), (122, mq (1) (4)), (103, mq (1) (4)), (123, mq (1) (4))],
[(104, mq (1) (4)), (124, mq (1) (4)), (105, mq (1) (4)), (125, mq (1) (4))],
[(106, mq (1) (4)), (126, mq (1) (4)), (107, mq (1) (4)), (127, mq (1) (4))],
[(108, mq (1) (4)), (128, mq (1) (4)), (109, mq (1) (4)), (129, mq (1) (4))]]

/-- Stored rows 25..49 of the crude matrix (proved below to equal the
computed rows). -/
def WmatL1 : List (List (Nat × Frac)) := [
[(110, mq (1) (4)), (130, mq (1) (4)), (111, mq (1) (4)), (131, mq (1) (4))],
[(112, mq (1) (4)), (132, mq (1) (4)), (113, mq (1) (4)), (133, mq (1) (4))],
[(114, mq (1) (4)), (134, mq (1) (4)), (115, mq (1) (4)), (135, mq (1) (4))],
[(116, mq (1) (4)), (136, mq (1) (4)), (117, mq (1) (4)), (137, mq (1) (4))],
[(118, mq (1) (4)), (138, mq (1) (4)), (119, mq (1) (4)), (139, mq (1) (4))],
[(140, mq (1) (4)), (160, mq (1) (4)), (141, mq (1) (4)), (161, mq (1) (4))],
[(142, mq (1) (4)), (162, mq (1) (4)), (143, mq (1) (4)), (163, mq (1) (4))],
[(144, mq (1) (4)), (164, mq (1) (4)), (145, mq (1) (4)), (165, mq (1) (4))],
[(146, mq (1) (4)), (166, mq (1) (4)), (147, mq (1) (4)), (167, mq (1) (4))],
[(148, mq (1) (4)), (168, mq (1) (4)), (149, mq (1) (4)), (169, mq (1) (4))],
[(150, mq (1) (4)), (170, mq (1) (4)), (151, mq (1) (4)), (171, mq (1) (4))],
[(152, mq (1) (4)), (172, mq (1) (4)), (153, mq (1) (4)), (173, mq (1) (4))],
[(154, mq (1) (4)), (174, mq (1) (4)), (155, mq (1) (4)), (175, mq (1) (4))],
[(156, mq (1) (4)), (176, mq (1) (4)), (157, mq (1) (4)), (177, mq (1) (4))],
[(158, mq (1) (4)), (178, mq (1) (4)), (159, mq (1) (4)), (179, mq (1) (4))],
[(180, mq (1) (4)), (200, mq (1) (4)), (181, mq (1) (4)), (201, mq (1) (4))],
[(182, mq (1) (4)), (202, mq (1) (4)), (183, mq (1) (4)), (203, mq (1) (4))],
[(184, mq (1) (4)), (204, mq (1) (4)), (185, mq (1) (4)), (205, mq (1) (4))],
[(186, mq (1) (4)), (206, mq (1) (4)), (187, mq (1) (4)), (207, mq (1) (4))],
[(188, mq (1) (4)), (208, mq (1) (4)), (189, mq (1) (4)), (209, mq (1) (4))],
[(190, mq (1) (4)), (210, mq (1) (4)), (191, mq (1) (4)), (211, mq (1) (4))],
[(192, mq (1) (4)), (212, mq (1) (4)), (193, mq (1) (4)), (213, mq (1) (4))],
[(194, mq (1) (4)), (214, mq (1) (4)), (195, mq (1) (4)), (215, mq (1) (4))],
[(196, mq (1) (4)), (216, mq (1) (4)), (197, mq (1) (4)), (217, mq (1) (4))],
[(198, mq (1) (4)), (218, mq (1) (4)), (199, mq (1) (4)), (219, mq (1) (4))]]

/-- Stored rows 50..74 of the crude matrix (proved below to equal the
computed rows). -/
def WmatL2 : List (List (Nat × Frac)) := [
[(220, mq (1) (4)), (240, mq (1) (4)), (221, mq (1) (4)), (241, mq (1) (4))],
[(222, mq (1) (4)), (242, mq (1) (4)), (223, mq (1) (4)), (243, mq (1) (4))],
[(224, mq (1) (4)), (244, mq (1) (4)), (225, mq (1) (4)), (245, mq (1) (4))],
[(226, mq (1) (4)), (246, mq (1) (4)), (227, mq (1) (4)), (247, mq (1) (4))],
[(228, mq (1) (4)), (248, mq (1) (4)), (229, mq (1) (4)), (249, mq (1) (4))],
[(230, mq (1) (4)), (250, mq (1) (4)), (231, mq (1) (4)), (251, mq (1) (4))],
[(232, mq (1) (4)), (252, mq (1) (4)), (233, mq (1) (4)), (253, mq (1) (4))],
[(234, mq (1) (4)), (254, mq (1) (4)), (235, mq (1) (4)), (255, mq (1) (4))],
[(236, mq (1) (4)), (256, mq (1) (4)), (237, mq (1) (4)), (257, mq (1) (4))],
[(238, mq (1) (4)), (258, mq (1) (4)), (239, mq (1) (4)), (259, mq (1) (4))],
[(260, mq (1) (4)), (280, mq (1) (4)), (261, mq (1) (4)), (281, mq (1) (4))],
[(262, mq (1) (4)), (282, mq (1) (4)), (263, mq (1) (4)), (283, mq (1) (4))],
[(264, mq (1) (4)), (284, mq (1) (4)), (265, mq (1) (4)), (285, mq (1) (4))],
[(266, mq (1) (4)), (286, mq (1) (4)), (267, mq (1) (4)), (287, mq (1) (4))],
[(268, mq (1) (4)), (288, mq (1) (4)), (269, mq (1) (4)), (289, mq (1) (4))],
[(270, mq (1) (4)), (290, mq (1) (4)), (271, mq (1) (4)), (291, mq (1) (4))],
[(272, mq (1) (4)), (292, mq (1) (4)), (273, mq (1) (4)), (293, mq (1) (4))],
[(274, mq (1) (4)), (294, mq (1) (4)), (275, mq (1) (4)), (295, mq (1) (4))],
[(276, mq (1) (4)), (296, mq (1) (4)), (277, mq (1) (4)), (297, mq (1) (4))],
[(278, mq (1) (4)), (298, mq (1) (4)), (279, mq (1) (4)), (299, mq (1) (4))],
[(300, mq (1) (4)), (320, mq (1) (4)), (301, mq (1) (4)), (321, mq (1) (4))],
[(302, mq (1) (4)), (322, mq (1) (4)), (303, mq (1) (4)), (323, mq (1) (4))],
[(304, mq (1) (4)), (324, mq (1) (4)), (305, mq (1) (4)), (325, mq (1) (4))],
[(306, mq (1) (4)), (326, mq (1) (4)), (307, mq (1) (4)), (327, mq (1) (4))],
[(308, mq (1) (4)), (328, mq (1) (4)), (309, mq (1) (4)), (329, mq (1) (4))]]

/-- Stored rows 75..99 of the crude matrix (proved below to equal the
computed rows). -/
def WmatL3 : List (List (Nat × Frac)) := [
[(310, mq (1) (4)), (330, mq (1) (4)), (311, mq (1) (4)), (331, mq (1) (4))],
[(312, mq (1) (4)), (332, mq (1) (4)), (313, mq (1) (4)), (333, mq (1) (4))],
[(314, mq (1) (4)), (334, mq (1) (4)), (315, mq (1) (4)), (335, mq (1) (4))],
[(316, mq (1) (4)), (336, mq (1) (4)), (317, mq (1) (4)), (337, mq (1) (4))],
[(318, mq (1) (4)), (338, mq (1) (4)), (319, mq (1) (4)), (339, mq (1) (4))],
[(340, mq (1) (4)), (360, mq (1) (4)), (341, mq (1) (4)), (361, mq (1) (4))],
[(342, mq (1) (4)), (362, mq (1) (4)), (343, mq (1) (4)), (363, mq (1) (4))],
[(344, mq (1) (4)), (364, mq (1) (4)), (345, mq (1) (4)), (365, mq (1) (4))],
[(346, mq (1) (4)), (366, mq (1) (4)), (347, mq (1) (4)), (367, mq (1) (4))],
[(348, mq (1) (4)), (368, mq (1) (4)), (349, mq (1) (4)), (369, mq (1) (4))],
[(350, mq (1) (4)), (370, mq (1) (4)), (351, mq (1) (4)), (371, mq (1) (4))],
[(352, mq (1) (4)), (372, mq (1) (4)), (353, mq (1) (4)), (373, mq (1) (4))],
[(354, mq (1) (4)), (374, mq (1) (4)), (355, mq (1) (4)), (375, mq (1) (4))],
[(356, mq (1) (4)), (376, mq (1) (4)), (357, mq (1) (4)), (377, mq (1) (4))],
[(358, mq (1) (4)), (378, mq (1) (4)), (359, mq (1) (4)), (379, mq (1) (4))],
[(380, mq (1) (4)), (400, mq (1) (4)), (381, mq (1) (4)), (401, mq (1) (4))],
[(382, mq (1) (4)), (402, mq (1) (4)), (383, mq (1) (4)), (403, mq (1) (4))],
[(384, mq (1) (4)), (404, mq (1) (4)), (385, mq (1) (4)), (405, mq (1) (4))],
[(386, mq (1) (4)), (406, mq (1) (4)), (387, mq (1) (4)), (407, mq (1) (4))],
[(388, mq (1) (4)), (408, mq (1) (4)), (389, mq (1) (4)), (409, mq (1) (4))],
[(390, mq (1) (4)), (410, mq (1) (4)), (391, mq (1) (4)), (411, mq (1) (4))],
[(392, mq (1) (4)), (412, mq (1) (4)), (393, mq (1) (4)), (413, mq (1) (4))],
[(394, mq (1) (4)), (414, mq (1) (4)), (395, mq (1) (4)), (415, mq (1) (4))],
[(396, mq (1) (4)), (416, mq (1) (4)), (397, mq (1) (4)), (417, mq (1) (4))],
[(398, mq (1) (4)), (418, mq (1) (4)), (399, mq (1) (4)), (419, mq (1) (4))]]

/-- Stored value of the whole crude interpolation matrix. -/
def WmatLit : List (List (Nat × Frac)) := WmatL0 ++ WmatL1 ++ WmatL2 ++ WmatL3

/-- Stored (area, squared centroid distance to (5,5)) pairs of source
cells 0..209 (proved below to equal the computed values). -/
def srcCellsL0 : List (Frac × Frac) := [
(mq (1) (8), mq (1625) (36)),
(mq (1) (8), mq (1625) (36)),
(mq (1) (8), mq (733) (18)),
(mq (1) (8), mq (365) (9)),
(mq (1) (8), mq (1325) (36)),
(mq (1) (8), mq (1313) (36)),
(mq (1) (8), mq (601) (18)),
(mq (1) (8), mq (296) (9)),
(mq (1) (8), mq (1097) (36)),
(mq (1) (8), mq (1073) (36)),
(mq (1) (8), mq (505) (18)),
(mq (1) (8), mq (245) (9)),
(mq (1) (8), mq (941) (36)),
(mq (1) (8), mq (905) (36)),
(mq (1) (8), mq (445) (18)),
(mq (1) (8), mq (212) (9)),
(mq (1) (8), mq (857) (36)),
(mq (1) (8), mq (809) (36)),
(mq (1) (8), mq (421) (18)),
(mq (1) (8), mq (197) (9)),
(mq (1) (8), mq (845) (36)),
(mq (1) (8), mq (785) (36)),
(mq (1) (8), mq (433) (18)),
(mq (1) (8), mq (200) (9)),
(mq (1) (8), mq (905) (36)),
(mq (1) (8), mq (833) (36)),
(mq (1) (8), mq (481) (18)),
(mq (1) (8), mq (221) (9)),
(mq (1) (8), mq (1037) (36)),
(mq (1) (8), mq (953) (36)),
(mq (1) (8), mq (565) (18)),
(mq (1) (8), mq (260) (9)),
(mq (1) (8), mq (1241) (36)),
(mq (1) (8), mq (1145) (36)),
(mq (1) (8), mq (685) (18)),
(mq (1) (8), mq (317) (9)),
(mq (1) (8), mq (1517) (36)),
(mq (1) (8), mq (1409) (36)),
(mq (1) (8), mq (841) (18)),
(mq (1) (8), mq (392) (9)),
(mq (1) (4), mq (325) (8)),
(mq (1) (4), mq (289) (8)),
(mq (1) (4), mq (257) (8)),
(mq (1) (4), mq (229) (8)),
(mq (1) (4), mq (205) (8)),
(mq (1) (4), mq (185) (8)),
(mq (1) (4), mq (169) (8)),
(mq (1) (4), mq (157) (8)),
(mq (1) (4), mq (149) (8)),
(mq (1) (4), mq (145) (8)),
(mq (1) (4), mq (145) (8)),
(mq (1) (4), mq (149) (8)),
(mq (1) (4), mq (157) (8)),
(mq (1) (4), mq (169) (8)),
(mq (1) (4), mq (185) (8)),
(mq (1) (4), mq (205) (8)),
(mq (1) (4), mq (229) (8)),
(mq (1) (4), mq (257) (8)),
(mq (1) (4), mq (289) (8)),
(mq (1) (4), mq (325) (8)),
(mq (1) (4), mq (293) (8)),
(mq (1) (4), mq (257) (8)),
(mq (1) (4), mq (225) (8)),
(mq (1) (4), mq (197) (8)),
(mq (1) (4), mq (173) (8)),
(mq (1) (4), mq (153) (8)),
(mq (1) (4), mq (137) (8)),
(mq (1) (4), mq (125) (8)),
(mq (1) (4), mq (117) (8)),
(mq (1) (4), mq (113) (8)),
(mq (1) (4), mq (113) (8)),
(mq (1) (4), mq (117) (8)),
(mq (1) (4), mq (125) (8)),
(mq (1) (4), mq (137) (8)),
(mq (1) (4), mq (153) (8)),
(mq (1) (4), mq (173) (8)),
(mq (1) (4), mq (197) (8)),
(mq (1) (4), mq (225) (8)),
(mq (1) (4), mq (257) (8)),
(mq (1) (4), mq (293) (8)),
(mq (1) (4), mq (265) (8)),
(mq (1) (4), mq (229) (8)),
(mq (1) (4), mq (197) (8)),
(mq (1) (4), mq (169) (8)),
(mq (1) (4), mq (145) (8)),
(mq (1) (4), mq (125) (8)),
(mq (1) (4), mq (109) (8)),
(mq (1) (4), mq (97) (8)),
(mq (1) (4), mq (89) (8)),
(mq (1) (4), mq (85) (8)),
(mq (1) (4), mq (85) (8)),
(mq (1) (4), mq (89) (8)),
(mq (1) (4), mq (97) (8)),
(mq (1) (4), mq (109) (8)),
(mq (1) (4), mq (125) (8)),
(mq (1) (4), mq (145) (8)),
(mq (1) (4), mq (169) (8)),
(mq (1) (4), mq (197) (8)),
(mq (1) (4), mq (229) (8)),
(mq (1) (4), mq (265) (8)),
(mq (1) (4), mq (241) (8)),
(mq (1) (4), mq (205) (8)),
(mq (1) (4), mq (173) (8)),
(mq (1) (4), mq (145) (8)),
(mq (1) (4), mq (121) (8)),
(mq (1) (4), mq (101) (8)),
(mq (1) (4), mq (85) (8)),
(mq (1) (4), mq (73) (8)),
(mq (1) (4), mq (65) (8)),
(mq (1) (4), mq (61) (8)),
(mq (1) (4), mq (61) (8)),
(mq (1) (4), mq (65) (8)),
(mq (1) (4), mq (73) (8)),
(mq (1) (4), mq (85) (8)),
(mq (1) (4), mq (101) (8)),
(mq (1) (4), mq (121) (8)),
(mq (1) (4), mq (145) (8)),
(mq (1) (4), mq (173) (8)),
(mq (1) (4), mq (205) (8)),
(mq (1) (4), mq (241) (8)),
(mq (1) (4), mq (221) (8)),
(mq (1) (4), mq (185) (8)),
(mq (1) (4), mq (153) (8)),
(mq (1) (4), mq (125) (8)),
(mq (1) (4), mq (101) (8)),
(mq (1) (4), mq (81) (8)),
(mq (1) (4), mq (65) (8)),
(mq (1) (4), mq (53) (8)),
(mq (1) (4), mq (45) (8)),
(mq (1) (4), mq (41) (8)),
(mq (1) (4), mq (41) (8)),
(mq (1) (4), mq (45) (8)),
(mq (1) (4), mq (53) (8)),
(mq (1) (4), mq (65) (8)),
(mq (1) (4), mq (81) (8)),
(mq (1) (4), mq (101) (8)),
(mq (1) (4), mq (125) (8)),
(mq (1) (4), mq (153) (8)),
(mq (1) (4), mq (185) (8)),
(mq (1) (4), mq (221) (8)),
(mq (1) (4), mq (205) (8)),
(mq (1) (4), mq (169) (8)),
(mq (1) (4), mq (137) (8)),
(mq (1) (4), mq (109) (8)),
(mq (1) (4), mq (85) (8)),
(mq (1) (4), mq (65) (8)),
(mq (1) (4), mq (49) (8)),
(mq (1) (4), mq (37) (8)),
(mq (1) (4), mq (29) (8)),
(mq (1) (4), mq (25) (8)),
(mq (1) (4), mq (25) (8)),
(mq (1) (4), mq (29) (8)),
(mq (1) (4), mq (37) (8)),
(mq (1) (4), mq (49) (8)),
(mq (1) (4), mq (65) (8)),
(mq (1) (4), mq (85) (8)),
(mq (1) (4), mq (109) (8)),
(mq (1) (4), mq (137) (8)),
(mq (1) (4), mq (169) (8)),
(mq (1) (4), mq (205) (8)),
(mq (1) (4), mq (193) (8)),
(mq (1) (4), mq (157) (8)),
(mq (1) (4), mq (125) (8)),
(mq (1) (4), mq (97) (8)),
(mq (1) (4), mq (73) (8)),
(mq (1) (4), mq (53) (8)),
(mq (1) (4), mq (37) (8)),
(mq (1) (4), mq (25) (8)),
(mq (1) (4), mq (17) (8)),
(mq (1) (4), mq (13) (8)),
(mq (1) (4), mq (13) (8)),
(mq (1) (4), mq (17) (8)),
(mq (1) (4), mq (25) (8)),
(mq (1) (4), mq (37) (8)),
(mq (1) (4), mq (53) (8)),
(mq (1) (4), mq (73) (8)),
(mq (1) (4), mq (97) (8)),
(mq (1) (4), mq (125) (8)),
(mq (1) (4), mq (157) (8)),
(mq (1) (4), mq (193) (8)),
(mq (1) (4), mq (185) (8)),
(mq (1) (4), mq (149) (8)),
(mq (1) (4), mq (117) (8)),
(mq (1) (4), mq (89) (8)),
(mq (1) (4), mq (65) (8)),
(mq (1) (4), mq (45) (8)),
(mq (1) (4), mq (29) (8)),
(mq (1) (4), mq (17) (8)),
(mq (1) (4), mq (9) (8)),
(mq (1) (4), mq (5) (8)),
(mq (1) (4), mq (5) (8)),
(mq (1) (4), mq (9) (8)),
(mq (1) (4), mq (17) (8)),
(mq (1) (4), mq (29) (8)),
(mq (1) (4), mq (45) (8)),
(mq (1) (4), mq (65) (8)),
(mq (1) (4), mq (89) (8)),
(mq (1) (4), mq (117) (8)),
(mq (1) (4), mq (149) (8)),
(mq (1) (4), mq (185) (8)),
(mq (1) (4), mq (181) (8)),
(mq (1) (4), mq (145) (8)),
(mq (1) (4), mq (113) (8)),
(mq (1) (4), mq (85) (8)),
(mq (1) (4), mq (61) (8)),
(mq (1) (4), mq (41) (8)),
(mq (1) (4), mq (25) (8)),
(mq (1) (4), mq (13) (8)),
(mq (1) (4), mq (5) (8)),
(mq (1) (4), mq (1) (8))]

/-- Stored (area, squared centroid distance to (5,5)) pairs of source
cells 210..419 (proved below to equal the computed values). -/
def srcCellsL1 : List (Frac × Frac) := [
(mq (1) (4), mq (1) (8)),
(mq (1) (4), mq (5) (8)),
(mq (1) (4), mq (13) (8)),
(mq (1) (4), mq (25) (8)),
(mq (1) (4), mq (41) (8)),
(mq (1) (4), mq (61) (8)),
(mq (1) (4), mq (85) (8)),
(mq (1) (4), mq (113) (8)),
(mq (1) (4), mq (145) (8)),
(mq (1) (4), mq (181) (8)),
(mq (1) (4), mq (181) (8)),
(mq (1) (4), mq (145) (8)),
(mq (1) (4), mq (113) (8)),
(mq (1) (4), mq (85) (8)),
(mq (1) (4), mq (61) (8)),
(mq (1) (4), mq (41) (8)),
(mq (1) (4), mq (25) (8)),
(mq (1) (4), mq (13) (8)),
(mq (1) (4), mq (5) (8)),
(mq (1) (4), mq (1) (8)),
(mq (1) (4), mq (1) (8)),
(mq (1) (4), mq (5) (8)),
(mq (1) (4), mq (13) (8)),
(mq (1) (4), mq (25) (8)),
(mq (1) (4), mq (41) (8)),
(mq (1) (4), mq (61) (8)),
(mq (1) (4), mq (85) (8)),
(mq (1) (4), mq (113) (8)),
(mq (1) (4), mq (145) (8)),
(mq (1) (4), mq (181) (8)),
(mq (1) (4), mq (185) (8)),
(mq (1) (4), mq (149) (8)),
(mq (1) (4), mq (117) (8)),
(mq (1) (4), mq (89) (8)),
(mq (1) (4), mq (65) (8)),
(mq (1) (4), mq (45) (8)),
(mq (1) (4), mq (29) (8)),
(mq (1) (4), mq (17) (8)),
(mq (1) (4), mq (9) (8)),
(mq (1) (4), mq (5) (8)),
(mq (1) (4), mq (5) (8)),
(mq (1) (4), mq (9) (8)),
(mq (1) (4), mq (17) (8)),
(mq (1) (4), mq (29) (8)),
(mq (1) (4), mq (45) (8)),
(mq (1) (4), mq (65) (8)),
(mq (1) (4), mq (89) (8)),
(mq (1) (4), mq (117) (8)),
(mq (1) (4), mq (149) (8)),
(mq (1) (4), mq (185) (8)),
(mq (1) (4), mq (193) (8)),
(mq (1) (4), mq (157) (8)),
(mq (1) (4), mq (125) (8)),
(mq (1) (4), mq (97) (8)),
(mq (1) (4), mq (73) (8)),
(mq (1) (4), mq (53) (8)),
(mq (1) (4), mq (37) (8)),
(mq (1) (4), mq (25) (8)),
(mq (1) (4), mq (17) (8)),
(mq (1) (4), mq (13) (8)),
(mq (1) (4), mq (13) (8)),
(mq (1) (4), mq (17) (8)),
(mq (1) (4), mq (25) (8)),
(mq (1) (4), mq (37) (8)),
(mq (1) (4), mq (53) (8)),
(mq (1) (4), mq (73) (8)),
(mq (1) (4), mq (97) (8)),
(mq (1) (4), mq (125) (8)),
(mq (1) (4), mq (157) (8)),
(mq (1) (4), mq (193) (8)),
(mq (1) (4), mq (205) (8)),
(mq (1) (4), mq (169) (8)),
(mq (1) (4), mq (137) (8)),
(mq (1) (4), mq (109) (8)),
(mq (1) (4), mq (85) (8)),
(mq (1) (4), mq (65) (8)),
(mq (1) (4), mq (49) (8)),
(mq (1) (4), mq (37) (8)),
(mq (1) (4), mq (29) (8)),
(mq (1) (4), mq (25) (8)),
(mq (1) (4), mq (25) (8)),
(mq (1) (4), mq (29) (8)),
(mq (1) (4), mq (37) (8)),
(mq (1) (4), mq (49) (8)),
(mq (1) (4), mq (65) (8)),
(mq (1) (4), mq (85) (8)),
(mq (1) (4), mq (109) (8)),
(mq (1) (4), mq (137) (8)),
(mq (1) (4), mq (169) (8)),
(mq (1) (4), mq (205) (8)),
(mq (1) (4), mq (221) (8)),
(mq (1) (4), mq (185) (8)),
(mq (1) (4), mq (153) (8)),
(mq (1) (4), mq (125) (8)),
(mq (1) (4), mq (101) (8)),
(mq (1) (4), mq (81) (8)),
(mq (1) (4), mq (65) (8)),
(mq (1) (4), mq (53) (8)),
(mq (1) (4), mq (45) (8)),
(mq (1) (4), mq (41) (8)),
(mq (1) (4), mq (41) (8)),
(mq (1) (4), mq (45) (8)),
(mq (1) (4), mq (53) (8)),
(mq (1) (4), mq (65) (8)),
(mq (1) (4), mq (81) (8)),
(mq (1) (4), mq (101) (8)),
(mq (1) (4), mq (125) (8)),
(mq (1) (4), mq (153) (8)),
(mq (1) (4), mq (185) (8)),
(mq (1) (4), mq (221) (8)),
(mq (1) (4), mq (241) (8)),
(mq (1) (4), mq (205) (8)),
(mq (1) (4), mq (173) (8)),
(mq (1) (4), mq (145) (8)),
(mq (1) (4), mq (121) (8)),
(mq (1) (4), mq (101) (8)),
(mq (1) (4), mq (85) (8)),
(mq (1) (4), mq (73) (8)),
(mq (1) (4), mq (65) (8)),
(mq (1) (4), mq (61) (8)),
(mq (1) (4), mq (61) (8)),
(mq (1) (4), mq (65) (8)),
(mq (1) (4), mq (73) (8)),
(mq (1) (4), mq (85) (8)),
(mq (1) (4), mq (101) (8)),
(mq (1) (4), mq (121) (8)),
(mq (1) (4), mq (145) (8)),
(mq (1) (4), mq (173) (8)),
(mq (1) (4), mq (205) (8)),
(mq (1) (4), mq (241) (8)),
(mq (1) (4), mq (265) (8)),
(mq (1) (4), mq (229) (8)),
(mq (1) (4), mq (197) (8)),
(mq (1) (4), mq (169) (8)),
(mq (1) (4), mq (145) (8)),
(mq (1) (4), mq (125) (8)),
(mq (1) (4), mq (109) (8)),
(mq (1) (4), mq (97) (8)),
(mq (1) (4), mq (89) (8)),
(mq (1) (4), mq (85) (8)),
(mq (1) (4), mq (85) (8)),
(mq (1) (4), mq (89) (8)),
(mq (1) (4), mq (97) (8)),
(mq (1) (4), mq (109) (8)),
(mq (1) (4), mq (125) (8)),
(mq (1) (4), mq (145) (8)),
(mq (1) (4), mq (169) (8)),
(mq (1) (4), mq (197) (8)),
(mq (1) (4), mq (229) (8)),
(mq (1) (4), mq (265) (8)),
(mq (1) (4), mq (293) (8)),
(mq (1) (4), mq (257) (8)),
(mq (1) (4), mq (225) (8)),
(mq (1) (4), mq (197) (8)),
(mq (1) (4), mq (173) (8)),
(mq (1) (4), mq (153) (8)),
(mq (1) (4), mq (137) (8)),
(mq (1) (4), mq (125) (8)),
(mq (1) (4), mq (117) (8)),
(mq (1) (4), mq (113) (8)),
(mq (1) (4), mq (113) (8)),
(mq (1) (4), mq (117) (8)),
(mq (1) (4), mq (125) (8)),
(mq (1) (4), mq (137) (8)),
(mq (1) (4), mq (153) (8)),
(mq (1) (4), mq (173) (8)),
(mq (1) (4), mq (197) (8)),
(mq (1) (4), mq (225) (8)),
(mq (1) (4), mq (257) (8)),
(mq (1) (4), mq (293) (8)),
(mq (1) (4), mq (325) (8)),
(mq (1) (4), mq (289) (8)),
(mq (1) (4), mq (257) (8)),
(mq (1) (4), mq (229) (8)),
(mq (1) (4), mq (205) (8)),
(mq (1) (4), mq (185) (8)),
(mq (1) (4), mq (169) (8)),
(mq (1) (4), mq (157) (8)),
(mq (1) (4), mq (149) (8)),
(mq (1) (4), mq (145) (8)),
(mq (1) (4), mq (145) (8)),
(mq (1) (4), mq (149) (8)),
(mq (1) (4), mq (157) (8)),
(mq (1) (4), mq (169) (8)),
(mq (1) (4), mq (185) (8)),
(mq (1) (4), mq (205) (8)),
(mq (1) (4), mq (229) (8)),
(mq (1) (4), mq (257) (8)),
(mq (1) (4), mq (289) (8)),
(mq (1) (4), mq (325) (8)),
(mq (1) (4), mq (361) (8)),
(mq (1) (4), mq (325) (8)),
(mq (1) (4), mq (293) (8)),
(mq (1) (4), mq (265) (8)),
(mq (1) (4), mq (241) (8)),
(mq (1) (4), mq (221) (8)),
(mq (1) (4), mq (205) (8)),
(mq (1) (4), mq (193) (8)),
(mq (1) (4), mq (185) (8)),
(mq (1) (4), mq (181) (8)),
(mq (1) (4), mq (181) (8)),
(mq (1) (4), mq (185) (8)),
(mq (1) (4), mq (193) (8)),
(mq (1) (4), mq (205) (8)),
(mq (1) (4), mq (221) (8)),
(mq (1) (4), mq (241) (8)),
(mq (1) (4), mq (265) (8)),
(mq (1) (4), mq (293) (8)),
(mq (1) (4), mq (325) (8)),
(mq (1) (4), mq (361) (8))]

/-- Stored (area, squared centroid distance to (5,5)) pairs of all 420
source cells. -/
def srcCellsLit : List (Frac × Frac) := srcCellsL0 ++ srcCellsL1

/-- List of the 420 source cell areas. -/
def srcAreasL : List Frac := (List.range 420).map srcAreaF

/-- Scatter-accumulate the sparse rows into a dense vector of column sums. -/
def scatterRow (row : List (Nat × Frac)) (acc : List Frac) : List Frac :=
  row.foldr (fun sw a => a.set sw.1 ((a.getD sw.1 Frac.zero).add sw.2)) acc

def scatterAcc (n : Nat) (rows : List (List (Nat × Frac))) : List Frac :=
  rows.foldr scatterRow (List.replicate n Frac.zero)

/-- Value-level equality of two fraction lists. -/
def listEqb (xs ys : List Frac) : Bool :=
  xs.length == ys.length && ((xs.zip ys).all (fun p => p.1.eqb p.2))

/-- Stored column accumulator after scattering rows 75..99 of the
crude matrix (proved below). -/
def colAcc3 : List Frac := [
mq (0) (1),
mq (0) (1),
mq (0) (1),
mq (0) (1),
mq (0) (1),
mq (0) (1),
mq (0) (1),
mq (0) (1),
mq (0) (1),
mq (0) (1),
mq (0) (1),
mq (0) (1),
mq (0) (1),
mq (0) (1),
mq (0) (1),
mq (0) (1),
mq (0) (1),
mq (0) (1),
mq (0) (1),
mq (0) (1),
mq (0) (1),
mq (0) (1),
mq (0) (1),
mq (0) (1),
mq (0) (1),
mq (0) (1),
mq (0) (1),
mq (0) (1),
mq (0) (1),
mq (0) (1),
mq (0) (1),
mq (0) (1),
mq (0) (1),
mq (0) (1),
mq (0) (1),
mq (0) (1),
mq (0) (1),
mq (0) (1),
mq (0) (1),
mq (0) (1),
mq (0) (1),
mq (0) (1),
mq (0) (1),
mq (0) (1),
mq (0) (1),
mq (0) (1),
mq (0) (1),
mq (0) (1),
mq (0) (1),
mq (0) (1),
mq (0) (1),
mq (0) (1),
mq (0) (1),
mq (0) (1),
mq (0) (1),
mq (0) (1),
mq (0) (1),
mq (0) (1),
mq (0) (1),
mq (0) (1),
mq (0) (1),
mq (0) (1),
mq (0) (1),
mq (0) (1),
mq (0) (1),
mq (0) (1),
mq (0) (1),
mq (0) (1),
mq (0) (1),
mq (0) (1),
mq (0) (1),
mq (0) (1),
mq (0) (1),
mq (0) (1),
mq (0) (1),
mq (0) (1),
mq (0) (1),
mq (0) (1),
mq (0) (1),
mq (0) (1),
mq (0) (1),
mq (0) (1),
mq (0) (1),
mq (0) (1),
mq (0) (1),
mq (0) (1),
mq (0) (1),
mq (0) (1),
mq (0) (1),
mq (0) (1),
mq (0) (1),
mq (0) (1),
mq (0) (1),
mq (0) (1),
mq (0) (1),
mq (0) (1),
mq (0) (1),
mq (0) (1),
mq (0) (1),
mq (0) (1),
mq (0) (1),
mq (0) (1),
mq (0) (1),
mq (0) (1),
mq (0) (1),
mq (0) (1),
mq (0) (1),
mq (0) (1),
mq (0) (1),
mq (0) (1),
mq (0) (1),
mq (0) (1),
mq (0) (1),
mq (0) (1),
mq (0) (1),
mq (0) (1),
mq (0) (1),
mq (0) (1),
mq (0) (1),
mq (0) (1),
mq (0) (1),
mq (0) (1),
mq (0) (1),
mq (0) (1),
mq (0) (1),
mq (0) (1),
mq (0) (1),
mq (0) (1),
mq (0) (1),
mq (0) (1),
mq (0) (1),
mq (0) (1),
mq (0) (1),
mq (0) (1),
mq (0) (1),
mq (0) (1),
mq (0) (1),
mq (0) (1),
mq (0) (1),
mq (0) (1),
mq (0) (1),
mq (0) (1),
mq (0) (1),
mq (0) (1),
mq (0) (1),
mq (0) (1),
mq (0) (1),
mq (0) (1),
mq (0) (1),
mq (0) (1),
mq (0) (1),
mq (0) (1),
mq (0) (1),
mq (0) (1),
mq (0) (1),
mq (0) (1),
mq (0) (1),
mq (0) (1),
mq (0) (1),
mq (0) (1),
mq (0) (1),
mq (0) (1),
mq (0) (1),
mq (0) (1),
mq (0) (1),
mq (0) (1),
mq (0) (1),
mq (0) (1),
mq (0) (1),
mq (0) (1),
mq (0) (1),
mq (0) (1),
mq (0) (1),
mq (0) (1),
mq (0) (1),
mq (0) (1),
mq (0) (1),
mq (0) (1),
mq (0) (1),
mq (0) (1),
mq (0) (1),
mq (0) (1),
mq (0) (1),
mq (0) (1),
mq (0) (1),
mq (0) (1),
mq (0) (1),
mq (0) (1),
mq (0) (1),
mq (0) (1),
mq (0) (1),
mq (0) (1),
mq (0) (1),
mq (0) (1),
mq (0) (1),
mq (0) (1),
mq (0) (1),
mq (0) (1),
mq (0) (1),
mq (0) (1),
mq (0) (1),
mq (0) (1),
mq (0) (1),
mq (0) (1),
mq (0) (1),
mq (0) (1),
mq (0) (1),
mq (0) (1),
mq (0) (1),
mq (0) (1),
mq (0) (1),
mq (0) (1),
mq (0) (1),
mq (0) (1),
mq (0) (1),
mq (0) (1),
mq (0) (1),
mq (0) (1),
mq (0) (1),
mq (0) (1),
mq (0) (1),
mq (0) (1),
mq (0) (1),
mq (0) (1),
mq (0) (1),
mq (0) (1),
mq (0) (1),
mq (0) (1),
mq (0) (1),
mq (0) (1),
mq (0) (1),
mq (0) (1),
mq (0) (1),
mq (0) (1),
mq (0) (1),
mq (0) (1),
mq (0) (1),
mq (0) (1),
mq (0) (1),
mq (0) (1),
mq (0) (1),
mq (0) (1),
mq (0) (1),
mq (0) (1),
mq (0) (1),
mq (0) (1),
mq (0) (1),
mq (0) (1),
mq (0) (1),
mq (0) (1),
mq (0) (1),
mq (0) (1),
mq (0) (1),
mq (0) (1),
mq (0) (1),
mq (0) (1),
mq (0) (1),
mq (0) (1),
mq (0) (1),
mq (0) (1),
mq (0) (1),
mq (0) (1),
mq (0) (1),
mq (0) (1),
mq (0) (1),
mq (0) (1),
mq (0) (1),
mq (0) (1),
mq (0) (1),
mq (0) (1),
mq (0) (1),
mq (0) (1),
mq (0) (1),
mq (0) (1),
mq (0) (1),
mq (0) (1),
mq (0) (1),
mq (0) (1),
mq (0) (1),
mq (0) (1),
mq (0) (1),
mq (0) (1),
mq (0) (1),
mq (0) (1),
mq (0) (1),
mq (0) (1),
mq (0) (1),
mq (0) (1),
mq (0) (1),
mq (0) (1),
mq (0) (1),
mq (0) (1),
mq (0) (1),
mq (0) (1),
mq (0) (1),
mq (0) (1),
mq (0) (1),
mq (0) (1),
mq (0) (1),
mq (0) (1),
mq (0) (1),
mq (0) (1),
mq (0) (1),
mq (0) (1),
mq (0) (1),
mq (0) (1),
mq (0) (1),
mq (0) (1),
mq (0) (1),
mq (0) (1),
mq (1) (4),
mq (1) (4),
mq (1) (4),
mq (1) (4),
mq (1) (4),
mq (1) (4),
mq (1) (4),
mq (1) (4),
mq (1) (4),
mq (1) (4),
mq (0) (1),
mq (0) (1),
mq (0) (1),
mq (0) (1),
mq (0) (1),
mq (0) (1),
mq (0) (1),
mq (0) (1),
mq (0) (1),
mq (0) (1),
mq (1) (4),
mq (1) (4),
mq (1) (4),
mq (1) (4),
mq (1) (4),
mq (1) (4),
mq (1) (4),
mq (1) (4),
mq (1) (4),
mq (1) (4),
mq (1) (4),
mq (1) (4),
mq (1) (4),
mq (1) (4),
mq (1) (4),
mq (1) (4),
mq (1) (4),
mq (1) (4),
mq (1) (4),
mq (1) (4),
mq (1) (4),
mq (1) (4),
mq (1) (4),
mq (1) (4),
mq (1) (4),
mq (1) (4),
mq (1) (4),
mq (1) (4),
mq (1) (4),
mq (1) (4),
mq (1) (4),
mq (1) (4),
mq (1) (4),
mq (1) (4),
mq (1) (4),
mq (1) (4),
mq (1) (4),
mq (1) (4),
mq (1) (4),
mq (1) (4),
mq (1) (4),
mq (1) (4),
mq (1) (4),
mq (1) (4),
mq (1) (4),
mq (1) (4),
mq (1) (4),
mq (1) (4),
mq (1) (4),
mq (1) (4),
mq (1) (4),
mq (1) (4),
mq (1) (4),
mq (1) (4),
mq (1) (4),
mq (1) (4),
mq (1) (4),
mq (1) (4),
mq (1) (4),
mq (1) (4),
mq (1) (4),
mq (1) (4),
mq (1) (4),
mq (1) (4),
mq (1) (4),
mq (1) (4),
mq (1) (4),
mq (1) (4),
mq (1) (4),
mq (1) (4),
mq (1) (4),
mq (1) (4),
mq (1) (4),
mq (1) (4),
mq (1) (4),
mq (1) (4),
mq (1) (4),
mq (1) (4),
mq (1) (4),
mq (1) (4),
mq (1) (4),
mq (1) (4),
mq (1) (4),
mq (1) (4),
mq (1) (4),
mq (1) (4),
mq (1) (4),
mq (1) (4),
mq (1) (4),
mq (1) (4)]

/-- Stored column accumulator after scattering rows 50..99 of the
crude matrix (proved below). -/
def colAcc2 : List Frac := [
mq (0) (1),
mq (0) (1),
mq (0) (1),
mq (0) (1),
mq (0) (1),
mq (0) (1),
mq (0) (1),
mq (0) (1),
mq (0) (1),
mq (0) (1),
mq (0) (1),
mq (0) (1),
mq (0) (1),
mq (0) (1),
mq (0) (1),
mq (0) (1),
mq (0) (1),
mq (0) (1),
mq (0) (1),
mq (0) (1),
mq (0) (1),
mq (0) (1),
mq (0) (1),
mq (0) (1),
mq (0) (1),
mq (0) (1),
mq (0) (1),
mq (0) (1),
mq (0) (1),
mq (0) (1),
mq (0) (1),
mq (0) (1),
mq (0) (1),
mq (0) (1),
mq (0) (1),
mq (0) (1),
mq (0) (1),
mq (0) (1),
mq (0) (1),
mq (0) (1),
mq (0) (1),
mq (0) (1),
mq (0) (1),
mq (0) (1),
mq (0) (1),
mq (0) (1),
mq (0) (1),
mq (0) (1),
mq (0) (1),
mq (0) (1),
mq (0) (1),
mq (0) (1),
mq (0) (1),
mq (0) (1),
mq (0) (1),
mq (0) (1),
mq (0) (1),
mq (0) (1),
mq (0) (1),
mq (0) (1),
mq (0) (1),
mq (0) (1),
mq (0) (1),
mq (0) (1),
mq (0) (1),
mq (0) (1),
mq (0) (1),
mq (0) (1),
mq (0) (1),
mq (0) (1),
mq (0) (1),
mq (0) (1),
mq (0) (1),
mq (0) (1),
mq (0) (1),
mq (0) (1),
mq (0) (1),
mq (0) (1),
mq (0) (1),
mq (0) (1),
mq (0) (1),
mq (0) (1),
mq (0) (1),
mq (0) (1),
mq (0) (1),
mq (0) (1),
mq (0) (1),
mq (0) (1),
mq (0) (1),
mq (0) (1),
mq (0) (1),
mq (0) (1),
mq (0) (1),
mq (0) (1),
mq (0) (1),
mq (0) (1),
mq (0) (1),
mq (0) (1),
mq (0) (1),
mq (0) (1),
mq (0) (1),
mq (0) (1),
mq (0) (1),
mq (0) (1),
mq (0) (1),
mq (0) (1),
mq (0) (1),
mq (0) (1),
mq (0) (1),
mq (0) (1),
mq (0) (1),
mq (0) (1),
mq (0) (1),
mq (0) (1),
mq (0) (1),
mq (0) (1),
mq (0) (1),
mq (0) (1),
mq (0) (1),
mq (0) (1),
mq (0) (1),
mq (0) (1),
mq (0) (1),
mq (0) (1),
mq (0) (1),
mq (0) (1),
mq (0) (1),
mq (0) (1),
mq (0) (1),
mq (0) (1),
mq (0) (1),
mq (0) (1),
mq (0) (1),
mq (0) (1),
mq (0) (1),
mq (0) (1),
mq (0) (1),
mq (0) (1),
mq (0) (1),
mq (0) (1),
mq (0) (1),
mq (0) (1),
mq (0) (1),
mq (0) (1),
mq (0) (1),
mq (0) (1),
mq (0) (1),
mq (0) (1),
mq (0) (1),
mq (0) (1),
mq (0) (1),
mq (0) (1),
mq (0) (1),
mq (0) (1),
mq (0) (1),
mq (0) (1),
mq (0) (1),
mq (0) (1),
mq (0) (1),
mq (0) (1),
mq (0) (1),
mq (0) (1),
mq (0) (1),
mq (0) (1),
mq (0) (1),
mq (0) (1),
mq (0) (1),
mq (0) (1),
mq (0) (1),
mq (0) (1),
mq (0) (1),
mq (0) (1),
mq (0) (1),
mq (0) (1),
mq (0) (1),
mq (0) (1),
mq (0) (1),
mq (0) (1),
mq (0) (1),
mq (0) (1),
mq (0) (1),
mq (0) (1),
mq (0) (1),
mq (0) (1),
mq (0) (1),
mq (0) (1),
mq (0) (1),
mq (0) (1),
mq (0) (1),
mq (0) (1),
mq (0) (1),
mq (0) (1),
mq (0) (1),
mq (0) (1),
mq (0) (1),
mq (0) (1),
mq (0) (1),
mq (0) (1),
mq (0) (1),
mq (0) (1),
mq (0) (1),
mq (0) (1),
mq (0) (1),
mq (0) (1),
mq (0) (1),
mq (0) (1),
mq (0) (1),
mq (0) (1),
mq (0) (1),
mq (0) (1),
mq (0) (1),
mq (0) (1),
mq (0) (1),
mq (0) (1),
mq (0) (1),
mq (0) (1),
mq (0) (1),
mq (0) (1),
mq (0) (1),
mq (0) (1),
mq (1) (4),
mq (1) (4),
mq (1) (4),
mq (1) (4),
mq (1) (4),
mq (1) (4),
mq (1) (4),
mq (1) (4),
mq (1) (4),
mq (1) (4),
mq (1) (4),
mq (1) (4),
mq (1) (4),
mq (1) (4),
mq (1) (4),
mq (1) (4),
mq (1) (4),
mq (1) (4),
mq (1) (4),
mq (1) (4),
mq (1) (4),
mq (1) (4),
mq (1) (4),
mq (1) (4),
mq (1) (4),
mq (1) (4),
mq (1) (4),
mq (1) (4),
mq (1) (4),
mq (1) (4),
mq (1) (4),
mq (1) (4),
mq (1) (4),
mq (1) (4),
mq (1) (4),
mq (1) (4),
mq (1) (4),
mq (1) (4),
mq (1) (4),
mq (1) (4),
mq (1) (4),
mq (1) (4),
mq (1) (4),
mq (1) (4),
mq (1) (4),
mq (1) (4),
mq (1) (4),
mq (1) (4),
mq (1) (4),
mq (1) (4),
mq (1) (4),
mq (1) (4),
mq (1) (4),
mq (1) (4),
mq (1) (4),
mq (1) (4),
mq (1) (4),
mq (1) (4),
mq (1) (4),
mq (1) (4),
mq (1) (4),
mq (1) (4),
mq (1) (4),
mq (1) (4),
mq (1) (4),
mq (1) (4),
mq (1) (4),
mq (1) (4),
mq (1) (4),
mq (1) (4),
mq (1) (4),
mq (1) (4),
mq (1) (4),
mq (1) (4),
mq (1) (4),
mq (1) (4),
mq (1) (4),
mq (1) (4),
mq (1) (4),
mq (1) (4),
mq (1) (4),
mq (1) (4),
mq (1) (4),
mq (1) (4),
mq (1) (4),
mq (1) (4),
mq (1) (4),
mq (1) (4),
mq (1) (4),
mq (1) (4),
mq (1) (4),
mq (1) (4),
mq (1) (4),
mq (1) (4),
mq (1) (4),
mq (1) (4),
mq (1) (4),
mq (1) (4),
mq (1) (4),
mq (1) (4),
mq (1) (4),
mq (1) (4),
mq (1) (4),
mq (1) (4),
mq (1) (4),
mq (1) (4),
mq (1) (4),
mq (1) (4),
mq (1) (4),
mq (1) (4),
mq (1) (4),
mq (1) (4),
mq (1) (4),
mq (1) (4),
mq (1) (4),
mq (1) (4),
mq (1) (4),
mq (1) (4),
mq (1) (4),
mq (1) (4),
mq (1) (4),
mq (1) (4),
mq (1) (4),
mq (1) (4),
mq (1) (4),
mq (1) (4),
mq (1) (4),
mq (1) (4),
mq (1) (4),
mq (1) (4),
mq (1) (4),
mq (1) (4),
mq (1) (4),
mq (1) (4),
mq (1) (4),
mq (1) (4),
mq (1) (4),
mq (1) (4),
mq (1) (4),
mq (1) (4),
mq (1) (4),
mq (1) (4),
mq (1) (4),
mq (1) (4),
mq (1) (4),
mq (1) (4),
mq (1) (4),
mq (1) (4),
mq (1) (4),
mq (1) (4),
mq (1) (4),
mq (1) (4),
mq (1) (4),
mq (1) (4),
mq (1) (4),
mq (1) (4),
mq (1) (4),
mq (1) (4),
mq (1) (4),
mq (1) (4),
mq (1) (4),
mq (1) (4),
mq (1) (4),
mq (1) (4),
mq (1) (4),
mq (1) (4),
mq (1) (4),
mq (1) (4),
mq (1) (4),
mq (1) (4),
mq (1) (4),
mq (1) (4),
mq (1) (4),
mq (1) (4),
mq (1) (4),
mq (1) (4),
mq (1) (4),
mq (1) (4),
mq (1) (4),
mq (1) (4),
mq (1) (4),
mq (1) (4),
mq (1) (4),
mq (1) (4),
mq (1) (4),
mq (1) (4),
mq (1) (4),
mq (1) (4),
mq (1) (4),
mq (1) (4),
mq (1) (4),
mq (1) (4),
mq (1) (4),
mq (1) (4),
mq (1) (4),
mq (1) (4),
mq (1) (4),
mq (1) (4),
mq (1) (4),
mq (1) (4)]

/-- Stored column accumulator after scattering rows 25..99 of the
crude matrix (proved below). -/
def colAcc1 : List Frac := [
mq (0) (1),
mq (0) (1),
mq (0) (1),
mq (0) (1),
mq (0) (1),
mq (0) (1),
mq (0) (1),
mq (0) (1),
mq (0) (1),
mq (0) (1),
mq (0) (1),
mq (0) (1),
mq (0) (1),
mq (0) (1),
mq (0) (1),
mq (0) (1),
mq (0) (1),
mq (0) (1),
mq (0) (1),
mq (0) (1),
mq (0) (1),
mq (0) (1),
mq (0) (1),
mq (0) (1),
mq (0) (1),
mq (0) (1),
mq (0) (1),
mq (0) (1),
mq (0) (1),
mq (0) (1),
mq (0) (1),
mq (0) (1),
mq (0) (1),
mq (0) (1),
mq (0) (1),
mq (0) (1),
mq (0) (1),
mq (0) (1),
mq (0) (1),
mq (0) (1),
mq (0) (1),
mq (0) (1),
mq (0) (1),
mq (0) (1),
mq (0) (1),
mq (0) (1),
mq (0) (1),
mq (0) (1),
mq (0) (1),
mq (0) (1),
mq (0) (1),
mq (0) (1),
mq (0) (1),
mq (0) (1),
mq (0) (1),
mq (0) (1),
mq (0) (1),
mq (0) (1),
mq (0) (1),
mq (0) (1),
mq (0) (1),
mq (0) (1),
mq (0) (1),
mq (0) (1),
mq (0) (1),
mq (0) (1),
mq (0) (1),
mq (0) (1),
mq (0) (1),
mq (0) (1),
mq (0) (1),
mq (0) (1),
mq (0) (1),
mq (0) (1),
mq (0) (1),
mq (0) (1),
mq (0) (1),
mq (0) (1),
mq (0) (1),
mq (0) (1),
mq (0) (1),
mq (0) (1),
mq (0) (1),
mq (0) (1),
mq (0) (1),
mq (0) (1),
mq (0) (1),
mq (0) (1),
mq (0) (1),
mq (0) (1),
mq (0) (1),
mq (0) (1),
mq (0) (1),
mq (0) (1),
mq (0) (1),
mq (0) (1),
mq (0) (1),
mq (0) (1),
mq (0) (1),
mq (0) (1),
mq (0) (1),
mq (0) (1),
mq (0) (1),
mq (0) (1),
mq (0) (1),
mq (0) (1),
mq (0) (1),
mq (0) (1),
mq (0) (1),
mq (0) (1),
mq (1) (4),
mq (1) (4),
mq (1) (4),
mq (1) (4),
mq (1) (4),
mq (1) (4),
mq (1) (4),
mq (1) (4),
mq (1) (4),
mq (1) (4),
mq (0) (1),
mq (0) (1),
mq (0) (1),
mq (0) (1),
mq (0) (1),
mq (0) (1),
mq (0) (1),
mq (0) (1),
mq (0) (1),
mq (0) (1),
mq (1) (4),
mq (1) (4),
mq (1) (4),
mq (1) (4),
mq (1) (4),
mq (1) (4),
mq (1) (4),
mq (1) (4),
mq (1) (4),
mq (1) (4),
mq (1) (4),
mq (1) (4),
mq (1) (4),
mq (1) (4),
mq (1) (4),
mq (1) (4),
mq (1) (4),
mq (1) (4),
mq (1) (4),
mq (1) (4),
mq (1) (4),
mq (1) (4),
mq (1) (4),
mq (1) (4),
mq (1) (4),
mq (1) (4),
mq (1) (4),
mq (1) (4),
mq (1) (4),
mq (1) (4),
mq (1) (4),
mq (1) (4),
mq (1) (4),
mq (1) (4),
mq (1) (4),
mq (1) (4),
mq (1) (4),
mq (1) (4),
mq (1) (4),
mq (1) (4),
mq (1) (4),
mq (1) (4),
mq (1) (4),
mq (1) (4),
mq (1) (4),
mq (1) (4),
mq (1) (4),
mq (1) (4),
mq (1) (4),
mq (1) (4),
mq (1) (4),
mq (1) (4),
mq (1) (4),
mq (1) (4),
mq (1) (4),
mq (1) (4),
mq (1) (4),
mq (1) (4),
mq (1) (4),
mq (1) (4),
mq (1) (4),
mq (1) (4),
mq (1) (4),
mq (1) (4),
mq (1) (4),
mq (1) (4),
mq (1) (4),
mq (1) (4),
mq (1) (4),
mq (1) (4),
mq (1) (4),
mq (1) (4),
mq (1) (4),
mq (1) (4),
mq (1) (4),
mq (1) (4),
mq (1) (4),
mq (1) (4),
mq (1) (4),
mq (1) (4),
mq (1) (4),
mq (1) (4),
mq (1) (4),
mq (1) (4),
mq (1) (4),
mq (1) (4),
mq (1) (4),
mq (1) (4),
mq (1) (4),
mq (1) (4),
mq (1) (4),
mq (1) (4),
mq (1) (4),
mq (1) (4),
mq (1) (4),
mq (1) (4),
mq (1) (4),
mq (1) (4),
mq (1) (4),
mq (1) (4),
mq (1) (4),
mq (1) (4),
mq (1) (4),
mq (1) (4),
mq (1) (4),
mq (1) (4),
mq (1) (4),
mq (1) (4),
mq (1) (4),
mq (1) (4),
mq (1) (4),
mq (1) (4),
mq (1) (4),
mq (1) (4),
mq (1) (4),
mq (1) (4),
mq (1) (4),
mq (1) (4),
mq (1) (4),
mq (1) (4),
mq (1) (4),
mq (1) (4),
mq (1) (4),
mq (1) (4),
mq (1) (4),
mq (1) (4),
mq (1) (4),
mq (1) (4),
mq (1) (4),
mq (1) (4),
mq (1) (4),
mq (1) (4),
mq (1) (4),
mq (1) (4),
mq (1) (4),
mq (1) (4),
mq (1) (4),
mq (1) (4),
mq (1) (4),
mq (1) (4),
mq (1) (4),
mq (1) (4),
mq (1) (4),
mq (1) (4),
mq (1) (4),
mq (1) (4),
mq (1) (4),
mq (1) (4),
mq (1) (4),
mq (1) (4),
mq (1) (4),
mq (1) (4),
mq (1) (4),
mq (1) (4),
mq (1) (4),
mq (1) (4),
mq (1) (4),
mq (1) (4),
mq (1) (4),
mq (1) (4),
mq (1) (4),
mq (1) (4),
mq (1) (4),
mq (1) (4),
mq (1) (4),
mq (1) (4),
mq (1) (4),
mq (1) (4),
mq (1) (4),
mq (1) (4),
mq (1) (4),
mq (1) (4),
mq (1) (4),
mq (1) (4),
mq (1) (4),
mq (1) (4),
mq (1) (4),
mq (1) (4),
mq (1) (4),
mq (1) (4),
mq (1) (4),
mq (1) (4),
mq (1) (4),
mq (1) (4),
mq (1) (4),
mq (1) (4),
mq (1) (4),
mq (1) (4),
mq (1) (4),
mq (1) (4),
mq (1) (4),
mq (1) (4),
mq (1) (4),
mq (1) (4),
mq (1) (4),
mq (1) (4),
mq (1) (4),
mq (1) (4),
mq (1) (4),
mq (1) (4),
mq (1) (4),
mq (1) (4),
mq (1) (4),
mq (1) (4),
mq (1) (4),
mq (1) (4),
mq (1) (4),
mq (1) (4),
mq (1) (4),
mq (1) (4),
mq (1) (4),
mq (1) (4),
mq (1) (4),
mq (1) (4),
mq (1) (4),
mq (1) (4),
mq (1) (4),
mq (1) (4),
mq (1) (4),
mq (1) (4),
mq (1) (4),
mq (1) (4),
mq (1) (4),
mq (1) (4),
mq (1) (4),
mq (1) (4),
mq (1) (4),
mq (1) (4),
mq (1) (4),
mq (1) (4),
mq (1) (4),
mq (1) (4),
mq (1) (4),
mq (1) (4),
mq (1) (4),
mq (1) (4),
mq (1) (4),
mq (1) (4),
mq (1) (4),
mq (1) (4),
mq (1) (4),
mq (1) (4),
mq (1) (4),
mq (1) (4),
mq (1) (4),
mq (1) (4),
mq (1) (4),
mq (1) (4),
mq (1) (4),
mq (1) (4),
mq (1) (4),
mq (1) (4),
mq (1) (4),
mq (1) (4),
mq (1) (4),
mq (1) (4),
mq (1) (4),
mq (1) (4),
mq (1) (4),
mq (1) (4),
mq (1) (4),
mq (1) (4),
mq (1) (4),
mq (1) (4),
mq (1) (4),
mq (1) (4),
mq (1) (4),
mq (1) (4),
mq (1) (4),
mq (1) (4),
mq (1) (4),
mq (1) (4),
mq (1) (4),
mq (1) (4),
mq (1) (4),
mq (1) (4),
mq (1) (4),
mq (1) (4),
mq (1) (4),
mq (1) (4),
mq (1) (4),
mq (1) (4),
mq (1) (4),
mq (1) (4),
mq (1) (4),
mq (1) (4),
mq (1) (4),
mq (1) (4),
mq (1) (4),
mq (1) (4)]

/-- Stored column accumulator after scattering all rows of the
crude matrix (proved below). -/
def colAcc0 : List Frac := [
mq (1) (8),
mq (1) (8),
mq (1) (8),
mq (1) (8),
mq (1) (8),
mq (1) (8),
mq (1) (8),
mq (1) (8),
mq (1) (8),
mq (1) (8),
mq (1) (8),
mq (1) (8),
mq (1) (8),
mq (1) (8),
mq (1) (8),
mq (1) (8),
mq (1) (8),
mq (1) (8),
mq (1) (8),
mq (1) (8),
mq (1) (8),
mq (1) (8),
mq (1) (8),
mq (1) (8),
mq (1) (8),
mq (1) (8),
mq (1) (8),
mq (1) (8),
mq (1) (8),
mq (1) (8),
mq (1) (8),
mq (1) (8),
mq (1) (8),
mq (1) (8),
mq (1) (8),
mq (1) (8),
mq (1) (8),
mq (1) (8),
mq (1) (8),
mq (1) (8),
mq (1) (4),
mq (1) (4),
mq (1) (4),
mq (1) (4),
mq (1) (4),
mq (1) (4),
mq (1) (4),
mq (1) (4),
mq (1) (4),
mq (1) (4),
mq (1) (4),
mq (1) (4),
mq (1) (4),
mq (1) (4),
mq (1) (4),
mq (1) (4),
mq (1) (4),
mq (1) (4),
mq (1) (4),
mq (1) (4),
mq (1) (4),
mq (1) (4),
mq (1) (4),
mq (1) (4),
mq (1) (4),
mq (1) (4),
mq (1) (4),
mq (1) (4),
mq (1) (4),
mq (1) (4),
mq (1) (4),
mq (1) (4),
mq (1) (4),
mq (1) (4),
mq (1) (4),
mq (1) (4),
mq (1) (4),
mq (1) (4),
mq (1) (4),
mq (1) (4),
mq (1) (4),
mq (1) (4),
mq (1) (4),
mq (1) (4),
mq (1) (4),
mq (1) (4),
mq (1) (4),
mq (1) (4),
mq (1) (4),
mq (1) (4),
mq (1) (4),
mq (1) (4),
mq (1) (4),
mq (1) (4),
mq (1) (4),
mq (1) (4),
mq (1) (4),
mq (1) (4),
mq (1) (4),
mq (1) (4),
mq (1) (4),
mq (1) (4),
mq (1) (4),
mq (1) (4),
mq (1) (4),
mq (1) (4),
mq (1) (4),
mq (1) (4),
mq (1) (4),
mq (1) (4),
mq (1) (4),
mq (1) (4),
mq (1) (4),
mq (1) (4),
mq (1) (4),
mq (1) (4),
mq (1) (4),
mq (1) (4),
mq (1) (4),
mq (1) (4),
mq (1) (4),
mq (1) (4),
mq (1) (4),
mq (1) (4),
mq (1) (4),
mq (1) (4),
mq (1) (4),
mq (1) (4),
mq (1) (4),
mq (1) (4),
mq (1) (4),
mq (1) (4),
mq (1) (4),
mq (1) (4),
mq (1) (4),
mq (1) (4),
mq (1) (4),
mq (1) (4),
mq (1) (4),
mq (1) (4),
mq (1) (4),
mq (1) (4),
mq (1) (4),
mq (1) (4),
mq (1) (4),
mq (1) (4),
mq (1) (4),
mq (1) (4),
mq (1) (4),
mq (1) (4),
mq (1) (4),
mq (1) (4),
mq (1) (4),
mq (1) (4),
mq (1) (4),
mq (1) (4),
mq (1) (4),
mq (1) (4),
mq (1) (4),
mq (1) (4),
mq (1) (4),
mq (1) (4),
mq (1) (4),
mq (1) (4),
mq (1) (4),
mq (1) (4),
mq (1) (4),
mq (1) (4),
mq (1) (4),
mq (1) (4),
mq (1) (4),
mq (1) (4),
mq (1) (4),
mq (1) (4),
mq (1) (4),
mq (1) (4),
mq (1) (4),
mq (1) (4),
mq (1) (4),
mq (1) (4),
mq (1) (4),
mq (1) (4),
mq (1) (4),
mq (1) (4),
mq (1) (4),
mq (1) (4),
mq (1) (4),
mq (1) (4),
mq (1) (4),
mq (1) (4),
mq (1) (4),
mq (1) (4),
mq (1) (4),
mq (1) (4),
mq (1) (4),
mq (1) (4),
mq (1) (4),
mq (1) (4),
mq (1) (4),
mq (1) (4),
mq (1) (4),
mq (1) (4),
mq (1) (4),
mq (1) (4),
mq (1) (4),
mq (1) (4),
mq (1) (4),
mq (1) (4),
mq (1) (4),
mq (1) (4),
mq (1) (4),
mq (1) (4),
mq (1) (4),
mq (1) (4),
mq (1) (4),
mq (1) (4),
mq (1) (4),
mq (1) (4),
mq (1) (4),
mq (1) (4),
mq (1) (4),
mq (1) (4),
mq (1) (4),
mq (1) (4),
mq (1) (4),
mq (1) (4),
mq (1) (4),
mq (1) (4),
mq (1) (4),
mq (1) (4),
mq (1) (4),
mq (1) (4),
mq (1) (4),
mq (1) (4),
mq (1) (4),
mq (1) (4),
mq (1) (4),
mq (1) (4),
mq (1) (4),
mq (1) (4),
mq (1) (4),
mq (1) (4),
mq (1) (4),
mq (1) (4),
mq (1) (4),
mq (1) (4),
mq (1) (4),
mq (1) (4),
mq (1) (4),
mq (1) (4),
mq (1) (4),
mq (1) (4),
mq (1) (4),
mq (1) (4),
mq (1) (4),
mq (1) (4),
mq (1) (4),
mq (1) (4),
mq (1) (4),
mq (1) (4),
mq (1) (4),
mq (1) (4),
mq (1) (4),
mq (1) (4),
mq (1) (4),
mq (1) (4),
mq (1) (4),
mq (1) (4),
mq (1) (4),
mq (1) (4),
mq (1) (4),
mq (1) (4),
mq (1) (4),
mq (1) (4),
mq (1) (4),
mq (1) (4),
mq (1) (4),
mq (1) (4),
mq (1) (4),
mq (1) (4),
mq (1) (4),
mq (1) (4),
mq (1) (4),
mq (1) (4),
mq (1) (4),
mq (1) (4),
mq (1) (4),
mq (1) (4),
mq (1) (4),
mq (1) (4),
mq (1) (4),
mq (1) (4),
mq (1) (4),
mq (1) (4),
mq (1) (4),
mq (1) (4),
mq (1) (4),
mq (1) (4),
mq (1) (4),
mq (1) (4),
mq (1) (4),
mq (1) (4),
mq (1) (4),
mq (1) (4),
mq (1) (4),
mq (1) (4),
mq (1) (4),
mq (1) (4),
mq (1) (4),
mq (1) (4),
mq (1) (4),
mq (1) (4),
mq (1) (4),
mq (1) (4),
mq (1) (4),
mq (1) (4),
mq (1) (4),
mq (1) (4),
mq (1) (4),
mq (1) (4),
mq (1) (4),
mq (1) (4),
mq (1) (4),
mq (1) (4),
mq (1) (4),
mq (1) (4),
mq (1) (4),
mq (1) (4),
mq (1) (4),
mq (1) (4),
mq (1) (4),
mq (1) (4),
mq (1) (4),
mq (1) (4),
mq (1) (4),
mq (1) (4),
mq (1) (4),
mq (1) (4),
mq (1) (4),
mq (1) (4),
mq (1) (4),
mq (1) (4),
mq (1) (4),
mq (1) (4),
mq (1) (4),
mq (1) (4),
mq (1) (4),
mq (1) (4),
mq (1) (4),
mq (1) (4),
mq (1) (4),
mq (1) (4),
mq (1) (4),
mq (1) (4),
mq (1) (4),
mq (1) (4),
mq (1) (4),
mq (1) (4),
mq (1) (4),
mq (1) (4),
mq (1) (4),
mq (1) (4),
mq (1) (4),
mq (1) (4),
mq (1) (4),
mq (1) (4),
mq (1) (4),
mq (1) (4),
mq (1) (4),
mq (1) (4),
mq (1) (4),
mq (1) (4),
mq (1) (4),
mq (1) (4),
mq (1) (4),
mq (1) (4),
mq (1) (4),
mq (1) (4),
mq (1) (4),
mq (1) (4),
mq (1) (4),
mq (1) (4),
mq (1) (4),
mq (1) (4),
mq (1) (4),
mq (1) (4),
mq (1) (4),
mq (1) (4),
mq (1) (4),
mq (1) (4),
mq (1) (4),
mq (1) (4),
mq (1) (4),
mq (1) (4),
mq (1) (4),
mq (1) (4),
mq (1) (4),
mq (1) (4),
mq (1) (4),
mq (1) (4),
mq (1) (4),
mq (1) (4),
mq (1) (4),
mq (1) (4),
mq (1) (4),
mq (1) (4),
mq (1) (4),
mq (1) (4),
mq (1) (4),
mq (1) (4),
mq (1) (4),
mq (1) (4),
mq (1) (4),
mq (1) (4),
mq (1) (4),
mq (1) (4),
mq (1) (4),
mq (1) (4),
mq (1) (4),
mq (1) (4)]

end MCT

namespace MCT

/-! ### Field transfer (Remapper.py, continued)

The source field is `7 - sqrt((x-5)^2 + (y-5)^2)` evaluated at the source
cell centroids.  Transfer semantics depend on the declared field nature:

* IntensiveMaximum: each target value is the intersection-weighted average
  of the source values over the target cell area;
* ExtensiveConservation: each target value distributes source values by the
  intersection fraction of each source cell area.

A target cell intersecting no source cell receives the caller-supplied
default value (1e300 in the tutorial).  Calling the transfer on a field
whose nature is not declared raises before any projection is computed. -/

noncomputable def srcValR (s : Nat) : ℝ := 7 - Real.sqrt ((srcDistSqF s).toR)

/-- Weighted sum of a sparse matrix row against values indexed by source id. -/
noncomputable def dotSparseV (row : List (Nat × Frac)) (v : Nat → ℝ) : ℝ :=
  (row.map (fun sw => sw.2.toR * v sw.1)).sum

inductive FieldNature where
  | IntensiveMaximum
  | ExtensiveConservation
deriving DecidableEq

/-- State of the tutorial source field: its nature, initially undeclared. -/
structure SrcFieldState where
  nature : Option FieldNature

/-- Transferred value on target cell `c` for a declared nature. -/
noncomputable def transferP0P0 (nat : FieldNature) (dflt : ℝ) (c : Nat) : ℝ :=
  match nat with
  | FieldNature.IntensiveMaximum =>
    if sparseRowOf c = [] then dflt
    else dotSparseV (sparseRowOf c) srcValR / (trgAreaF c).toR
  | FieldNature.ExtensiveConservation =>
    if sparseRowOf c = [] then dflt
    else dotSparseV (sparseRowOf c) (fun s => srcValR s / (srcAreaF s).toR)

/-- MEDCouplingRemapper.transferField: raises (error) if the nature of the
field was never declared, before any projection work; otherwise produces
the projected target field. -/
noncomputable def transferField (f : SrcFieldState) (dflt : ℝ) : Except String (List ℝ) :=
  match f.nature with
  | none => Except.error "transferField : field nature not set"
  | some nat => Except.ok ((List.range 100).map (transferP0P0 nat dflt))

/-- Target field produced with nature IntensiveMaximum and default 1e300. -/
noncomputable def trgFieldCV : List ℝ :=
  (List.range 100).map (transferP0P0 FieldNature.IntensiveMaximum ((10 : ℝ) ^ 300))

/-- Target field produced with nature ExtensiveConservation and default 1e300. -/
noncomputable def trgFieldExt : List ℝ :=
  (List.range 100).map (transferP0P0 FieldNature.ExtensiveConservation ((10 : ℝ) ^ 300))

/-- Sum of the source cell values (DataArrayDouble.accumulate). -/
noncomputable def accSrc : ℝ := ((List.range 420).map srcValR).sum

/-- Integral of the source field (value times cell area, summed). -/
noncomputable def integralSrc : ℝ :=
  ((List.range 420).map (fun s => (srcAreaF s).toR * srcValR s)).sum

noncomputable def accTrgCV : ℝ := trgFieldCV.sum

noncomputable def integralTrgCV : ℝ :=
  ((List.range 100).map (fun c => (trgAreaF c).toR * transferP0P0 FieldNature.IntensiveMaximum ((10 : ℝ) ^ 300) c)).sum

noncomputable def accTrgExt : ℝ := trgFieldExt.sum

noncomputable def integralTrgExt : ℝ :=
  ((List.range 100).map (fun c => (trgAreaF c).toR * transferP0P0 FieldNature.ExtensiveConservation ((10 : ℝ) ^ 300) c)).sum

/-! ### DataArray tutorial model (DataArray.py)

Sixteen node coordinates: one unit square centered at the origin, duplicated
under four translations, then deduplicated through findCommonTuples,
ConvertIndexArrayToO2N and renumberAndReduce, and finally assembled into a
4-polygon mesh checked by checkConsistencyLight. -/

def squareCornerPts : List Pt2 :=
  [(⟨-1, 2⟩, ⟨-1, 2⟩), (⟨1, 2⟩, ⟨-1, 2⟩), (⟨1, 2⟩, ⟨1, 2⟩), (⟨-1, 2⟩, ⟨1, 2⟩)]

def translationsPerform : List Pt2 :=
  [(⟨1, 2⟩, ⟨1, 2⟩), (⟨1, 2⟩, ⟨3, 2⟩), (⟨3, 2⟩, ⟨1, 2⟩), (⟨3, 2⟩, ⟨3, 2⟩)]

/-- DataArrayDouble.Aggregate of the four translated squares, order
preserved. -/
def squaresDa : List Pt2 :=
  translationsPerform.flatMap (fun t => squareCornerPts.map (fun p => (p.1.add t.1, p.2.add t.2)))

/-- Two tuples are common when their distance is within the absolute
tolerance. -/
def closeTuples (eps : Frac) (p q : Pt2) : Bool :=
  (((p.1.sub q.1).mul (p.1.sub q.1)).add ((p.2.sub q.2).mul (p.2.sub q.2))).ble (eps.mul eps)

/-- Grouping pass of findCommonTuples: scan tuple indices in order; an index
not already assigned to a group collects all later indices within tolerance;
only clusters of size at least 2 are reported. -/
def fctAux (pts : List Pt2) (eps : Frac) : List Nat → List Nat → List (List Nat)
  | [], _ => []
  | i :: rest, assigned =>
    if assigned.contains i then fctAux pts eps rest assigned
    else
      let dups := rest.filter (fun k =>
        closeTuples eps (pts.getD i (Frac.zero, Frac.zero)) (pts.getD k (Frac.zero, Frac.zero)))
      if dups.isEmpty then fctAux pts eps rest assigned
      else (i :: dups) :: fctAux pts eps rest (assigned ++ dups)

/-- Exclusive prefix sums with the total appended (indirect-index offsets). -/
def offsetsOf (lens : List Nat) : List Nat := List.scanl (· + ·) 0 lens

/-- DataArrayDouble.findCommonTuples: indirect indexing (values, offsets) of
the clusters of coincident tuples. -/
def findCommonTuples (pts : List Pt2) (eps : Frac) : List Nat × List Nat :=
  let gs := fctAux pts eps (List.range pts.length) []
  (gs.flatten, offsetsOf (gs.map List.length))

/-- DataArrayInt.ConvertIndexArrayToO2N: convert the indirect-index cluster
representation into an old-to-new surjection plus the new tuple count.  Each
scanned old index gets the next free new id, except non-leading members of a
cluster, which reuse the new id of the cluster head. -/
def convertIndexArrayToO2N (n : Nat) (c ci : List Nat) : List Nat × Nat :=
  let gs := (ci.zip ci.tail).map (fun ab => (c.drop ab.1).take (ab.2 - ab.1))
  (List.range n).foldl
    (fun acc i =>
      match gs.find? (fun g => g.contains i) with
      | none => (acc.1 ++ [acc.2], acc.2 + 1)
      | some g =>
        if g.headD 0 == i then (acc.1 ++ [acc.2], acc.2 + 1)
        else (acc.1 ++ [acc.1.getD (g.headD 0) 0], acc.2))
    ([], 0)

/-- DataArrayDouble.renumberAndReduce: compact an array through an
old-to-new surjection. -/
def renumberAndReduce (arr : List Pt2) (o2n : List Nat) (newNb : Nat) : List Pt2 :=
  (arr.zip o2n).foldl (fun res po => res.set po.2 po.1)
    (List.replicate newNb (Frac.zero, Frac.zero))

/-- MEDCouplingUMesh.checkConsistencyLight on a polygonal 2D mesh: every
cell has at least 3 nodes and references only valid node ids. -/
def checkConsistencyLight (nbNodes : Nat) (cells : List (List Nat)) : Except String Unit :=
  if cells.all (fun cell => decide (3 ≤ cell.length) && cell.all (fun nid => decide (nid < nbNodes)))
  then Except.ok () else Except.error "checkConsistencyLight : invalid connectivity"

def fourSquaresO2N : List Nat × Nat :=
  let ft := findCommonTuples squaresDa ⟨1, 1000000000000⟩
  convertIndexArrayToO2N squaresDa.length ft.1 ft.2

/-- Node coordinates of the FourSquares mesh: deduplicated tuples, then
translated by [1.0, 1.0]. -/
def fourSquaresCoords : List Pt2 :=
  (renumberAndReduce squaresDa fourSquaresO2N.1 fourSquaresO2N.2).map
    (fun p => (p.1.add Frac.one, p.2.add Frac.one))

/-- Connectivity of the 4 polygon cells: the old-to-new map in chunks of 4. -/
def fourSquaresCells : List (List Nat) :=
  (List.range 4).map (fun k => (fourSquaresO2N.1.drop (4 * k)).take 4)

end MCT

namespace MCT

/-! ### Basic MEDLoader tutorial model (LecEcrBase.py)

The tutorial builds a 2D mesh of 2 triangles and 3 quadrangles, a cell field
`f` whose array is the cell centers of mass, tagged (time 5.6, iteration 7,
sub-iteration 8), writes the mesh then the field into MySecondField.med with
WriteFieldUsingAlreadyWrittenMesh, clones the field, overwrites all values
with 2.0, retags the clone (7.8, 9, 10) and writes it as a second timestep.
The file is modelled as the mesh name plus the ordered list of written
timesteps keyed by (iteration, sub-iteration). -/

def targetCoordsPts : List Pt2 :=
  [(⟨-3, 10⟩, ⟨-3, 10⟩), (⟨2, 10⟩, ⟨-3, 10⟩), (⟨7, 10⟩, ⟨-3, 10⟩),
   (⟨-3, 10⟩, ⟨2, 10⟩), (⟨2, 10⟩, ⟨2, 10⟩), (⟨7, 10⟩, ⟨2, 10⟩),
   (⟨-3, 10⟩, ⟨7, 10⟩), (⟨2, 10⟩, ⟨7, 10⟩), (⟨7, 10⟩, ⟨7, 10⟩)]

/-- Connectivity of targetMesh: 2 triangles then 3 quadrangles. -/
def targetMeshCells : List (List Nat) :=
  [[1, 4, 2], [4, 5, 2], [0, 3, 4, 1], [6, 7, 4, 3], [7, 8, 5, 4]]

/-- MEDCouplingMesh.computeCellCenterOfMass of targetMesh. -/
def targetMeshCellCenters : List Pt2 :=
  targetMeshCells.map (fun cell =>
    polyCentroidF (cell.map (fun nid => targetCoordsPts.getD nid (Frac.zero, Frac.zero))))

/-- One timestep of a MED field: name, physical time, iteration,
sub-iteration, and the value array (2 components per tuple here). -/
structure MEDFieldTS where
  fname : String
  time : Frac
  iter : Int
  order : Int
  vals : List Pt2
deriving DecidableEq

/-- The field f: array = cell centers of mass, tagged (5.6, 7, 8). -/
def fieldF : MEDFieldTS :=
  { fname := "AFieldName", time := ⟨28, 5⟩, iter := 7, order := 8, vals := targetMeshCellCenters }

/-- The clone f2: deep copy of f, every value overwritten with 2.0, retagged
(7.8, 9, 10). -/
def fieldF2 : MEDFieldTS :=
  { fname := fieldF.fname, time := ⟨39, 5⟩, iter := 9, order := 10,
    vals := fieldF.vals.map (fun _ => (⟨2, 1⟩, ⟨2, 1⟩)) }

/-- Model of a MED file: the written mesh name and the ordered timesteps. -/
structure MEDFileModel where
  meshName : String
  steps : List ((Int × Int) × MEDFieldTS)

/-- WriteUMesh with fromScratch = true: fresh file holding only the mesh. -/
def writeUMeshScratch (name : String) : MEDFileModel := { meshName := name, steps := [] }

/-- WriteFieldUsingAlreadyWrittenMesh: append one timestep keyed by
(iteration, sub-iteration) without touching the mesh or earlier steps. -/
def writeFieldUsingAlreadyWrittenMesh (file : MEDFileModel) (f : MEDFieldTS) : MEDFileModel :=
  { file with steps := file.steps ++ [((f.iter, f.order), f)] }

/-- ReadFieldCell by (iteration, sub-iteration) key. -/
def readFieldCell (file : MEDFileModel) (it ord : Int) : Option MEDFieldTS :=
  (file.steps.find? (fun p => p.1 == (it, ord))).map Prod.snd

/-- The file MySecondField.med after the mesh write and the two field
writes. -/
def mySecondFieldFile : MEDFileModel :=
  writeFieldUsingAlreadyWrittenMesh
    (writeFieldUsingAlreadyWrittenMesh (writeUMeshScratch "MyMesh") fieldF) fieldF2

/-- Componentwise comparison of two value arrays within a tolerance, at the
real-number level. -/
def valsWithin (xs ys : List Pt2) (tol : ℝ) : Prop :=
  xs.length = ys.length ∧
  ∀ pq ∈ xs.zip ys, |pq.1.1.toR - pq.2.1.toR| ≤ tol ∧ |pq.1.2.toR - pq.2.2.toR| ≤ tol

/-! ### Field tutorial model (Field.py)

A 10x10x10 Cartesian mesh of unit cubes on [0,10]^3; the field
`(x-5)^2 + (y-5)^2 + (z-5)^2` on cell centroids; fPart1 selects the cells
with value in [0, 5], fPart2 those in [50, 1e300]; fPart12 is their
aggregation; the integral is the sum of value times absolute cell measure.
The mesh is then scaled about the origin by the factor 1.2 = 6/5. -/

structure Box3 where
  bx0 : Frac
  bx1 : Frac
  by0 : Frac
  by1 : Frac
  bz0 : Frac
  bz1 : Frac
deriving DecidableEq

def volF (b : Box3) : Frac := ((b.bx1.sub b.bx0).mul (b.by1.sub b.by0)).mul (b.bz1.sub b.bz0)

def boxZero : Box3 := ⟨Frac.zero, Frac.zero, Frac.zero, Frac.zero, Frac.zero, Frac.zero⟩

/-- Cell `c` of the 10x10x10 unit-step mesh (x fastest). -/
def meshCubeCell (c : Nat) : Box3 :=
  let i : Int := ((c % 10 : Nat) : Int)
  let j : Int := ((c / 10 % 10 : Nat) : Int)
  let k : Int := ((c / 100 : Nat) : Int)
  ⟨⟨i, 1⟩, ⟨i + 1, 1⟩, ⟨j, 1⟩, ⟨j + 1, 1⟩, ⟨k, 1⟩, ⟨k + 1, 1⟩⟩

def meshCube : List Box3 := (List.range 1000).map meshCubeCell

/-- Analytic field value at the centroid of a box cell. -/
def cellValueF (b : Box3) : Frac :=
  let cx := (b.bx0.add b.bx1).div ⟨2, 1⟩
  let cy := (b.by0.add b.by1).div ⟨2, 1⟩
  let cz := (b.bz0.add b.bz1).div ⟨2, 1⟩
  let dx := cx.sub ⟨5, 1⟩
  let dy := cy.sub ⟨5, 1⟩
  let dz := cz.sub ⟨5, 1⟩
  (((dx.mul dx).add (dy.mul dy)).add (dz.mul dz)).norm

def fValsCube : List Frac := meshCube.map cellValueF

/-- DataArrayDouble.findIdsInRange, both bounds inclusive (no field value of
this mesh lies on either boundary, so inclusivity is immaterial here). -/
def findIdsInRange (lo hi : Frac) (vals : List Frac) : List Nat :=
  (vals.enum.filter (fun p => lo.ble p.2 && p.2.ble hi)).map Prod.fst

def idsRange1 : List Nat := findIdsInRange Frac.zero ⟨5, 1⟩ fValsCube

def idsRange2 : List Nat := findIdsInRange ⟨50, 1⟩ ⟨10 ^ 300, 1⟩ fValsCube

/-- MEDCouplingFieldDouble.buildSubPart: the field restricted to the listed
cells (cell geometry paired with its value). -/
def buildSubPartCube (ids : List Nat) : List (Box3 × Frac) :=
  ids.map (fun i => (meshCube.getD i boxZero, fValsCube.getD i Frac.zero))

/-- fPart12 = MergeFields([fPart1, fPart2]), order preserved. -/
def fPart12 : List (Box3 × Frac) := buildSubPartCube idsRange1 ++ buildSubPartCube idsRange2

/-- MEDCouplingMesh.scale([0,0,0], k): every coordinate is multiplied by k. -/
def scaleBox (k : Frac) (b : Box3) : Box3 :=
  ⟨k.mul b.bx0, k.mul b.bx1, k.mul b.by0, k.mul b.by1, k.mul b.bz0, k.mul b.bz1⟩

/-- The support of fPart12 after fPart12.getMesh().scale([0,0,0], 1.2); the
values are untouched. -/
def fPart12scaled : List (Box3 × Frac) := fPart12.map (fun bv => (scaleBox ⟨6, 5⟩ bv.1, bv.2))

/-- MEDCouplingFieldDouble.integral(0, True): sum of value times absolute
cell measure. -/
def integralCells (f : List (Box3 × Frac)) : Frac := sumF (f.map (fun bv => (volF bv.1).habs.mul bv.2))

/-- DataArrayDouble.accumulate()[0]: plain sum of the value array. -/
def accumulateCells (f : List (Box3 × Frac)) : Frac := sumF (f.map Prod.snd)

/-- Stored values of the analytic field on the 1000 cube cells (proved
below to equal the computed values). -/
def fValsLit : List Frac := [
mq (243) (4),
mq (211) (4),
mq (187) (4),
mq (171) (4),
mq (163) (4),
mq (163) (4),
mq (171) (4),
mq (187) (4),
mq (211) (4),
mq (243) (4),
mq (211) (4),
mq (179) (4),
mq (155) (4),
mq (139) (4),
mq (131) (4),
mq (131) (4),
mq (139) (4),
mq (155) (4),
mq (179) (4),
mq (211) (4),
mq (187) (4),
mq (155) (4),
mq (131) (4),
mq (115) (4),
mq (107) (4),
mq (107) (4),
mq (115) (4),
mq (131) (4),
mq (155) (4),
mq (187) (4),
mq (171) (4),
mq (139) (4),
mq (115) (4),
mq (99) (4),
mq (91) (4),
mq (91) (4),
mq (99) (4),
mq (115) (4),
mq (139) (4),
mq (171) (4),
mq (163) (4),
mq (131) (4),
mq (107) (4),
mq (91) (4),
mq (83) (4),
mq (83) (4),
mq (91) (4),
mq (107) (4),
mq (131) (4),
mq (163) (4),
mq (163) (4),
mq (131) (4),
mq (107) (4),
mq (91) (4),
mq (83) (4),
mq (83) (4),
mq (91) (4),
mq (107) (4),
mq (131) (4),
mq (163) (4),
mq (171) (4),
mq (139) (4),
mq (115) (4),
mq (99) (4),
mq (91) (4),
mq (91) (4),
mq (99) (4),
mq (115) (4),
mq (139) (4),
mq (171) (4),
mq (187) (4),
mq (155) (4),
mq (131) (4),
mq (115) (4),
mq (107) (4),
mq (107) (4),
mq (115) (4),
mq (131) (4),
mq (155) (4),
mq (187) (4),
mq (211) (4),
mq (179) (4),
mq (155) (4),
mq (139) (4),
mq (131) (4),
mq (131) (4),
mq (139) (4),
mq (155) (4),
mq (179) (4),
mq (211) (4),
mq (243) (4),
mq (211) (4),
mq (187) (4),
mq (171) (4),
mq (163) (4),
mq (163) (4),
mq (171) (4),
mq (187) (4),
mq (211) (4),
mq (243) (4),
mq (211) (4),
mq (179) (4),
mq (155) (4),
mq (139) (4),
mq (131) (4),
mq (131) (4),
mq (139) (4),
mq (155) (4),
mq (179) (4),
mq (211) (4),
mq (179) (4),
mq (147) (4),
mq (123) (4),
mq (107) (4),
mq (99) (4),
mq (99) (4),
mq (107) (4),
mq (123) (4),
mq (147) (4),
mq (179) (4),
mq (155) (4),
mq (123) (4),
mq (99) (4),
mq (83) (4),
mq (75) (4),
mq (75) (4),
mq (83) (4),
mq (99) (4),
mq (123) (4),
mq (155) (4),
mq (139) (4),
mq (107) (4),
mq (83) (4),
mq (67) (4),
mq (59) (4),
mq (59) (4),
mq (67) (4),
mq (83) (4),
mq (107) (4),
mq (139) (4),
mq (131) (4),
mq (99) (4),
mq (75) (4),
mq (59) (4),
mq (51) (4),
mq (51) (4),
mq (59) (4),
mq (75) (4),
mq (99) (4),
mq (131) (4),
mq (131) (4),
mq (99) (4),
mq (75) (4),
mq (59) (4),
mq (51) (4),
mq (51) (4),
mq (59) (4),
mq (75) (4),
mq (99) (4),
mq (131) (4),
mq (139) (4),
mq (107) (4),
mq (83) (4),
mq (67) (4),
mq (59) (4),
mq (59) (4),
mq (67) (4),
mq (83) (4),
mq (107) (4),
mq (139) (4),
mq (155) (4),
mq (123) (4),
mq (99) (4),
mq (83) (4),
mq (75) (4),
mq (75) (4),
mq (83) (4),
mq (99) (4),
mq (123) (4),
mq (155) (4),
mq (179) (4),
mq (147) (4),
mq (123) (4),
mq (107) (4),
mq (99) (4),
mq (99) (4),
mq (107) (4),
mq (123) (4),
mq (147) (4),
mq (179) (4),
mq (211) (4),
mq (179) (4),
mq (155) (4),
mq (139) (4),
mq (131) (4),
mq (131) (4),
mq (139) (4),
mq (155) (4),
mq (179) (4),
mq (211) (4),
mq (187) (4),
mq (155) (4),
mq (131) (4),
mq (115) (4),
mq (107) (4),
mq (107) (4),
mq (115) (4),
mq (131) (4),
mq (155) (4),
mq (187) (4),
mq (155) (4),
mq (123) (4),
mq (99) (4),
mq (83) (4),
mq (75) (4),
mq (75) (4),
mq (83) (4),
mq (99) (4),
mq (123) (4),
mq (155) (4),
mq (131) (4),
mq (99) (4),
mq (75) (4),
mq (59) (4),
mq (51) (4),
mq (51) (4),
mq (59) (4),
mq (75) (4),
mq (99) (4),
mq (131) (4),
mq (115) (4),
mq (83) (4),
mq (59) (4),
mq (43) (4),
mq (35) (4),
mq (35) (4),
mq (43) (4),
mq (59) (4),
mq (83) (4),
mq (115) (4),
mq (107) (4),
mq (75) (4),
mq (51) (4),
mq (35) (4),
mq (27) (4),
mq (27) (4),
mq (35) (4),
mq (51) (4),
mq (75) (4),
mq (107) (4),
mq (107) (4),
mq (75) (4),
mq (51) (4),
mq (35) (4),
mq (27) (4),
mq (27) (4),
mq (35) (4),
mq (51) (4),
mq (75) (4),
mq (107) (4),
mq (115) (4),
mq (83) (4),
mq (59) (4),
mq (43) (4),
mq (35) (4),
mq (35) (4),
mq (43) (4),
mq (59) (4),
mq (83) (4),
mq (115) (4),
mq (131) (4),
mq (99) (4),
mq (75) (4),
mq (59) (4),
mq (51) (4),
mq (51) (4),
mq (59) (4),
mq (75) (4),
mq (99) (4),
mq (131) (4),
mq (155) (4),
mq (123) (4),
mq (99) (4),
mq (83) (4),
mq (75) (4),
mq (75) (4),
mq (83) (4),
mq (99) (4),
mq (123) (4),
mq (155) (4),
mq (187) (4),
mq (155) (4),
mq (131) (4),
mq (115) (4),
mq (107) (4),
mq (107) (4),
mq (115) (4),
mq (131) (4),
mq (155) (4),
mq (187) (4),
mq (171) (4),
mq (139) (4),
mq (115) (4),
mq (99) (4),
mq (91) (4),
mq (91) (4),
mq (99) (4),
mq (115) (4),
mq (139) (4),
mq (171) (4),
mq (139) (4),
mq (107) (4),
mq (83) (4),
mq (67) (4),
mq (59) (4),
mq (59) (4),
mq (67) (4),
mq (83) (4),
mq (107) (4),
mq (139) (4),
mq (115) (4),
mq (83) (4),
mq (59) (4),
mq (43) (4),
mq (35) (4),
mq (35) (4),
mq (43) (4),
mq (59) (4),
mq (83) (4),
mq (115) (4),
mq (99) (4),
mq (67) (4),
mq (43) (4),
mq (27) (4),
mq (19) (4),
mq (19) (4),
mq (27) (4),
mq (43) (4),
mq (67) (4),
mq (99) (4),
mq (91) (4),
mq (59) (4),
mq (35) (4),
mq (19) (4),
mq (11) (4),
mq (11) (4),
mq (19) (4),
mq (35) (4),
mq (59) (4),
mq (91) (4),
mq (91) (4),
mq (59) (4),
mq (35) (4),
mq (19) (4),
mq (11) (4),
mq (11) (4),
mq (19) (4),
mq (35) (4),
mq (59) (4),
mq (91) (4),
mq (99) (4),
mq (67) (4),
mq (43) (4),
mq (27) (4),
mq (19) (4),
mq (19) (4),
mq (27) (4),
mq (43) (4),
mq (67) (4),
mq (99) (4),
mq (115) (4),
mq (83) (4),
mq (59) (4),
mq (43) (4),
mq (35) (4),
mq (35) (4),
mq (43) (4),
mq (59) (4),
mq (83) (4),
mq (115) (4),
mq (139) (4),
mq (107) (4),
mq (83) (4),
mq (67) (4),
mq (59) (4),
mq (59) (4),
mq (67) (4),
mq (83) (4),
mq (107) (4),
mq (139) (4),
mq (171) (4),
mq (139) (4),
mq (115) (4),
mq (99) (4),
mq (91) (4),
mq (91) (4),
mq (99) (4),
mq (115) (4),
mq (139) (4),
mq (171) (4),
mq (163) (4),
mq (131) (4),
mq (107) (4),
mq (91) (4),
mq (83) (4),
mq (83) (4),
mq (91) (4),
mq (107) (4),
mq (131) (4),
mq (163) (4),
mq (131) (4),
mq (99) (4),
mq (75) (4),
mq (59) (4),
mq (51) (4),
mq (51) (4),
mq (59) (4),
mq (75) (4),
mq (99) (4),
mq (131) (4),
mq (107) (4),
mq (75) (4),
mq (51) (4),
mq (35) (4),
mq (27) (4),
mq (27) (4),
mq (35) (4),
mq (51) (4),
mq (75) (4),
mq (107) (4),
mq (91) (4),
mq (59) (4),
mq (35) (4),
mq (19) (4),
mq (11) (4),
mq (11) (4),
mq (19) (4),
mq (35) (4),
mq (59) (4),
mq (91) (4),
mq (83) (4),
mq (51) (4),
mq (27) (4),
mq (11) (4),
mq (3) (4),
mq (3) (4),
mq (11) (4),
mq (27) (4),
mq (51) (4),
mq (83) (4),
mq (83) (4),
mq (51) (4),
mq (27) (4),
mq (11) (4),
mq (3) (4),
mq (3) (4),
mq (11) (4),
mq (27) (4),
mq (51) (4),
mq (83) (4),
mq (91) (4),
mq (59) (4),
mq (35) (4),
mq (19) (4),
mq (11) (4),
mq (11) (4),
mq (19) (4),
mq (35) (4),
mq (59) (4),
mq (91) (4),
mq (107) (4),
mq (75) (4),
mq (51) (4),
mq (35) (4),
mq (27) (4),
mq (27) (4),
mq (35) (4),
mq (51) (4),
mq (75) (4),
mq (107) (4),
mq (131) (4),
mq (99) (4),
mq (75) (4),
mq (59) (4),
mq (51) (4),
mq (51) (4),
mq (59) (4),
mq (75) (4),
mq (99) (4),
mq (131) (4),
mq (163) (4),
mq (131) (4),
mq (107) (4),
mq (91) (4),
mq (83) (4),
mq (83) (4),
mq (91) (4),
mq (107) (4),
mq (131) (4),
mq (163) (4),
mq (163) (4),
mq (131) (4),
mq (107) (4),
mq (91) (4),
mq (83) (4),
mq (83) (4),
mq (91) (4),
mq (107) (4),
mq (131) (4),
mq (163) (4),
mq (131) (4),
mq (99) (4),
mq (75) (4),
mq (59) (4),
mq (51) (4),
mq (51) (4),
mq (59) (4),
mq (75) (4),
mq (99) (4),
mq (131) (4),
mq (107) (4),
mq (75) (4),
mq (51) (4),
mq (35) (4),
mq (27) (4),
mq (27) (4),
mq (35) (4),
mq (51) (4),
mq (75) (4),
mq (107) (4),
mq (91) (4),
mq (59) (4),
mq (35) (4),
mq (19) (4),
mq (11) (4),
mq (11) (4),
mq (19) (4),
mq (35) (4),
mq (59) (4),
mq (91) (4),
mq (83) (4),
mq (51) (4),
mq (27) (4),
mq (11) (4),
mq (3) (4),
mq (3) (4),
mq (11) (4),
mq (27) (4),
mq (51) (4),
mq (83) (4),
mq (83) (4),
mq (51) (4),
mq (27) (4),
mq (11) (4),
mq (3) (4),
mq (3) (4),
mq (11) (4),
mq (27) (4),
mq (51) (4),
mq (83) (4),
mq (91) (4),
mq (59) (4),
mq (35) (4),
mq (19) (4),
mq (11) (4),
mq (11) (4),
mq (19) (4),
mq (35) (4),
mq (59) (4),
mq (91) (4),
mq (107) (4),
mq (75) (4),
mq (51) (4),
mq (35) (4),
mq (27) (4),
mq (27) (4),
mq (35) (4),
mq (51) (4),
mq (75) (4),
mq (107) (4),
mq (131) (4),
mq (99) (4),
mq (75) (4),
mq (59) (4),
mq (51) (4),
mq (51) (4),
mq (59) (4),
mq (75) (4),
mq (99) (4),
mq (131) (4),
mq (163) (4),
mq (131) (4),
mq (107) (4),
mq (91) (4),
mq (83) (4),
mq (83) (4),
mq (91) (4),
mq (107) (4),
mq (131) (4),
mq (163) (4),
mq (171) (4),
mq (139) (4),
mq (115) (4),
mq (99) (4),
mq (91) (4),
mq (91) (4),
mq (99) (4),
mq (115) (4),
mq (139) (4),
mq (171) (4),
mq (139) (4),
mq (107) (4),
mq (83) (4),
mq (67) (4),
mq (59) (4),
mq (59) (4),
mq (67) (4),
mq (83) (4),
mq (107) (4),
mq (139) (4),
mq (115) (4),
mq (83) (4),
mq (59) (4),
mq (43) (4),
mq (35) (4),
mq (35) (4),
mq (43) (4),
mq (59) (4),
mq (83) (4),
mq (115) (4),
mq (99) (4),
mq (67) (4),
mq (43) (4),
mq (27) (4),
mq (19) (4),
mq (19) (4),
mq (27) (4),
mq (43) (4),
mq (67) (4),
mq (99) (4),
mq (91) (4),
mq (59) (4),
mq (35) (4),
mq (19) (4),
mq (11) (4),
mq (11) (4),
mq (19) (4),
mq (35) (4),
mq (59) (4),
mq (91) (4),
mq (91) (4),
mq (59) (4),
mq (35) (4),
mq (19) (4),
mq (11) (4),
mq (11) (4),
mq (19) (4),
mq (35) (4),
mq (59) (4),
mq (91) (4),
mq (99) (4),
mq (67) (4),
mq (43) (4),
mq (27) (4),
mq (19) (4),
mq (19) (4),
mq (27) (4),
mq (43) (4),
mq (67) (4),
mq (99) (4),
mq (115) (4),
mq (83) (4),
mq (59) (4),
mq (43) (4),
mq (35) (4),
mq (35) (4),
mq (43) (4),
mq (59) (4),
mq (83) (4),
mq (115) (4),
mq (139) (4),
mq (107) (4),
mq (83) (4),
mq (67) (4),
mq (59) (4),
mq (59) (4),
mq (67) (4),
mq (83) (4),
mq (107) (4),
mq (139) (4),
mq (171) (4),
mq (139) (4),
mq (115) (4),
mq (99) (4),
mq (91) (4),
mq (91) (4),
mq (99) (4),
mq (115) (4),
mq (139) (4),
mq (171) (4),
mq (187) (4),
mq (155) (4),
mq (131) (4),
mq (115) (4),
mq (107) (4),
mq (107) (4),
mq (115) (4),
mq (131) (4),
mq (155) (4),
mq (187) (4),
mq (155) (4),
mq (123) (4),
mq (99) (4),
mq (83) (4),
mq (75) (4),
mq (75) (4),
mq (83) (4),
mq (99) (4),
mq (123) (4),
mq (155) (4),
mq (131) (4),
mq (99) (4),
mq (75) (4),
mq (59) (4),
mq (51) (4),
mq (51) (4),
mq (59) (4),
mq (75) (4),
mq (99) (4),
mq (131) (4),
mq (115) (4),
mq (83) (4),
mq (59) (4),
mq (43) (4),
mq (35) (4),
mq (35) (4),
mq (43) (4),
mq (59) (4),
mq (83) (4),
mq (115) (4),
mq (107) (4),
mq (75) (4),
mq (51) (4),
mq (35) (4),
mq (27) (4),
mq (27) (4),
mq (35) (4),
mq (51) (4),
mq (75) (4),
mq (107) (4),
mq (107) (4),
mq (75) (4),
mq (51) (4),
mq (35) (4),
mq (27) (4),
mq (27) (4),
mq (35) (4),
mq (51) (4),
mq (75) (4),
mq (107) (4),
mq (115) (4),
mq (83) (4),
mq (59) (4),
mq (43) (4),
mq (35) (4),
mq (35) (4),
mq (43) (4),
mq (59) (4),
mq (83) (4),
mq (115) (4),
mq (131) (4),
mq (99) (4),
mq (75) (4),
mq (59) (4),
mq (51) (4),
mq (51) (4),
mq (59) (4),
mq (75) (4),
mq (99) (4),
mq (131) (4),
mq (155) (4),
mq (123) (4),
mq (99) (4),
mq (83) (4),
mq (75) (4),
mq (75) (4),
mq (83) (4),
mq (99) (4),
mq (123) (4),
mq (155) (4),
mq (187) (4),
mq (155) (4),
mq (131) (4),
mq (115) (4),
mq (107) (4),
mq (107) (4),
mq (115) (4),
mq (131) (4),
mq (155) (4),
mq (187) (4),
mq (211) (4),
mq (179) (4),
mq (155) (4),
mq (139) (4),
mq (131) (4),
mq (131) (4),
mq (139) (4),
mq (155) (4),
mq (179) (4),
mq (211) (4),
mq (179) (4),
mq (147) (4),
mq (123) (4),
mq (107) (4),
mq (99) (4),
mq (99) (4),
mq (107) (4),
mq (123) (4),
mq (147) (4),
mq (179) (4),
mq (155) (4),
mq (123) (4),
mq (99) (4),
mq (83) (4),
mq (75) (4),
mq (75) (4),
mq (83) (4),
mq (99) (4),
mq (123) (4),
mq (155) (4),
mq (139) (4),
mq (107) (4),
mq (83) (4),
mq (67) (4),
mq (59) (4),
mq (59) (4),
mq (67) (4),
mq (83) (4),
mq (107) (4),
mq (139) (4),
mq (131) (4),
mq (99) (4),
mq (75) (4),
mq (59) (4),
mq (51) (4),
mq (51) (4),
mq (59) (4),
mq (75) (4),
mq (99) (4),
mq (131) (4),
mq (131) (4),
mq (99) (4),
mq (75) (4),
mq (59) (4),
mq (51) (4),
mq (51) (4),
mq (59) (4),
mq (75) (4),
mq (99) (4),
mq (131) (4),
mq (139) (4),
mq (107) (4),
mq (83) (4),
mq (67) (4),
mq (59) (4),
mq (59) (4),
mq (67) (4),
mq (83) (4),
mq (107) (4),
mq (139) (4),
mq (155) (4),
mq (123) (4),
mq (99) (4),
mq (83) (4),
mq (75) (4),
mq (75) (4),
mq (83) (4),
mq (99) (4),
mq (123) (4),
mq (155) (4),
mq (179) (4),
mq (147) (4),
mq (123) (4),
mq (107) (4),
mq (99) (4),
mq (99) (4),
mq (107) (4),
mq (123) (4),
mq (147) (4),
mq (179) (4),
mq (211) (4),
mq (179) (4),
mq (155) (4),
mq (139) (4),
mq (131) (4),
mq (131) (4),
mq (139) (4),
mq (155) (4),
mq (179) (4),
mq (211) (4),
mq (243) (4),
mq (211) (4),
mq (187) (4),
mq (171) (4),
mq (163) (4),
mq (163) (4),
mq (171) (4),
mq (187) (4),
mq (211) (4),
mq (243) (4),
mq (211) (4),
mq (179) (4),
mq (155) (4),
mq (139) (4),
mq (131) (4),
mq (131) (4),
mq (139) (4),
mq (155) (4),
mq (179) (4),
mq (211) (4),
mq (187) (4),
mq (155) (4),
mq (131) (4),
mq (115) (4),
mq (107) (4),
mq (107) (4),
mq (115) (4),
mq (131) (4),
mq (155) (4),
mq (187) (4),
mq (171) (4),
mq (139) (4),
mq (115) (4),
mq (99) (4),
mq (91) (4),
mq (91) (4),
mq (99) (4),
mq (115) (4),
mq (139) (4),
mq (171) (4),
mq (163) (4),
mq (131) (4),
mq (107) (4),
mq (91) (4),
mq (83) (4),
mq (83) (4),
mq (91) (4),
mq (107) (4),
mq (131) (4),
mq (163) (4),
mq (163) (4),
mq (131) (4),
mq (107) (4),
mq (91) (4),
mq (83) (4),
mq (83) (4),
mq (91) (4),
mq (107) (4),
mq (131) (4),
mq (163) (4),
mq (171) (4),
mq (139) (4),
mq (115) (4),
mq (99) (4),
mq (91) (4),
mq (91) (4),
mq (99) (4),
mq (115) (4),
mq (139) (4),
mq (171) (4),
mq (187) (4),
mq (155) (4),
mq (131) (4),
mq (115) (4),
mq (107) (4),
mq (107) (4),
mq (115) (4),
mq (131) (4),
mq (155) (4),
mq (187) (4),
mq (211) (4),
mq (179) (4),
mq (155) (4),
mq (139) (4),
mq (131) (4),
mq (131) (4),
mq (139) (4),
mq (155) (4),
mq (179) (4),
mq (211) (4),
mq (243) (4),
mq (211) (4),
mq (187) (4),
mq (171) (4),
mq (163) (4),
mq (163) (4),
mq (171) (4),
mq (187) (4),
mq (211) (4),
mq (243) (4)]

/-- Stored cell ids of the first value range (proved below). -/
def idsLit1 : List Nat := [334, 335, 343, 344, 345, 346, 353, 354, 355, 356, 364, 365, 433, 434, 435, 436, 443, 444, 445, 446, 453, 454, 455, 456, 463, 464, 465, 466, 533, 534, 535, 536, 543, 544, 545, 546, 553, 554, 555, 556, 563, 564, 565, 566, 634, 635, 643, 644, 645, 646, 653, 654, 655, 656, 664, 665]

/-- Stored cell ids of the second value range (proved below). -/
def idsLit2 : List Nat := [0, 1, 8, 9, 10, 19, 80, 89, 90, 91, 98, 99, 100, 109, 190, 199, 800, 809, 890, 899, 900, 901, 908, 909, 910, 919, 980, 989, 990, 991, 998, 999]

set_option maxHeartbeats 4000000 in
/-- Stored merged sub-field fPart12 (proved below to equal the computed
one): cell box paired with field value. -/
def fPartLit : List (Box3 × Frac) := [
(Box3.mk (mq (4) (1)) (mq (5) (1)) (mq (3) (1)) (mq (4) (1)) (mq (3) (1)) (mq (4) (1)), mq (19) (4)),
(Box3.mk (mq (5) (1)) (mq (6) (1)) (mq (3) (1)) (mq (4) (1)) (mq (3) (1)) (mq (4) (1)), mq (19) (4)),
(Box3.mk (mq (3) (1)) (mq (4) (1)) (mq (4) (1)) (mq (5) (1)) (mq (3) (1)) (mq (4) (1)), mq (19) (4)),
(Box3.mk (mq (4) (1)) (mq (5) (1)) (mq (4) (1)) (mq (5) (1)) (mq (3) (1)) (mq (4) (1)), mq (11) (4)),
(Box3.mk (mq (5) (1)) (mq (6) (1)) (mq (4) (1)) (mq (5) (1)) (mq (3) (1)) (mq (4) (1)), mq (11) (4)),
(Box3.mk (mq (6) (1)) (mq (7) (1)) (mq (4) (1)) (mq (5) (1)) (mq (3) (1)) (mq (4) (1)), mq (19) (4)),
(Box3.mk (mq (3) (1)) (mq (4) (1)) (mq (5) (1)) (mq (6) (1)) (mq (3) (1)) (mq (4) (1)), mq (19) (4)),
(Box3.mk (mq (4) (1)) (mq (5) (1)) (mq (5) (1)) (mq (6) (1)) (mq (3) (1)) (mq (4) (1)), mq (11) (4)),
(Box3.mk (mq (5) (1)) (mq (6) (1)) (mq (5) (1)) (mq (6) (1)) (mq (3) (1)) (mq (4) (1)), mq (11) (4)),
(Box3.mk (mq (6) (1)) (mq (7) (1)) (mq (5) (1)) (mq (6) (1)) (mq (3) (1)) (mq (4) (1)), mq (19) (4)),
(Box3.mk (mq (4) (1)) (mq (5) (1)) (mq (6) (1)) (mq (7) (1)) (mq (3) (1)) (mq (4) (1)), mq (19) (4)),
(Box3.mk (mq (5) (1)) (mq (6) (1)) (mq (6) (1)) (mq (7) (1)) (mq (3) (1)) (mq (4) (1)), mq (19) (4)),
(Box3.mk (mq (3) (1)) (mq (4) (1)) (mq (3) (1)) (mq (4) (1)) (mq (4) (1)) (mq (5) (1)), mq (19) (4)),
(Box3.mk (mq (4) (1)) (mq (5) (1)) (mq (3) (1)) (mq (4) (1)) (mq (4) (1)) (mq (5) (1)), mq (11) (4)),
(Box3.mk (mq (5) (1)) (mq (6) (1)) (mq (3) (1)) (mq (4) (1)) (mq (4) (1)) (mq (5) (1)), mq (11) (4)),
(Box3.mk (mq (6) (1)) (mq (7) (1)) (mq (3) (1)) (mq (4) (1)) (mq (4) (1)) (mq (5) (1)), mq (19) (4)),
(Box3.mk (mq (3) (1)) (mq (4) (1)) (mq (4) (1)) (mq (5) (1)) (mq (4) (1)) (mq (5) (1)), mq (11) (4)),
(Box3.mk (mq (4) (1)) (mq (5) (1)) (mq (4) (1)) (mq (5) (1)) (mq (4) (1)) (mq (5) (1)), mq (3) (4)),
(Box3.mk (mq (5) (1)) (mq (6) (1)) (mq (4) (1)) (mq (5) (1)) (mq (4) (1)) (mq (5) (1)), mq (3) (4)),
(Box3.mk (mq (6) (1)) (mq (7) (1)) (mq (4) (1)) (mq (5) (1)) (mq (4) (1)) (mq (5) (1)), mq (11) (4)),
(Box3.mk (mq (3) (1)) (mq (4) (1)) (mq (5) (1)) (mq (6) (1)) (mq (4) (1)) (mq (5) (1)), mq (11) (4)),
(Box3.mk (mq (4) (1)) (mq (5) (1)) (mq (5) (1)) (mq (6) (1)) (mq (4) (1)) (mq (5) (1)), mq (3) (4)),
(Box3.mk (mq (5) (1)) (mq (6) (1)) (mq (5) (1)) (mq (6) (1)) (mq (4) (1)) (mq (5) (1)), mq (3) (4)),
(Box3.mk (mq (6) (1)) (mq (7) (1)) (mq (5) (1)) (mq (6) (1)) (mq (4) (1)) (mq (5) (1)), mq (11) (4)),
(Box3.mk (mq (3) (1)) (mq (4) (1)) (mq (6) (1)) (mq (7) (1)) (mq (4) (1)) (mq (5) (1)), mq (19) (4)),
(Box3.mk (mq (4) (1)) (mq (5) (1)) (mq (6) (1)) (mq (7) (1)) (mq (4) (1)) (mq (5) (1)), mq (11) (4)),
(Box3.mk (mq (5) (1)) (mq (6) (1)) (mq (6) (1)) (mq (7) (1)) (mq (4) (1)) (mq (5) (1)), mq (11) (4)),
(Box3.mk (mq (6) (1)) (mq (7) (1)) (mq (6) (1)) (mq (7) (1)) (mq (4) (1)) (mq (5) (1)), mq (19) (4)),
(Box3.mk (mq (3) (1)) (mq (4) (1)) (mq (3) (1)) (mq (4) (1)) (mq (5) (1)) (mq (6) (1)), mq (19) (4)),
(Box3.mk (mq (4) (1)) (mq (5) (1)) (mq (3) (1)) (mq (4) (1)) (mq (5) (1)) (mq (6) (1)), mq (11) (4)),
(Box3.mk (mq (5) (1)) (mq (6) (1)) (mq (3) (1)) (mq (4) (1)) (mq (5) (1)) (mq (6) (1)), mq (11) (4)),
(Box3.mk (mq (6) (1)) (mq (7) (1)) (mq (3) (1)) (mq (4) (1)) (mq (5) (1)) (mq (6) (1)), mq (19) (4)),
(Box3.mk (mq (3) (1)) (mq (4) (1)) (mq (4) (1)) (mq (5) (1)) (mq (5) (1)) (mq (6) (1)), mq (11) (4)),
(Box3.mk (mq (4) (1)) (mq (5) (1)) (mq (4) (1)) (mq (5) (1)) (mq (5) (1)) (mq (6) (1)), mq (3) (4)),
(Box3.mk (mq (5) (1)) (mq (6) (1)) (mq (4) (1)) (mq (5) (1)) (mq (5) (1)) (mq (6) (1)), mq (3) (4)),
(Box3.mk (mq (6) (1)) (mq (7) (1)) (mq (4) (1)) (mq (5) (1)) (mq (5) (1)) (mq (6) (1)), mq (11) (4)),
(Box3.mk (mq (3) (1)) (mq (4) (1)) (mq (5) (1)) (mq (6) (1)) (mq (5) (1)) (mq (6) (1)), mq (11) (4)),
(Box3.mk (mq (4) (1)) (mq (5) (1)) (mq (5) (1)) (mq (6) (1)) (mq (5) (1)) (mq (6) (1)), mq (3) (4)),
(Box3.mk (mq (5) (1)) (mq (6) (1)) (mq (5) (1)) (mq (6) (1)) (mq (5) (1)) (mq (6) (1)), mq (3) (4)),
(Box3.mk (mq (6) (1)) (mq (7) (1)) (mq (5) (1)) (mq (6) (1)) (mq (5) (1)) (mq (6) (1)), mq (11) (4)),
(Box3.mk (mq (3) (1)) (mq (4) (1)) (mq (6) (1)) (mq (7) (1)) (mq (5) (1)) (mq (6) (1)), mq (19) (4)),
(Box3.mk (mq (4) (1)) (mq (5) (1)) (mq (6) (1)) (mq (7) (1)) (mq (5) (1)) (mq (6) (1)), mq (11) (4)),
(Box3.mk (mq (5) (1)) (mq (6) (1)) (mq (6) (1)) (mq (7) (1)) (mq (5) (1)) (mq (6) (1)), mq (11) (4)),
(Box3.mk (mq (6) (1)) (mq (7) (1)) (mq (6) (1)) (mq (7) (1)) (mq (5) (1)) (mq (6) (1)), mq (19) (4)),
(Box3.mk (mq (4) (1)) (mq (5) (1)) (mq (3) (1)) (mq (4) (1)) (mq (6) (1)) (mq (7) (1)), mq (19) (4)),
(Box3.mk (mq (5) (1)) (mq (6) (1)) (mq (3) (1)) (mq (4) (1)) (mq (6) (1)) (mq (7) (1)), mq (19) (4)),
(Box3.mk (mq (3) (1)) (mq (4) (1)) (mq (4) (1)) (mq (5) (1)) (mq (6) (1)) (mq (7) (1)), mq (19) (4)),
(Box3.mk (mq (4) (1)) (mq (5) (1)) (mq (4) (1)) (mq (5) (1)) (mq (6) (1)) (mq (7) (1)), mq (11) (4)),
(Box3.mk (mq (5) (1)) (mq (6) (1)) (mq (4) (1)) (mq (5) (1)) (mq (6) (1)) (mq (7) (1)), mq (11) (4)),
(Box3.mk (mq (6) (1)) (mq (7) (1)) (mq (4) (1)) (mq (5) (1)) (mq (6) (1)) (mq (7) (1)), mq (19) (4)),
(Box3.mk (mq (3) (1)) (mq (4) (1)) (mq (5) (1)) (mq (6) (1)) (mq (6) (1)) (mq (7) (1)), mq (19) (4)),
(Box3.mk (mq (4) (1)) (mq (5) (1)) (mq (5) (1)) (mq (6) (1)) (mq (6) (1)) (mq (7) (1)), mq (11) (4)),
(Box3.mk (mq (5) (1)) (mq (6) (1)) (mq (5) (1)) (mq (6) (1)) (mq (6) (1)) (mq (7) (1)), mq (11) (4)),
(Box3.mk (mq (6) (1)) (mq (7) (1)) (mq (5) (1)) (mq (6) (1)) (mq (6) (1)) (mq (7) (1)), mq (19) (4)),
(Box3.mk (mq (4) (1)) (mq (5) (1)) (mq (6) (1)) (mq (7) (1)) (mq (6) (1)) (mq (7) (1)), mq (19) (4)),
(Box3.mk (mq (5) (1)) (mq (6) (1)) (mq (6) (1)) (mq (7) (1)) (mq (6) (1)) (mq (7) (1)), mq (19) (4)),
(Box3.mk (mq (0) (1)) (mq (1) (1)) (mq (0) (1)) (mq (1) (1)) (mq (0) (1)) (mq (1) (1)), mq (243) (4)),
(Box3.mk (mq (1) (1)) (mq (2) (1)) (mq (0) (1)) (mq (1) (1)) (mq (0) (1)) (mq (1) (1)), mq (211) (4)),
(Box3.mk (mq (8) (1)) (mq (9) (1)) (mq (0) (1)) (mq (1) (1)) (mq (0) (1)) (mq (1) (1)), mq (211) (4)),
(Box3.mk (mq (9) (1)) (mq (10) (1)) (mq (0) (1)) (mq (1) (1)) (mq (0) (1)) (mq (1) (1)), mq (243) (4)),
(Box3.mk (mq (0) (1)) (mq (1) (1)) (mq (1) (1)) (mq (2) (1)) (mq (0) (1)) (mq (1) (1)), mq (211) (4)),
(Box3.mk (mq (9) (1)) (mq (10) (1)) (mq (1) (1)) (mq (2) (1)) (mq (0) (1)) (mq (1) (1)), mq (211) (4)),
(Box3.mk (mq (0) (1)) (mq (1) (1)) (mq (8) (1)) (mq (9) (1)) (mq (0) (1)) (mq (1) (1)), mq (211) (4)),
(Box3.mk (mq (9) (1)) (mq (10) (1)) (mq (8) (1)) (mq (9) (1)) (mq (0) (1)) (mq (1) (1)), mq (211) (4)),
(Box3.mk (mq (0) (1)) (mq (1) (1)) (mq (9) (1)) (mq (10) (1)) (mq (0) (1)) (mq (1) (1)), mq (243) (4)),
(Box3.mk (mq (1) (1)) (mq (2) (1)) (mq (9) (1)) (mq (10) (1)) (mq (0) (1)) (mq (1) (1)), mq (211) (4)),
(Box3.mk (mq (8) (1)) (mq (9) (1)) (mq (9) (1)) (mq (10) (1)) (mq (0) (1)) (mq (1) (1)), mq (211) (4)),
(Box3.mk (mq (9) (1)) (mq (10) (1)) (mq (9) (1)) (mq (10) (1)) (mq (0) (1)) (mq (1) (1)), mq (243) (4)),
(Box3.mk (mq (0) (1)) (mq (1) (1)) (mq (0) (1)) (mq (1) (1)) (mq (1) (1)) (mq (2) (1)), mq (211) (4)),
(Box3.mk (mq (9) (1)) (mq (10) (1)) (mq (0) (1)) (mq (1) (1)) (mq (1) (1)) (mq (2) (1)), mq (211) (4)),
(Box3.mk (mq (0) (1)) (mq (1) (1)) (mq (9) (1)) (mq (10) (1)) (mq (1) (1)) (mq (2) (1)), mq (211) (4)),
(Box3.mk (mq (9) (1)) (mq (10) (1)) (mq (9) (1)) (mq (10) (1)) (mq (1) (1)) (mq (2) (1)), mq (211) (4)),
(Box3.mk (mq (0) (1)) (mq (1) (1)) (mq (0) (1)) (mq (1) (1)) (mq (8) (1)) (mq (9) (1)), mq (211) (4)),
(Box3.mk (mq (9) (1)) (mq (10) (1)) (mq (0) (1)) (mq (1) (1)) (mq (8) (1)) (mq (9) (1)), mq (211) (4)),
(Box3.mk (mq (0) (1)) (mq (1) (1)) (mq (9) (1)) (mq (10) (1)) (mq (8) (1)) (mq (9) (1)), mq (211) (4)),
(Box3.mk (mq (9) (1)) (mq (10) (1)) (mq (9) (1)) (mq (10) (1)) (mq (8) (1)) (mq (9) (1)), mq (211) (4)),
(Box3.mk (mq (0) (1)) (mq (1) (1)) (mq (0) (1)) (mq (1) (1)) (mq (9) (1)) (mq (10) (1)), mq (243) (4)),
(Box3.mk (mq (1) (1)) (mq (2) (1)) (mq (0) (1)) (mq (1) (1)) (mq (9) (1)) (mq (10) (1)), mq (211) (4)),
(Box3.mk (mq (8) (1)) (mq (9) (1)) (mq (0) (1)) (mq (1) (1)) (mq (9) (1)) (mq (10) (1)), mq (211) (4)),
(Box3.mk (mq (9) (1)) (mq (10) (1)) (mq (0) (1)) (mq (1) (1)) (mq (9) (1)) (mq (10) (1)), mq (243) (4)),
(Box3.mk (mq (0) (1)) (mq (1) (1)) (mq (1) (1)) (mq (2) (1)) (mq (9) (1)) (mq (10) (1)), mq (211) (4)),
(Box3.mk (mq (9) (1)) (mq (10) (1)) (mq (1) (1)) (mq (2) (1)) (mq (9) (1)) (mq (10) (1)), mq (211) (4)),
(Box3.mk (mq (0) (1)) (mq (1) (1)) (mq (8) (1)) (mq (9) (1)) (mq (9) (1)) (mq (10) (1)), mq (211) (4)),
(Box3.mk (mq (9) (1)) (mq (10) (1)) (mq (8) (1)) (mq (9) (1)) (mq (9) (1)) (mq (10) (1)), mq (211) (4)),
(Box3.mk (mq (0) (1)) (mq (1) (1)) (mq (9) (1)) (mq (10) (1)) (mq (9) (1)) (mq (10) (1)), mq (243) (4)),
(Box3.mk (mq (1) (1)) (mq (2) (1)) (mq (9) (1)) (mq (10) (1)) (mq (9) (1)) (mq (10) (1)), mq (211) (4)),
(Box3.mk (mq (8) (1)) (mq (9) (1)) (mq (9) (1)) (mq (10) (1)) (mq (9) (1)) (mq (10) (1)), mq (211) (4)),
(Box3.mk (mq (9) (1)) (mq (10) (1)) (mq (9) (1)) (mq (10) (1)) (mq (9) (1)) (mq (10) (1)), mq (243) (4))]

/-! ### NumPy aliasing model (NumpyScipy.py)

A DataArrayDouble of 12 tuples shares one backing memory block with the
NumPy array returned by toNumPyArray.  The block is modelled with a
reference count, a freed flag and its contents; deleting the originating
wrapper decrements the count, and a garbage collection pass frees the block
only when no reference remains. -/

structure NpShared where
  refcount : Nat
  freed : Bool
  vals : List Frac
deriving DecidableEq

/-- mc.DataArrayDouble(12): one wrapper referencing a fresh 12-tuple block. -/
def npNewArray : NpShared := ⟨1, false, List.replicate 12 Frac.zero⟩

/-- arr[:] = v. -/
def npFillAll (s : NpShared) (v : Frac) : NpShared :=
  if s.freed then s else { s with vals := s.vals.map (fun _ => v) }

/-- arr.toNumPyArray(): a second alias of the same block. -/
def npToNumPy (s : NpShared) : NpShared := { s with refcount := s.refcount + 1 }

/-- nparr[::2] = v through the NumPy alias: both views see the write. -/
def npSetEveryOther (s : NpShared) (v : Frac) : NpShared :=
  if s.freed then s
  else { s with vals := s.vals.mapIdx (fun i x => if i % 2 == 0 then v else x) }

/-- del arr: drop the originating wrapper reference. -/
def npDelOriginal (s : NpShared) : NpShared := { s with refcount := s.refcount - 1 }

/-- gc.collect(): the block is freed only if the reference count is zero. -/
def npGcCollect (s : NpShared) : NpShared :=
  if s.refcount == 0 then { s with freed := true, vals := [] } else s

/-- Reading through the surviving alias: defined only while the block lives. -/
def npRead (s : NpShared) : Option (List Frac) := if s.freed then none else some s.vals

/-- The tutorial scenario: fill with 4.0, alias, write 7.0 at every other
tuple through the alias, delete the original wrapper, force a collection. -/
def npScenario : NpShared :=
  npGcCollect (npDelOriginal (npSetEveryOther (npToNumPy (npFillAll npNewArray ⟨4, 1⟩)) ⟨7, 1⟩))

end MCT

namespace MCT

/-! ### Multiprocessing tutorial model (Multiprocessing.py)

Two 20x20x20 Cartesian grids of step 1/20 on [0,1]^3, the second translated
by half a step along every axis.  `prepare` (P0P0) returns the status code 1
on success together with the sparse interpolation matrix in compressed row
storage.  The cells are axis-aligned boxes, so the intersection measure of a
cell pair is the product of the three interval overlaps.

The parallel path divides the 8000 target cells into `nbProc` contiguous
balanced slices (DataArray.GetSlice), prepares each slice against the full
source mesh, re-expands the per-slice row-offset array to the global row
count through the part-to-global id map (deltaShiftIndex, the indexed
assignment into a zero-filled array, computeOffsetsFull), rebuilds a
globally-shaped CSR matrix reusing the slice column indices and data, sums
all the partial matrices elementwise, and compares with the sequential
matrix: the difference must have no nonzero entry. -/

def fracMin (a b : Frac) : Frac := if a.ble b then a else b

def fracMax (a b : Frac) : Frac := if a.ble b then b else a

/-- Length of the overlap of two intervals (clamped at zero). -/
def overlapLen (a0 a1 b0 b1 : Frac) : Frac :=
  fracMax Frac.zero ((fracMin a1 b1).sub (fracMax a0 b0))

/-- Intersection volume of two axis-aligned boxes. -/
def boxInterVol (a b : Box3) : Frac :=
  ((overlapLen a.bx0 a.bx1 b.bx0 b.bx1).mul (overlapLen a.by0 a.by1 b.by0 b.by1)).mul
    (overlapLen a.bz0 a.bz1 b.bz0 b.bz1)

/-- Cell `c` of the n-per-axis Cartesian grid of step 1/n on [0,1]^3 (x
fastest), translated by `shift` along every axis. -/
def gridCellB (n : Nat) (shift : Frac) (c : Nat) : Box3 :=
  let i : Int := ((c % n : Nat) : Int)
  let j : Int := ((c / n % n : Nat) : Int)
  let k : Int := ((c / (n * n) : Nat) : Int)
  ⟨(Frac.mk i (n : Int)).add shift, (Frac.mk (i + 1) (n : Int)).add shift,
   (Frac.mk j (n : Int)).add shift, (Frac.mk (j + 1) (n : Int)).add shift,
   (Frac.mk k (n : Int)).add shift, (Frac.mk (k + 1) (n : Int)).add shift⟩

/-- The source mesh m: 20^3 cells on [0,1]^3. -/
def mCells : List Box3 := (List.range 8000).map (gridCellB 20 Frac.zero)

/-- The target mesh m2: a deep copy of m translated by half a step (1/40)
along each axis. -/
def m2Cells : List Box3 := (List.range 8000).map (gridCellB 20 ⟨1, 40⟩)

/-- Sparse interpolation row of one target cell against the listed source
cells: the ids of the intersected source cells with the intersection
volumes. -/
def crudeRow3D (src : List Box3) (t : Box3) : List (Nat × Frac) :=
  src.enum.filterMap (fun is =>
    let w := boxInterVol t is.2
    if w.isZero then none else some (is.1, w))

/-- Interpolation matrix in compressed sparse row form (scipy csr_matrix). -/
structure CSRMat where
  indptr : List Nat
  colInd : List Nat
  data : List Frac

/-- Build a CSR matrix from its rows. -/
def CSRMat.ofRows (rows : List (List (Nat × Frac))) : CSRMat :=
  ⟨offsetsOf (rows.map List.length), rows.flatten.map Prod.fst, rows.flatten.map Prod.snd⟩

/-- The (column, value) pairs stored for row r. -/
def CSRMat.rowPairs (m : CSRMat) (r : Nat) : List (Nat × Frac) :=
  ((m.colInd.zip m.data).drop (m.indptr.getD r 0)).take
    (m.indptr.getD (r + 1) 0 - m.indptr.getD r 0)

/-- Total weight stored for column s in a sparse row. -/
def rowValAt (row : List (Nat × Frac)) (s : Nat) : Frac :=
  (row.filter (fun p => p.1 == s)).foldr (fun p acc => p.2.add acc) Frac.zero

/-- Dense reading of a CSR matrix entry. -/
def CSRMat.dense (m : CSRMat) (r s : Nat) : Frac := rowValAt (m.rowPairs r) s

/-- MEDCouplingRemapper.prepare: status 1 on success (P0P0, both meshes
nonempty), and the crude interpolation matrix. -/
def prepare (src tgt : List Box3) (method : String) : Nat × CSRMat :=
  if method = "P0P0" ∧ src ≠ [] ∧ tgt ≠ []
  then (1, CSRMat.ofRows (tgt.map (crudeRow3D src)))
  else (0, ⟨[], [], []⟩)

/-- The assert on the preparation status in the script and in each worker:
anything but 1 aborts. -/
def assertPrepare (st : Nat) : Except String Unit :=
  if st == 1 then Except.ok () else Except.error "AssertionError"

/-- The sequentially computed sparse matrix matSeq. -/
def matSeq : CSRMat := (prepare mCells m2Cells "P0P0").2

/-- Start of slice i when n rows are divided into P balanced contiguous
slices (mc.DataArray.GetSlice over slice(0, n, 1)). -/
def sliceStart (n P i : Nat) : Nat := i * (n / P) + min i (n % P)

/-- The work list: for each of the P slices, the sub-mesh of m2 and the
part-to-global cell id map. -/
def workToDo (P : Nat) : List (List Box3 × List Nat) :=
  (List.range P).map (fun i =>
    let s := sliceStart 8000 P i
    let e := sliceStart 8000 P (i + 1)
    ((m2Cells.drop s).take (e - s), List.range' s (e - s)))

/-- DataArrayInt.deltaShiftIndex: consecutive differences of an offset
array. -/
def deltaShiftIndex (l : List Nat) : List Nat := (l.zip l.tail).map (fun p => p.2 - p.1)

/-- Indexed assignment indptrnew[partToGlob] = d into a base array. -/
def scatterSet (base ids vals : List Nat) : List Nat :=
  (ids.zip vals).foldl (fun b p => b.set p.1 p.2) base

/-- The worker: prepare m against the slice sub-mesh, take the slice CSR
matrix, expand its per-row nonzero counts to the global row count through
the part-to-global map, convert back to offsets (computeOffsetsFull), and
rebuild a matrix of global shape with the same column indices and data. -/
def work (inp : List Box3 × List Nat) : CSRMat :=
  let myMat := (prepare mCells inp.1 "P0P0").2
  let d := deltaShiftIndex myMat.indptr
  let indptrnew := scatterSet (List.replicate 8000 0) inp.2 d
  ⟨offsetsOf indptrnew, myMat.colInd, myMat.data⟩

/-- Dense entry of the elementwise sum matPar of the P partial matrices. -/
def matParDense (P r s : Nat) : Frac :=
  ((workToDo P).map (fun inp => (work inp).dense r s)).foldr Frac.add Frac.zero

/-- Dense entry of the difference matDelta = matSeq - matPar. -/
def matDelta (P r s : Nat) : Frac := (matSeq.dense r s).sub (matParDense P r s)

end MCT

namespace MCT

/-! ### Polar conversion model (DataArray.py, coordinate conversion)

The tutorial builds the 4 Cartesian corner coordinates of the unit square
centered at the origin and then applies `fromPolarToCart` to that array,
followed by `fromCartToPolar` on the result.  `fromPolarToCart` interprets
each tuple as (radius, angle); `fromCartToPolar` returns the nonnegative
radius and the atan2 angle in (-pi, pi]. -/

noncomputable def cornersArr : List (ℝ × ℝ) :=
  [(-(1 / 2), -(1 / 2)), (1 / 2, -(1 / 2)), (1 / 2, 1 / 2), (-(1 / 2), 1 / 2)]

noncomputable def fromPolarToCart (l : List (ℝ × ℝ)) : List (ℝ × ℝ) :=
  l.map (fun p => (p.1 * Real.cos p.2, p.1 * Real.sin p.2))

/-- Two argument arctangent, the angle of the point (x, y) in (-pi, pi]. -/
noncomputable def atan2R (y x : ℝ) : ℝ := Complex.arg ⟨x, y⟩

noncomputable def fromCartToPolar (l : List (ℝ × ℝ)) : List (ℝ × ℝ) :=
  l.map (fun p => (Real.sqrt (p.1 ^ 2 + p.2 ^ 2), atan2R p.2 p.1))

/-- DataArrayDouble.magnitude: Euclidean norm of every tuple. -/
noncomputable def magnitudeArr (l : List (ℝ × ℝ)) : List ℝ :=
  l.map (fun p => Real.sqrt (p.1 ^ 2 + p.2 ^ 2))

/-! ### Proof-support definition -/

/-- Weighted sum of a dense fraction vector against values indexed from
offset k, used to state the column-regrouping of the sparse matrix. -/
noncomputable def dotVecR : List Frac → (Nat → ℝ) → Nat → ℝ
  | [], _, _ => 0
  | q :: qs, v, k => q.toR * v k + dotVecR qs v (k + 1)

end MCT

namespace MCT

/-! ## Theorems

First the value-level decoding lemmas for the fraction type: the boolean
tests computed by the kernel are translated into facts about the real
interpretations. -/

theorem Frac.toR_zero : Frac.zero.toR = 0 := by
  simp [Frac.toR, Frac.zero]

theorem Frac.toR_one : Frac.one.toR = 1 := by
  simp [Frac.toR, Frac.one]

theorem Frac.denPos_iff {a : Frac} : a.denPos = true ↔ 0 < a.den := by
  simp [Frac.denPos]

theorem Frac.toR_isOne {a : Frac} (h : a.isOne = true) : a.toR = 1 := by
  obtain ⟨n, d⟩ := a
  simp only [Frac.isOne, Bool.and_eq_true, beq_iff_eq, bne_iff_ne] at h
  have hd : ((d : ℝ)) ≠ 0 := Int.cast_ne_zero.mpr h.2
  simp [Frac.toR, h.1, div_self hd]

theorem Frac.toR_isZero {a : Frac} (h : a.isZero = true) : a.toR = 0 := by
  rcases a with ⟨n, d⟩
  simp only [Frac.isZero, Bool.and_eq_true, beq_iff_eq, bne_iff_ne] at h
  obtain ⟨rfl, hd⟩ := h
  simp [Frac.toR]

theorem Frac.toR_eqb {a b : Frac} (h : a.eqb b = true) (ha : a.den ≠ 0) (hb : b.den ≠ 0) :
    a.toR = b.toR := by
  rcases a with ⟨n₁, d₁⟩
  rcases b with ⟨n₂, d₂⟩
  simp only [Frac.eqb, beq_iff_eq] at h
  have h1 : ((d₁ : ℝ)) ≠ 0 := Int.cast_ne_zero.mpr ha
  have h2 : ((d₂ : ℝ)) ≠ 0 := Int.cast_ne_zero.mpr hb
  rw [Frac.toR, Frac.toR, div_eq_div_iff h1 h2]
  exact_mod_cast congrArg (fun z : Int => (z : ℝ)) h

theorem Frac.toR_ble {a b : Frac} (h : a.ble b = true) (ha : 0 < a.den) (hb : 0 < b.den) :
    a.toR ≤ b.toR := by
  rcases a with ⟨n₁, d₁⟩
  rcases b with ⟨n₂, d₂⟩
  simp only [Frac.ble, decide_eq_true_eq] at h
  have h1 : (0 : ℝ) < (d₁ : ℝ) := by exact_mod_cast ha
  have h2 : (0 : ℝ) < (d₂ : ℝ) := by exact_mod_cast hb
  rw [Frac.toR, Frac.toR, div_le_div_iff₀ h1 h2]
  exact_mod_cast h

theorem Frac.toR_add {a b : Frac} (ha : a.den ≠ 0) (hb : b.den ≠ 0) :
    (a.add b).toR = a.toR + b.toR := by
  rcases a with ⟨n₁, d₁⟩
  rcases b with ⟨n₂, d₂⟩
  have h1 : ((d₁ : ℝ)) ≠ 0 := Int.cast_ne_zero.mpr ha
  have h2 : ((d₂ : ℝ)) ≠ 0 := Int.cast_ne_zero.mpr hb
  simp only [Frac.add, Frac.toR]
  push_cast
  field_simp

theorem Frac.toR_mul {a b : Frac} (ha : a.den ≠ 0) (hb : b.den ≠ 0) :
    (a.mul b).toR = a.toR * b.toR := by
  rcases a with ⟨n₁, d₁⟩
  rcases b with ⟨n₂, d₂⟩
  have h1 : ((d₁ : ℝ)) ≠ 0 := Int.cast_ne_zero.mpr ha
  have h2 : ((d₂ : ℝ)) ≠ 0 := Int.cast_ne_zero.mpr hb
  simp only [Frac.mul, Frac.toR]
  push_cast
  field_simp

theorem Frac.toR_div {a b : Frac} (ha : a.den ≠ 0) (hb : b.den ≠ 0) (hn : b.num ≠ 0) :
    (a.div b).toR = a.toR / b.toR := by
  rcases a with ⟨n₁, d₁⟩
  rcases b with ⟨n₂, d₂⟩
  have h1 : ((d₁ : ℝ)) ≠ 0 := Int.cast_ne_zero.mpr ha
  have h2 : ((d₂ : ℝ)) ≠ 0 := Int.cast_ne_zero.mpr hb
  have h3 : ((n₂ : ℝ)) ≠ 0 := Int.cast_ne_zero.mpr hn
  by_cases hc : (0 : Int) ≤ n₂
  · simp only [Frac.div, hc, if_pos, Frac.toR]
    push_cast
    field_simp
  · simp only [Frac.div, hc, if_neg, ite_false, Frac.toR]
    push_cast
    field_simp

theorem Frac.add_den_ne {a b : Frac} (ha : a.den ≠ 0) (hb : b.den ≠ 0) :
    (a.add b).den ≠ 0 := by
  simp only [Frac.add]
  exact mul_ne_zero ha hb

theorem Frac.toR_nonneg {a : Frac} (hn : 0 ≤ a.num) (hd : 0 < a.den) : 0 ≤ a.toR := by
  have h1 : (0 : ℝ) ≤ (a.num : ℝ) := by exact_mod_cast hn
  have h2 : (0 : ℝ) < (a.den : ℝ) := by exact_mod_cast hd
  exact div_nonneg h1 h2.le

theorem Frac.toR_pos {a : Frac} (hn : 0 < a.num) (hd : 0 < a.den) : 0 < a.toR := by
  have h1 : (0 : ℝ) < (a.num : ℝ) := by exact_mod_cast hn
  have h2 : (0 : ℝ) < (a.den : ℝ) := by exact_mod_cast hd
  exact div_pos h1 h2

end MCT

namespace MCT

/-! ### Correctness of the balanced summation -/

theorem pairup_sum_toR : ∀ l : List Frac, (∀ q ∈ l, q.den ≠ 0) →
    (∀ q ∈ pairup l, q.den ≠ 0) ∧ ((pairup l).map Frac.toR).sum = (l.map Frac.toR).sum
  | [] , _ => by simp [pairup]
  | [a], h => by
    simp only [pairup]
    exact ⟨h, trivial⟩
  | a :: b :: rest, h => by
    have ha : a.den ≠ 0 := h a (by simp)
    have hb : b.den ≠ 0 := h b (by simp)
    have hrest : ∀ q ∈ rest, q.den ≠ 0 := fun q hq => h q (by simp [hq])
    obtain ⟨ih1, ih2⟩ := pairup_sum_toR rest hrest
    constructor
    · intro q hq
      simp only [pairup, List.mem_cons] at hq
      rcases hq with rfl | hq
      · exact Frac.add_den_ne ha hb
      · exact ih1 q hq
    · simp only [pairup, List.map_cons, List.sum_cons, ih2,
        Frac.toR_add ha hb]
      ring

theorem sumAux_toR : ∀ (fuel : Nat) (l : List Frac), (∀ q ∈ l, q.den ≠ 0) →
    (sumAux fuel l).toR = (l.map Frac.toR).sum ∧ (sumAux fuel l).den ≠ 0
  | 0, l, h => by
    induction l with
    | nil => simp [sumAux, Frac.zero, Frac.toR]
    | cons a tl ih =>
      have ha : a.den ≠ 0 := h a (by simp)
      have htl : ∀ q ∈ tl, q.den ≠ 0 := fun q hq => h q (by simp [hq])
      obtain ⟨ih1, ih2⟩ := ih htl
      have ih2h : (List.foldr Frac.add Frac.zero tl).den ≠ 0 := ih2
      have ih1h : (List.foldr Frac.add Frac.zero tl).toR = (List.map Frac.toR tl).sum := ih1
      simp only [sumAux, List.foldr_cons, List.map_cons, List.sum_cons]
      exact ⟨by rw [Frac.toR_add ha ih2h, ih1h], Frac.add_den_ne ha ih2h⟩
  | _ + 1, [], _ => by simp [sumAux, Frac.zero, Frac.toR]
  | _ + 1, [a], h => by simpa [sumAux] using h a (by simp)
  | fuel + 1, a :: b :: rest, h => by
    have ha : a.den ≠ 0 := h a (by simp)
    have hb : b.den ≠ 0 := h b (by simp)
    have hrest : ∀ q ∈ rest, q.den ≠ 0 := fun q hq => h q (by simp [hq])
    obtain ⟨hp1, hp2⟩ := pairup_sum_toR rest hrest
    have hlist : ∀ q ∈ a.add b :: pairup rest, q.den ≠ 0 := by
      intro q hq
      simp only [List.mem_cons] at hq
      rcases hq with rfl | hq
      · exact Frac.add_den_ne ha hb
      · exact hp1 q hq
    obtain ⟨ih1, ih2⟩ := sumAux_toR fuel (a.add b :: pairup rest) hlist
    refine ⟨?_, ih2⟩
    rw [show sumAux (fuel + 1) (a :: b :: rest) = sumAux fuel (a.add b :: pairup rest) from rfl,
      ih1]
    simp only [List.map_cons, List.sum_cons, hp2, Frac.toR_add ha hb]
    ring

theorem sumF_toR {l : List Frac} (h : ∀ q ∈ l, q.den ≠ 0) :
    (sumF l).toR = (l.map Frac.toR).sum :=
  (sumAux_toR 64 l h).1

theorem sumF_den_ne {l : List Frac} (h : ∀ q ∈ l, q.den ≠ 0) : (sumF l).den ≠ 0 :=
  (sumAux_toR 64 l h).2

end MCT

namespace MCT

/-! ### Computed facts about the prepared interpolation matrix -/

set_option maxHeartbeats 40000000 in
theorem wmatEq0 : (List.range' 0 25).map sparseRowOf = WmatL0 := by
  decide

set_option maxHeartbeats 40000000 in
theorem wmatEq1 : (List.range' 25 25).map sparseRowOf = WmatL1 := by
  decide

set_option maxHeartbeats 40000000 in
theorem wmatEq2 : (List.range' 50 25).map sparseRowOf = WmatL2 := by
  decide

set_option maxHeartbeats 40000000 in
theorem wmatEq3 : (List.range' 75 25).map sparseRowOf = WmatL3 := by
  decide

theorem wmat_eq : Wmat = WmatLit := by
  rw [Wmat, List.range_eq_range',
    show List.range' 0 100 = List.range' 0 25 ++ List.range' 25 25
      ++ List.range' 50 25 ++ List.range' 75 25 from by decide,
    List.map_append, List.map_append, List.map_append,
    wmatEq0, wmatEq1, wmatEq2, wmatEq3, WmatLit]

set_option maxHeartbeats 40000000 in
theorem srcCellsEq0 :
    (List.range' 0 210).map (fun s => (srcAreaF s, srcDistSqF s)) = srcCellsL0 := by
  decide

set_option maxHeartbeats 40000000 in
theorem srcCellsEq1 :
    (List.range' 210 210).map (fun s => (srcAreaF s, srcDistSqF s)) = srcCellsL1 := by
  decide

theorem srcCellsEq :
    (List.range 420).map (fun s => (srcAreaF s, srcDistSqF s)) = srcCellsLit := by
  rw [List.range_eq_range',
    show List.range' 0 420 = List.range' 0 210 ++ List.range' 210 210 from by decide,
    List.map_append, srcCellsEq0, srcCellsEq1, srcCellsLit]

set_option maxHeartbeats 10000000 in
theorem wmatRowsCheck :
    (WmatLit.all (fun row => (sumF (row.map Prod.snd)).isOne &&
      row.all (fun sw => sw.2.denPos && decide (sw.1 < 420)))) = true := by
  decide

set_option maxHeartbeats 10000000 in
theorem srcCellsCheck :
    (srcCellsLit.all (fun p => p.1.denPos && decide (0 < p.1.num) &&
      p.1.ble ⟨1, 4⟩ && p.2.denPos &&
      decide (0 ≤ p.2.num) && p.2.ble ⟨47, 1⟩)) = true := by
  decide

set_option maxHeartbeats 4000000 in
theorem trgAreasCheck : ((List.range 100).all (fun c => (trgAreaF c).isOne)) = true := by
  decide

theorem wmat_rows_isOne : ∀ row ∈ Wmat, (sumF (row.map Prod.snd)).isOne = true := by
  intro row hrow
  rw [wmat_eq] at hrow
  have h := List.all_eq_true.mp wmatRowsCheck row hrow
  simp only [Bool.and_eq_true] at h
  exact h.1

theorem wmat_entries : ∀ row ∈ Wmat, ∀ sw ∈ row, 0 < sw.2.den ∧ sw.1 < 420 := by
  intro row hrow sw hsw
  rw [wmat_eq] at hrow
  have h := List.all_eq_true.mp wmatRowsCheck row hrow
  simp only [Bool.and_eq_true] at h
  have h2 := List.all_eq_true.mp h.2 sw hsw
  simp only [Bool.and_eq_true, Frac.denPos_iff, decide_eq_true_eq] at h2
  exact h2

theorem srcCells_decoded : ∀ s < 420,
    0 < (srcAreaF s).den ∧ 0 < (srcAreaF s).num ∧ (srcAreaF s).ble ⟨1, 4⟩ = true ∧
    0 < (srcDistSqF s).den ∧ 0 ≤ (srcDistSqF s).num ∧ (srcDistSqF s).ble ⟨47, 1⟩ = true := by
  intro s hs
  have hmem : (srcAreaF s, srcDistSqF s) ∈ srcCellsLit := by
    rw [← srcCellsEq]
    exact List.mem_map_of_mem _ (List.mem_range.mpr hs)
  have h := List.all_eq_true.mp srcCellsCheck _ hmem
  simp only [Bool.and_eq_true, Frac.denPos_iff, decide_eq_true_eq] at h
  obtain ⟨⟨⟨⟨⟨h1, h2⟩, h3⟩, h4⟩, h5⟩, h6⟩ := h
  exact ⟨h1, h2, h3, h4, h5, h6⟩

theorem srcArea_denPos : ∀ s < 420, 0 < (srcAreaF s).den := fun s hs => (srcCells_decoded s hs).1

theorem srcArea_numPos : ∀ s < 420, 0 < (srcAreaF s).num := fun s hs => (srcCells_decoded s hs).2.1

theorem srcArea_leQuarter : ∀ s < 420, (srcAreaF s).toR ≤ 1 / 4 := by
  intro s hs
  have hle := Frac.toR_ble (srcCells_decoded s hs).2.2.1 (srcArea_denPos s hs) (by norm_num)
  have h14 : (Frac.mk 1 4).toR = 1 / 4 := by norm_num [Frac.toR]
  rw [h14] at hle
  exact hle

theorem srcDistSq_denPos : ∀ s < 420, 0 < (srcDistSqF s).den :=
  fun s hs => (srcCells_decoded s hs).2.2.2.1

theorem srcDistSq_nonneg : ∀ s < 420, 0 ≤ (srcDistSqF s).toR := by
  intro s hs
  exact Frac.toR_nonneg (srcCells_decoded s hs).2.2.2.2.1 (srcDistSq_denPos s hs)

theorem srcDistSq_le47 : ∀ s < 420, (srcDistSqF s).toR ≤ 47 := by
  intro s hs
  have hle := Frac.toR_ble (srcCells_decoded s hs).2.2.2.2.2 (srcDistSq_denPos s hs) (by norm_num)
  have h47 : (Frac.mk 47 1).toR = 47 := by norm_num [Frac.toR]
  rw [h47] at hle
  exact hle

theorem trgArea_isOne : ∀ c < 100, (trgAreaF c).toR = 1 := by
  intro c hc
  exact Frac.toR_isOne (List.all_eq_true.mp trgAreasCheck c (List.mem_range.mpr hc))

/-- C2.  For every target cell of the prepared P0P0 interpolation between
the 20x20 partially-triangulated source mesh and the 10x10 target mesh,
the sum over all intersecting source cells of the weights stored in that
target cell row of the crude interpolation matrix equals 1.0 within
tolerance 1e-12. -/
theorem claim_C2_row_sums_one :
    ∀ row ∈ Wmat, |((row.map (fun sw => sw.2.toR)).sum) - 1| ≤ 1 / 10 ^ 12 := by
  intro row hrow
  have h1 := wmat_rows_isOne row hrow
  have hdens : ∀ q ∈ row.map Prod.snd, q.den ≠ 0 := by
    intro q hq
    obtain ⟨sw, hsw, rfl⟩ := List.mem_map.mp hq
    exact (wmat_entries row hrow sw hsw).1.ne.symm
  have hsum : ((row.map Prod.snd).map Frac.toR).sum = 1 := by
    rw [← sumF_toR hdens, Frac.toR_isOne h1]
  rw [List.map_map] at hsum
  have hfun : (row.map (fun sw => sw.2.toR)).sum = 1 := by
    simpa [Function.comp] using hsum
  rw [hfun]
  norm_num

/-- Witness for C2 at the first target cell row. -/
theorem claim_C2_row_sums_one_witness :
    |(((sparseRowOf 0).map (fun sw => sw.2.toR)).sum) - 1| ≤ 1 / 10 ^ 12 :=
  claim_C2_row_sums_one (sparseRowOf 0)
    (List.mem_map_of_mem sparseRowOf (List.mem_range.mpr (by norm_num)))

end MCT

namespace MCT

set_option maxHeartbeats 40000000 in
theorem colAcc3Eq : WmatL3.foldr scatterRow (List.replicate 420 Frac.zero) = colAcc3 := by
  decide

set_option maxHeartbeats 40000000 in
theorem colAcc2Eq : WmatL2.foldr scatterRow colAcc3 = colAcc2 := by
  decide

set_option maxHeartbeats 40000000 in
theorem colAcc1Eq : WmatL1.foldr scatterRow colAcc2 = colAcc1 := by
  decide

set_option maxHeartbeats 40000000 in
theorem colAcc0Eq : WmatL0.foldr scatterRow colAcc1 = colAcc0 := by
  decide

theorem scatterAccLit : scatterAcc 420 WmatLit = colAcc0 := by
  rw [scatterAcc, WmatLit, List.foldr_append, List.foldr_append, List.foldr_append,
    colAcc3Eq, colAcc2Eq, colAcc1Eq, colAcc0Eq]

set_option maxHeartbeats 4000000 in
theorem wmatColsCheck : listEqb colAcc0 (srcCellsLit.map Prod.fst) = true := by
  decide

theorem srcAreasL_eq : srcAreasL = srcCellsLit.map Prod.fst := by
  rw [srcAreasL, ← srcCellsEq, List.map_map]
  rfl

/-! ### Regrouping the sparse matrix by columns -/

theorem getD_den_ne : ∀ (l : List Frac) (s : Nat), (∀ q ∈ l, q.den ≠ 0) →
    (l.getD s Frac.zero).den ≠ 0
  | [], s, _ => by simp [List.getD_nil, Frac.zero]
  | a :: tl, 0, h => by
    rw [List.getD_cons_zero]
    exact h a (by simp)
  | a :: tl, s + 1, h => by
    rw [List.getD_cons_succ]
    exact getD_den_ne tl s (fun q hq => h q (by simp [hq]))

theorem scatterRow_length (row : List (Nat × Frac)) (acc : List Frac) :
    (scatterRow row acc).length = acc.length := by
  induction row with
  | nil => rfl
  | cons sw rest ih =>
    simp only [scatterRow, List.foldr_cons] at ih ⊢
    rw [List.length_set, ih]

theorem scatterRow_den (row : List (Nat × Frac)) (acc : List Frac)
    (hrow : ∀ sw ∈ row, sw.2.den ≠ 0) (hacc : ∀ q ∈ acc, q.den ≠ 0) :
    ∀ q ∈ scatterRow row acc, q.den ≠ 0 := by
  induction row with
  | nil => exact hacc
  | cons sw rest ih =>
    intro q hq
    simp only [scatterRow, List.foldr_cons] at hq
    have hprev : ∀ q ∈ scatterRow rest acc, q.den ≠ 0 :=
      ih (fun x hx => hrow x (by simp [hx]))
    rcases List.mem_or_eq_of_mem_set hq with hmem | rfl
    · exact hprev q hmem
    · exact Frac.add_den_ne (getD_den_ne _ _ hprev) (hrow sw (by simp))

theorem scatterAcc_length (n : Nat) (rows : List (List (Nat × Frac))) :
    (scatterAcc n rows).length = n := by
  induction rows with
  | nil => simp [scatterAcc]
  | cons row rest ih =>
    simp only [scatterAcc, List.foldr_cons] at ih ⊢
    rw [scatterRow_length, ih]

theorem scatterAcc_den (n : Nat) (rows : List (List (Nat × Frac)))
    (h : ∀ row ∈ rows, ∀ sw ∈ row, sw.2.den ≠ 0) :
    ∀ q ∈ scatterAcc n rows, q.den ≠ 0 := by
  induction rows with
  | nil =>
    intro q hq
    simp only [scatterAcc, List.foldr_nil] at hq
    rw [(List.mem_replicate.mp hq).2]
    simp [Frac.zero]
  | cons row rest ih =>
    have hrest : ∀ q ∈ scatterAcc n rest, q.den ≠ 0 :=
      ih (fun r hr => h r (by simp [hr]))
    exact scatterRow_den row _ (h row (by simp)) hrest

theorem dotVecR_replicate_zero : ∀ (n k : Nat) (v : Nat → ℝ),
    dotVecR (List.replicate n Frac.zero) v k = 0
  | 0, _, _ => rfl
  | n + 1, k, v => by
    simp only [List.replicate, dotVecR, dotVecR_replicate_zero n (k + 1) v]
    simp [Frac.zero, Frac.toR]

theorem dotVecR_set : ∀ (acc : List Frac) (s : Nat) (w : Frac) (v : Nat → ℝ) (k : Nat),
    s < acc.length → (∀ q ∈ acc, q.den ≠ 0) → w.den ≠ 0 →
    dotVecR (acc.set s ((acc.getD s Frac.zero).add w)) v k
      = dotVecR acc v k + w.toR * v (k + s)
  | [], s, w, v, k, hs, _, _ => absurd hs (by simp)
  | a :: tl, 0, w, v, k, _, hden, hw => by
    have ha : a.den ≠ 0 := hden a (by simp)
    simp only [List.set_cons_zero, List.getD_cons_zero, dotVecR,
      Frac.toR_add ha hw, Nat.add_zero]
    ring
  | a :: tl, s + 1, w, v, k, hs, hden, hw => by
    have htl : ∀ q ∈ tl, q.den ≠ 0 := fun q hq => hden q (by simp [hq])
    have ih := dotVecR_set tl s w v (k + 1) (by simpa using hs) htl hw
    simp only [List.set_cons_succ, List.getD_cons_succ, dotVecR, ih]
    have : k + 1 + s = k + (s + 1) := by omega
    rw [this]
    ring

theorem dotVecR_scatterRow : ∀ (row : List (Nat × Frac)) (acc : List Frac) (v : Nat → ℝ) (k : Nat),
    (∀ sw ∈ row, sw.1 < acc.length ∧ sw.2.den ≠ 0) → (∀ q ∈ acc, q.den ≠ 0) →
    dotVecR (scatterRow row acc) v k
      = dotVecR acc v k + (row.map (fun sw => sw.2.toR * v (k + sw.1))).sum
  | [], acc, v, k, _, _ => by simp [scatterRow]
  | sw :: rest, acc, v, k, hrow, hacc => by
    have hrest : ∀ x ∈ rest, x.1 < acc.length ∧ x.2.den ≠ 0 :=
      fun x hx => hrow x (by simp [hx])
    have ih := dotVecR_scatterRow rest acc v k hrest hacc
    have hlen : sw.1 < (scatterRow rest acc).length := by
      rw [scatterRow_length]
      exact (hrow sw (by simp)).1
    have hden : ∀ q ∈ scatterRow rest acc, q.den ≠ 0 :=
      scatterRow_den rest acc (fun x hx => (hrest x hx).2) hacc
    have hw : sw.2.den ≠ 0 := (hrow sw (by simp)).2
    show dotVecR ((scatterRow rest acc).set sw.1
        (((scatterRow rest acc).getD sw.1 Frac.zero).add sw.2)) v k
      = dotVecR acc v k + (List.map (fun sw => sw.2.toR * v (k + sw.1)) (sw :: rest)).sum
    rw [dotVecR_set (scatterRow rest acc) sw.1 sw.2 v k hlen hden hw, ih]
    simp only [List.map_cons, List.sum_cons]
    ring

theorem dotVecR_scatterAcc : ∀ (rows : List (List (Nat × Frac))) (n : Nat) (v : Nat → ℝ),
    (∀ row ∈ rows, ∀ sw ∈ row, sw.1 < n ∧ sw.2.den ≠ 0) →
    dotVecR (scatterAcc n rows) v 0
      = (rows.map (fun row => (row.map (fun sw => sw.2.toR * v sw.1)).sum)).sum
  | [], n, v, _ => by simp [scatterAcc, dotVecR_replicate_zero]
  | row :: rest, n, v, h => by
    have hrest : ∀ r ∈ rest, ∀ sw ∈ r, sw.1 < n ∧ sw.2.den ≠ 0 :=
      fun r hr => h r (by simp [hr])
    have ih := dotVecR_scatterAcc rest n v hrest
    have hacc : ∀ q ∈ scatterAcc n rest, q.den ≠ 0 :=
      scatterAcc_den n rest (fun r hr sw hsw => (hrest r hr sw hsw).2)
    have hrow : ∀ sw ∈ row, sw.1 < (scatterAcc n rest).length ∧ sw.2.den ≠ 0 := by
      intro sw hsw
      rw [scatterAcc_length]
      exact h row (by simp) sw hsw
    simp only [scatterAcc, List.foldr_cons]
    rw [show List.foldr scatterRow (List.replicate n Frac.zero) rest = scatterAcc n rest from rfl]
    rw [dotVecR_scatterRow row (scatterAcc n rest) v 0 hrow hacc, ih]
    simp only [List.map_cons, List.sum_cons, Nat.zero_add]
    ring

theorem dotVecR_congr_eqb : ∀ (xs ys : List Frac), listEqb xs ys = true →
    (∀ q ∈ xs, q.den ≠ 0) → (∀ q ∈ ys, q.den ≠ 0) → ∀ (v : Nat → ℝ) (k : Nat),
    dotVecR xs v k = dotVecR ys v k
  | [], [], _, _, _, _, _ => rfl
  | [], y :: ys, h, _, _, _, _ => by simp [listEqb] at h
  | x :: xs, [], h, _, _, _, _ => by simp [listEqb] at h
  | x :: xs, y :: ys, h, hx, hy, v, k => by
    simp only [listEqb, List.length_cons, List.zip_cons_cons, List.all_cons,
      Bool.and_eq_true, beq_iff_eq, Nat.succ.injEq] at h
    obtain ⟨hlen, hxy, hall⟩ := h
    have hrest : listEqb xs ys = true := by
      simp only [listEqb, Bool.and_eq_true, beq_iff_eq]
      exact ⟨hlen, hall⟩
    have ih := dotVecR_congr_eqb xs ys hrest (fun q hq => hx q (by simp [hq]))
      (fun q hq => hy q (by simp [hq])) v (k + 1)
    simp only [dotVecR, ih,
      Frac.toR_eqb hxy (hx x (by simp)) (hy y (by simp))]

theorem dotVecR_map_range : ∀ (n k : Nat) (f : Nat → Frac) (v : Nat → ℝ),
    dotVecR ((List.range' k n).map f) v k = ((List.range' k n).map (fun s => (f s).toR * v s)).sum
  | 0, _, _, _ => rfl
  | n + 1, k, f, v => by
    rw [List.range'_succ]
    simp only [List.map_cons, dotVecR, List.sum_cons, dotVecR_map_range n (k + 1) f v]

end MCT

namespace MCT

/-! ### Conservation properties of the two transfer natures -/

theorem wmat_row_ne_nil : ∀ row ∈ Wmat, row ≠ [] := by
  intro row hrow hnil
  have h := wmat_rows_isOne row hrow
  rw [hnil] at h
  exact absurd h (by decide)

theorem srcAreasL_den : ∀ q ∈ srcAreasL, q.den ≠ 0 := by
  intro q hq
  obtain ⟨s, hs, rfl⟩ := List.mem_map.mp hq
  exact (srcArea_denPos s (List.mem_range.mp hs)).ne.symm

theorem wmat_entry_hyp : ∀ row ∈ Wmat, ∀ sw ∈ row, sw.1 < 420 ∧ sw.2.den ≠ 0 :=
  fun row hr sw hsw =>
    ⟨(wmat_entries row hr sw hsw).2, (wmat_entries row hr sw hsw).1.ne.symm⟩

/-- Regrouping the sum of all matrix entries by source cell: the column sums
of the crude matrix are exactly the source cell areas. -/
theorem wmat_colsum (v : Nat → ℝ) :
    (Wmat.map (fun row => (row.map (fun sw => sw.2.toR * v sw.1)).sum)).sum
      = ((List.range 420).map (fun s => (srcAreaF s).toR * v s)).sum := by
  rw [← dotVecR_scatterAcc Wmat 420 v wmat_entry_hyp]
  have hlit : ∀ row ∈ WmatLit, ∀ sw ∈ row, sw.1 < 420 ∧ sw.2.den ≠ 0 :=
    wmat_eq ▸ wmat_entry_hyp
  rw [show scatterAcc 420 Wmat = colAcc0 from by rw [wmat_eq, scatterAccLit]]
  rw [dotVecR_congr_eqb colAcc0 (srcCellsLit.map Prod.fst) wmatColsCheck
    (scatterAccLit ▸ scatterAcc_den 420 WmatLit (fun r hr sw hsw => (hlit r hr sw hsw).2))
    (srcAreasL_eq ▸ srcAreasL_den) v 0]
  rw [← srcAreasL_eq]
  rw [show srcAreasL = (List.range' 0 420).map srcAreaF from by
    rw [srcAreasL, List.range_eq_range']]
  rw [dotVecR_map_range 420 0 srcAreaF v, ← List.range_eq_range']

theorem transfer_sum (nat : FieldNature) (d : ℝ) (v : Nat → ℝ)
    (hval : ∀ c < 100, transferP0P0 nat d c = dotSparseV (sparseRowOf c) v) :
    ((List.range 100).map (transferP0P0 nat d)).sum
      = ((List.range 420).map (fun s => (srcAreaF s).toR * v s)).sum := by
  rw [List.map_congr_left (fun c hc => hval c (List.mem_range.mp hc))]
  have hmm : (List.range 100).map (fun c => dotSparseV (sparseRowOf c) v)
      = Wmat.map (fun row => dotSparseV row v) := by
    rw [Wmat, List.map_map]
    rfl
  rw [hmm]
  exact wmat_colsum v

theorem sparseRow_mem (c : Nat) (hc : c < 100) : sparseRowOf c ∈ Wmat :=
  List.mem_map_of_mem sparseRowOf (List.mem_range.mpr hc)

theorem transferCV_val (d : ℝ) : ∀ c < 100,
    transferP0P0 FieldNature.IntensiveMaximum d c = dotSparseV (sparseRowOf c) srcValR := by
  intro c hc
  rw [show transferP0P0 FieldNature.IntensiveMaximum d c
      = (if sparseRowOf c = [] then d
         else dotSparseV (sparseRowOf c) srcValR / (trgAreaF c).toR) from rfl]
  rw [if_neg (wmat_row_ne_nil (sparseRowOf c) (sparseRow_mem c hc))]
  rw [trgArea_isOne c hc, div_one]

theorem transferExt_val (d : ℝ) : ∀ c < 100,
    transferP0P0 FieldNature.ExtensiveConservation d c
      = dotSparseV (sparseRowOf c) (fun s => srcValR s / (srcAreaF s).toR) := by
  intro c hc
  rw [show transferP0P0 FieldNature.ExtensiveConservation d c
      = (if sparseRowOf c = [] then d
         else dotSparseV (sparseRowOf c) (fun s => srcValR s / (srcAreaF s).toR)) from rfl]
  rw [if_neg (wmat_row_ne_nil (sparseRowOf c) (sparseRow_mem c hc))]

theorem accTrgCV_eq : accTrgCV = integralSrc := by
  rw [accTrgCV, trgFieldCV, transfer_sum FieldNature.IntensiveMaximum ((10 : ℝ) ^ 300) srcValR
    (transferCV_val ((10 : ℝ) ^ 300)), integralSrc]

theorem integralTrgCV_eq_acc : integralTrgCV = accTrgCV := by
  rw [integralTrgCV, accTrgCV, trgFieldCV]
  congr 1
  apply List.map_congr_left
  intro c hc
  rw [trgArea_isOne c (List.mem_range.mp hc), one_mul]

theorem srcAreaR_ne (s : Nat) (hs : s < 420) : (srcAreaF s).toR ≠ 0 :=
  (Frac.toR_pos (srcArea_numPos s hs) (srcArea_denPos s hs)).ne'

theorem accTrgExt_eq : accTrgExt = accSrc := by
  rw [accTrgExt, trgFieldExt, transfer_sum FieldNature.ExtensiveConservation ((10 : ℝ) ^ 300)
    (fun s => srcValR s / (srcAreaF s).toR) (transferExt_val ((10 : ℝ) ^ 300)), accSrc]
  congr 1
  apply List.map_congr_left
  intro s hs
  exact mul_div_cancel₀ (srcValR s) (srcAreaR_ne s (List.mem_range.mp hs))

theorem integralTrgExt_eq_acc : integralTrgExt = accTrgExt := by
  rw [integralTrgExt, accTrgExt, trgFieldExt]
  congr 1
  apply List.map_congr_left
  intro c hc
  rw [trgArea_isOne c (List.mem_range.mp hc), one_mul]

theorem sum_map_sub {α : Type} (l : List α) (f g : α → ℝ) :
    (l.map f).sum - (l.map g).sum = (l.map (fun x => f x - g x)).sum := by
  induction l with
  | nil => simp
  | cons a tl ih =>
    simp only [List.map_cons, List.sum_cons]
    rw [← ih]
    ring

theorem remap_term_bound : ∀ s < 420,
    (21 : ℝ) / 200 ≤ srcValR s - (srcAreaF s).toR * srcValR s := by
  intro s hs
  have h47 : Real.sqrt ((srcDistSqF s).toR) ≤ 686 / 100 := by
    have h1 : Real.sqrt ((srcDistSqF s).toR) ≤ Real.sqrt 47 :=
      Real.sqrt_le_sqrt (srcDistSq_le47 s hs)
    have h2 : Real.sqrt 47 ≤ 686 / 100 := by
      rw [show (686 : ℝ) / 100 = Real.sqrt ((686 / 100) ^ 2) from
        (Real.sqrt_sq (by norm_num)).symm]
      exact Real.sqrt_le_sqrt (by norm_num)
    linarith
  have hv : (7 : ℝ) / 50 ≤ srcValR s := by
    rw [srcValR]
    linarith
  have ha : (srcAreaF s).toR ≤ 1 / 4 := srcArea_leQuarter s hs
  have key : srcValR s - (srcAreaF s).toR * srcValR s
      = (1 - (srcAreaF s).toR) * srcValR s := by ring
  rw [key]
  have h34 : (3 : ℝ) / 4 ≤ 1 - (srcAreaF s).toR := by linarith
  calc (21 : ℝ) / 200 = (3 / 4) * (7 / 50) := by norm_num
  _ ≤ (1 - (srcAreaF s).toR) * srcValR s :=
      mul_le_mul h34 hv (by norm_num) (by linarith)

/-- The unweighted source sum strictly exceeds the source integral: this is
the quantity by which each nature fails to preserve the other invariant. -/
theorem remap_gap : accSrc - integralSrc > 1 / 10 ^ 12 := by
  rw [accSrc, integralSrc, sum_map_sub]
  have hge : ((List.range 420).map (fun _ => (21 : ℝ) / 200)).sum
      ≤ ((List.range 420).map (fun s => srcValR s - (srcAreaF s).toR * srcValR s)).sum :=
    List.sum_le_sum (fun s hs => remap_term_bound s (List.mem_range.mp hs))
  have hconst : ((List.range 420).map (fun _ => (21 : ℝ) / 200)).sum = 420 * (21 / 200) := by
    rw [List.map_const', List.sum_replicate, List.length_range, nsmul_eq_mul]
    norm_num
  rw [hconst] at hge
  have : (1 : ℝ) / 10 ^ 12 < 420 * (21 / 200) := by norm_num
  linarith

/-- C1.  For the prepared P0P0 projection of the tutorial, transferring the
source field `7 - sqrt((x-5)^2 + (y-5)^2)` with nature IntensiveMaximum
preserves the mesh-wide integral across the transfer but not the unweighted
per-cell sum, whereas transferring it with nature ExtensiveConservation
preserves the unweighted per-cell sum but not the integral (the failures
exceed the 1e-12 comparison tolerance by a wide margin). -/
theorem claim_C1_conservation_by_nature :
    integralTrgCV = integralSrc
    ∧ |accSrc - accTrgCV| > 1 / 10 ^ 12
    ∧ accTrgExt = accSrc
    ∧ |integralTrgExt - integralSrc| > 1 / 10 ^ 12 := by
  have h1 := accTrgCV_eq
  have h2 := integralTrgCV_eq_acc.trans h1
  have h3 := accTrgExt_eq
  have h4 := integralTrgExt_eq_acc.trans h3
  have hg := remap_gap
  refine ⟨h2, ?_, h3, ?_⟩
  · rw [h1]
    have habs := le_abs_self (accSrc - integralSrc)
    linarith
  · rw [h4]
    have habs := le_abs_self (accSrc - integralSrc)
    linarith

/-- C3.  Invoking transferField on a prepared remapper raises immediately
when the nature of the field has not been declared, before any projection
is computed; once a nature is set the same call succeeds and returns the
projected field. -/
theorem claim_C3_nature_required :
    (∀ (f : SrcFieldState) (d : ℝ), f.nature = none →
      transferField f d = Except.error "transferField : field nature not set")
    ∧ (∀ (f : SrcFieldState) (d : ℝ) (nat : FieldNature), f.nature = some nat →
      transferField f d = Except.ok ((List.range 100).map (transferP0P0 nat d))) := by
  constructor
  · intro f d h
    rcases f with ⟨n⟩
    cases h
    rfl
  · intro f d nat h
    rcases f with ⟨n⟩
    cases h
    rfl

/-- Witness for C3 at the tutorial call: the field with no declared nature
errors, and after setNature(IntensiveMaximum) the transfer succeeds. -/
theorem claim_C3_nature_required_witness :
    transferField ⟨none⟩ ((10 : ℝ) ^ 300)
      = Except.error "transferField : field nature not set"
    ∧ transferField ⟨some FieldNature.IntensiveMaximum⟩ ((10 : ℝ) ^ 300)
      = Except.ok ((List.range 100).map
          (transferP0P0 FieldNature.IntensiveMaximum ((10 : ℝ) ^ 300))) :=
  ⟨claim_C3_nature_required.1 ⟨none⟩ _ rfl,
   claim_C3_nature_required.2 ⟨some FieldNature.IntensiveMaximum⟩ _ _ rfl⟩

end MCT

namespace MCT

/-- C5.  The four-square coordinate array has 16 tuples; findCommonTuples at
tolerance 1e-12 followed by ConvertIndexArrayToO2N yields exactly 9 unique
tuples, renumberAndReduce produces a 9-tuple array, and the mesh of 4
polygon cells whose connectivity is the old-to-new map in chunks of 4 passes
checkConsistencyLight without raising. -/
theorem claim_C5_four_squares_dedup :
    fourSquaresO2N.2 = 9
    ∧ (renumberAndReduce squaresDa fourSquaresO2N.1 fourSquaresO2N.2).length = 9
    ∧ checkConsistencyLight fourSquaresCoords.length fourSquaresCells = Except.ok () := by
  refine ⟨by decide, by decide, ?_⟩
  rw [checkConsistencyLight, if_pos]
  decide

theorem zip_self_fst_eq_snd : ∀ (l : List Pt2) (pq : Pt2 × Pt2), pq ∈ l.zip l → pq.1 = pq.2
  | [], _, h => absurd h (by simp)
  | a :: tl, pq, h => by
    simp only [List.zip_cons_cons, List.mem_cons] at h
    rcases h with rfl | h
    · rfl
    · exact zip_self_fst_eq_snd tl pq h

theorem valsWithin_self (l : List Pt2) (tol : ℝ) (ht : 0 ≤ tol) : valsWithin l l tol := by
  refine ⟨rfl, ?_⟩
  intro pq hpq
  rw [zip_self_fst_eq_snd l pq hpq]
  simp [ht]

/-- C6.  After writing timestep (7,8) and then timestep (9,10) of the same
field name into MySecondField.med with the reuse-existing-mesh write, the
earlier timestep is unchanged: reading by key (7,8) returns the originally
written field f (within 1e-12), and reading by key (9,10) returns the deep
copy of f with every value overwritten with 2.0 (within 1e-12). -/
theorem claim_C6_multistep_independent :
    readFieldCell mySecondFieldFile 7 8 = some fieldF
    ∧ readFieldCell mySecondFieldFile 9 10 = some fieldF2
    ∧ fieldF2.vals = fieldF.vals.map (fun _ => (Frac.mk 2 1, Frac.mk 2 1))
    ∧ valsWithin fieldF.vals fieldF.vals (1 / 10 ^ 12)
    ∧ valsWithin fieldF2.vals (fieldF.vals.map (fun _ => (Frac.mk 2 1, Frac.mk 2 1)))
        (1 / 10 ^ 12) := by
  refine ⟨by decide, by decide, rfl, valsWithin_self _ _ (by norm_num), ?_⟩
  rw [show fieldF2.vals = fieldF.vals.map (fun _ => (Frac.mk 2 1, Frac.mk 2 1)) from rfl]
  exact valsWithin_self _ _ (by norm_num)

set_option maxHeartbeats 40000000 in
theorem fValsEq : fValsCube = fValsLit := by
  decide

set_option maxHeartbeats 4000000 in
theorem idsRange1Eq : idsRange1 = idsLit1 := by
  simp only [idsRange1]
  rw [fValsEq]
  decide

set_option maxHeartbeats 4000000 in
theorem idsRange2Eq : idsRange2 = idsLit2 := by
  simp only [idsRange2]
  rw [fValsEq]
  decide

set_option maxHeartbeats 10000000 in
theorem fPart12Eq : fPart12 = fPartLit := by
  simp only [fPart12, buildSubPartCube]
  rw [idsRange1Eq, idsRange2Eq, fValsEq]
  decide

set_option maxHeartbeats 10000000 in
theorem fieldCubeCheck :
    ((integralCells fPartLit).eqb (accumulateCells fPartLit) &&
     (integralCells fPartLit).denPos && (accumulateCells fPartLit).denPos &&
     (integralCells (fPartLit.map (fun bv => (scaleBox ⟨6, 5⟩ bv.1, bv.2)))).eqb
       ((accumulateCells fPartLit).mul ⟨216, 125⟩) &&
     (integralCells (fPartLit.map (fun bv => (scaleBox ⟨6, 5⟩ bv.1, bv.2)))).denPos) = true := by
  decide

/-- C7.  For the aggregated cell field fPart12 (all supporting cells of unit
measure), the integral over component 0 equals the plain sum of the value
array within 1e-8; after scaling the supporting mesh by the linear factor
1.2 about the origin, the new integral equals the original sum times 1.2^3
within 1e-8. -/
theorem claim_C7_integral_scaling :
    |(integralCells fPart12).toR - (accumulateCells fPart12).toR| < 1 / 10 ^ 8
    ∧ |(integralCells fPart12scaled).toR
        - (accumulateCells fPart12).toR * ((6 : ℝ) / 5) ^ 3| < 1 / 10 ^ 8 := by
  have hsc : fPart12scaled = fPartLit.map (fun bv => (scaleBox ⟨6, 5⟩ bv.1, bv.2)) := by
    simp only [fPart12scaled]
    rw [fPart12Eq]
  rw [fPart12Eq, hsc]
  have h := fieldCubeCheck
  simp only [Bool.and_eq_true, Frac.denPos_iff] at h
  obtain ⟨⟨⟨⟨he1, hd1⟩, hd2⟩, he2⟩, hd3⟩ := h
  constructor
  · rw [Frac.toR_eqb he1 hd1.ne.symm hd2.ne.symm]
    norm_num
  · have hmul : ((accumulateCells fPartLit).mul ⟨216, 125⟩).toR
        = (accumulateCells fPartLit).toR * (Frac.mk 216 125).toR :=
      Frac.toR_mul hd2.ne.symm (by norm_num)
    have h216 : (Frac.mk 216 125).toR = ((6 : ℝ) / 5) ^ 3 := by
      norm_num [Frac.toR]
    have hden : ((accumulateCells fPartLit).mul ⟨216, 125⟩).den ≠ 0 := by
      rw [Frac.mul]
      exact mul_ne_zero hd2.ne.symm (by norm_num)
    rw [Frac.toR_eqb he2 hd3.ne.symm hden, hmul, h216]
    norm_num

/-- C9.  After creating the NumPy view of the 12-tuple array, writing 7.0 at
every other tuple through it, deleting the originating DataArrayDouble and
forcing a garbage collection, the surviving alias is still readable and
holds the most recent values written before the deletion. -/
theorem claim_C9_alias_survives_release :
    npRead npScenario
      = some ((List.range 12).map (fun i => if i % 2 == 0 then ⟨7, 1⟩ else ⟨4, 1⟩))
    ∧ npScenario.freed = false
    ∧ npScenario.refcount = 1 := by
  refine ⟨by decide, by decide, by decide⟩

end MCT

namespace MCT

theorem polar_roundtrip_pt (x y : ℝ) (h : ¬(x = 0 ∧ y = 0)) :
    (Real.sqrt (x ^ 2 + y ^ 2) * Real.cos (atan2R y x),
     Real.sqrt (x ^ 2 + y ^ 2) * Real.sin (atan2R y x)) = (x, y) := by
  have hz : (⟨x, y⟩ : ℂ) ≠ 0 := by
    intro h0
    rw [Complex.ext_iff] at h0
    exact h ⟨h0.1, h0.2⟩
  have habs : Complex.abs ⟨x, y⟩ = Real.sqrt (x ^ 2 + y ^ 2) := by
    rw [Complex.abs_apply, Complex.normSq_mk]
    congr 1
    ring
  have habsne : Complex.abs ⟨x, y⟩ ≠ 0 := by
    simpa using hz
  have hcos : Real.cos (atan2R y x) = x / Complex.abs ⟨x, y⟩ := Complex.cos_arg hz
  have hsin : Real.sin (atan2R y x) = y / Complex.abs ⟨x, y⟩ := Complex.sin_arg ⟨x, y⟩
  rw [hcos, hsin, ← habs, mul_div_cancel₀ x habsne, mul_div_cancel₀ y habsne]

theorem sqrt_half : Real.sqrt ((1 : ℝ) / 2) = Real.sqrt 2 / 2 := by
  rw [show (1 / 2 : ℝ) = 2 / 4 by norm_num, Real.sqrt_div (by norm_num : (0 : ℝ) ≤ 2) 4,
    show (4 : ℝ) = 2 ^ 2 by norm_num, Real.sqrt_sq (by norm_num : (0 : ℝ) ≤ 2)]

/-- C8 counterexample: the composition the script executes (fromPolarToCart
first, then fromCartToPolar) does not reproduce the original array: the
first tuple (-0.5, -0.5) comes back with first component +0.5, off by 1. -/
theorem claim_C8_counterexample_roundtrip :
    ¬ (|((fromCartToPolar (fromPolarToCart cornersArr)).headD (0, 0)).1
        - (cornersArr.headD (0, 0)).1| ≤ 1 / 10 ^ 12) := by
  have hhead : ((fromCartToPolar (fromPolarToCart cornersArr)).headD (0, 0)).1
      = Real.sqrt ((-(1 / 2) * Real.cos (-(1 / 2 : ℝ))) ^ 2
          + (-(1 / 2) * Real.sin (-(1 / 2 : ℝ))) ^ 2) := rfl
  have hsq : (-(1 / 2) * Real.cos (-(1 / 2 : ℝ))) ^ 2
      + (-(1 / 2) * Real.sin (-(1 / 2 : ℝ))) ^ 2
      = (1 / 4) * (Real.sin (-(1 / 2 : ℝ)) ^ 2 + Real.cos (-(1 / 2 : ℝ)) ^ 2) := by
    ring
  have hval : ((fromCartToPolar (fromPolarToCart cornersArr)).headD (0, 0)).1 = 1 / 2 := by
    rw [hhead, hsq, Real.sin_sq_add_cos_sq, mul_one,
      show (1 / 4 : ℝ) = (1 / 2) ^ 2 by norm_num, Real.sqrt_sq (by norm_num : (0 : ℝ) ≤ 1 / 2)]
  rw [hval, show (cornersArr.headD (0, 0)).1 = -(1 / 2) from rfl]
  norm_num

/-- C8 amended: converting the corner array to polar with fromCartToPolar
and back with fromPolarToCart reproduces the original array exactly, and
the magnitude of every tuple equals sqrt(2)/2. -/
theorem claim_C8_polar_roundtrip_magnitude :
    fromPolarToCart (fromCartToPolar cornersArr) = cornersArr
    ∧ magnitudeArr cornersArr = List.replicate 4 (Real.sqrt 2 / 2) := by
  constructor
  · simp only [cornersArr, fromCartToPolar, fromPolarToCart, List.map_cons, List.map_nil]
    rw [polar_roundtrip_pt (-(1 / 2)) (-(1 / 2)) (by norm_num),
      polar_roundtrip_pt (1 / 2) (-(1 / 2)) (by norm_num),
      polar_roundtrip_pt (1 / 2) (1 / 2) (by norm_num),
      polar_roundtrip_pt (-(1 / 2)) (1 / 2) (by norm_num)]
  · have key : ∀ x y : ℝ, x ^ 2 + y ^ 2 = 1 / 2 → Real.sqrt (x ^ 2 + y ^ 2) = Real.sqrt 2 / 2 := by
      intro x y h
      rw [h, sqrt_half]
    simp only [magnitudeArr, cornersArr, List.map_cons, List.map_nil, List.replicate]
    rw [key _ _ (by norm_num), key _ _ (by norm_num), key _ _ (by norm_num), key _ _ (by norm_num)]

end MCT

namespace MCT

/-! ### CSR structure lemmas -/

theorem scanl_add_getD : ∀ (lens : List Nat) (a r : Nat),
    (List.scanl (· + ·) a lens).getD r 0
      = if r ≤ lens.length then a + ((lens.take r).sum) else 0
  | [], a, 0 => by simp [List.scanl]
  | [], a, r + 1 => by simp [List.scanl]
  | x :: xs, a, 0 => by simp [List.scanl]
  | x :: xs, a, r + 1 => by
    simp only [List.scanl, List.getD_cons_succ, scanl_add_getD xs (a + x) r,
      List.length_cons, List.take_succ_cons, List.sum_cons]
    by_cases h : r ≤ xs.length
    · rw [if_pos h, if_pos (by omega)]
      omega
    · rw [if_neg h, if_neg (by omega)]

theorem offsetsOf_getD (lens : List Nat) (r : Nat) :
    (offsetsOf lens).getD r 0 = if r ≤ lens.length then (lens.take r).sum else 0 := by
  rw [offsetsOf, scanl_add_getD]
  by_cases h : r ≤ lens.length <;> simp [h]

theorem zip_map_fst_snd : ∀ (l : List (Nat × Frac)), (l.map Prod.fst).zip (l.map Prod.snd) = l
  | [] => rfl
  | p :: tl => by simp [zip_map_fst_snd tl]

theorem flatten_replicate_nil : ∀ n : Nat, (List.replicate n ([] : List (Nat × Frac))).flatten = []
  | 0 => rfl
  | n + 1 => by simp [List.replicate, flatten_replicate_nil n]

theorem drop_flatten_sum : ∀ (r : Nat) (rows : List (List (Nat × Frac))),
    rows.flatten.drop (((rows.map List.length).take r).sum) = (rows.drop r).flatten
  | 0, rows => by simp
  | r + 1, [] => by simp
  | r + 1, hd :: tl => by
    simp only [List.map_cons, List.take_succ_cons, List.sum_cons, List.flatten_cons,
      List.drop_succ_cons]
    rw [List.drop_append (((tl.map List.length).take r).sum)]
    exact drop_flatten_sum r tl

theorem ofRows_rowPairs (rows : List (List (Nat × Frac))) (r : Nat) :
    (CSRMat.ofRows rows).rowPairs r = rows.getD r [] := by
  have hzip : ((CSRMat.ofRows rows).colInd.zip (CSRMat.ofRows rows).data) = rows.flatten := by
    simp only [CSRMat.ofRows]
    exact zip_map_fst_snd rows.flatten
  have hlen : (rows.map List.length).length = rows.length := List.length_map rows List.length
  rcases Nat.lt_trichotomy r rows.length with hr | hr | hr
  · -- stored row
    have hir : (CSRMat.ofRows rows).indptr.getD r 0 = ((rows.map List.length).take r).sum := by
      simp only [CSRMat.ofRows]
      rw [offsetsOf_getD, if_pos (by omega)]
    have hir1 : (CSRMat.ofRows rows).indptr.getD (r + 1) 0
        = ((rows.map List.length).take (r + 1)).sum := by
      simp only [CSRMat.ofRows]
      rw [offsetsOf_getD, if_pos (by omega)]
    have htake : ((rows.map List.length).take (r + 1)).sum
        = ((rows.map List.length).take r).sum + rows[r].length := by
      rw [List.take_succ]
      have : (rows.map List.length)[r]? = some rows[r].length := by
        rw [List.getElem?_eq_getElem (by omega)]
        congr 1
        exact List.getElem_map List.length
      rw [this]
      simp
    rw [CSRMat.rowPairs, hzip, hir, hir1, htake, Nat.add_sub_cancel_left,
      drop_flatten_sum r rows, List.drop_eq_getElem_cons hr, List.flatten_cons]
    rw [List.getD_eq_getElem rows [] hr]
    exact List.take_left rows[r] (rows.drop (r + 1)).flatten
  · -- r = rows.length : offset difference is zero
    have hir1 : (CSRMat.ofRows rows).indptr.getD (r + 1) 0 = 0 := by
      simp only [CSRMat.ofRows]
      rw [offsetsOf_getD, if_neg (by omega)]
    rw [CSRMat.rowPairs, hir1, List.getD_eq_default rows [] (by omega)]
    simp
  · -- r beyond : everything defaults to zero
    have hir1 : (CSRMat.ofRows rows).indptr.getD (r + 1) 0 = 0 := by
      simp only [CSRMat.ofRows]
      rw [offsetsOf_getD, if_neg (by omega)]
    rw [CSRMat.rowPairs, hir1, List.getD_eq_default rows [] (by omega)]
    simp

theorem ofRows_dense (rows : List (List (Nat × Frac))) (r s : Nat) :
    (CSRMat.ofRows rows).dense r s = rowValAt (rows.getD r []) s := by
  rw [CSRMat.dense, ofRows_rowPairs]

end MCT

namespace MCT

/-! ### Balanced slice arithmetic -/

theorem sliceStart_zero (n P : Nat) : sliceStart n P 0 = 0 := by
  simp [sliceStart]

theorem sliceStart_succ_le (n P i : Nat) : sliceStart n P i ≤ sliceStart n P (i + 1) := by
  simp only [sliceStart]
  have h : min i (n % P) ≤ min (i + 1) (n % P) := by omega
  have h2 : i * (n / P) ≤ (i + 1) * (n / P) := Nat.mul_le_mul_right _ (by omega)
  omega

theorem sliceStart_mono (n P : Nat) : Monotone (sliceStart n P) :=
  monotone_nat_of_le_succ (sliceStart_succ_le n P)

theorem sliceStart_last (n P : Nat) (h : 0 < P) : sliceStart n P P = n := by
  simp only [sliceStart]
  have hmod : n % P < P := Nat.mod_lt n h
  have hdm := Nat.div_add_mod n P
  have : min P (n % P) = n % P := by omega
  rw [this]
  omega

theorem sliceStart_le (n P i : Nat) (hP : 0 < P) (hi : i ≤ P) : sliceStart n P i ≤ n := by
  have := sliceStart_mono n P hi
  rw [sliceStart_last n P hP] at this
  exact this

theorem sliceStart_lt_succ (n P i : Nat) (hP : 0 < P) (hn : P ≤ n) (_hi : i < P) :
    sliceStart n P i < sliceStart n P (i + 1) := by
  simp only [sliceStart]
  have hq : 1 ≤ n / P := (Nat.one_le_div_iff hP).mpr hn
  have h : min i (n % P) ≤ min (i + 1) (n % P) := by omega
  have h2 : i * (n / P) + (n / P) ≤ (i + 1) * (n / P) := by
    rw [Nat.succ_mul]
  omega

/-! ### The row-offset expansion performed by each worker -/

theorem deltaShift_scanl : ∀ (lens : List Nat) (a : Nat),
    deltaShiftIndex (List.scanl (· + ·) a lens) = lens
  | [], a => by simp [deltaShiftIndex, List.scanl]
  | x :: xs, a => by
    have ih := deltaShift_scanl xs (a + x)
    cases xs with
    | nil =>
      simp [deltaShiftIndex, List.scanl]
    | cons y ys =>
      have hstep : deltaShiftIndex (List.scanl (· + ·) a (x :: y :: ys))
          = (a + x - a) :: deltaShiftIndex (List.scanl (· + ·) (a + x) (y :: ys)) := rfl
      rw [hstep, ih, show a + x - a = x by omega]

theorem deltaShift_offsetsOf (lens : List Nat) : deltaShiftIndex (offsetsOf lens) = lens :=
  deltaShift_scanl lens 0

theorem scatterSet_range : ∀ (vals : List Nat) (s : Nat) (base : List Nat),
    s + vals.length ≤ base.length →
    scatterSet base (List.range' s vals.length) vals
      = base.take s ++ vals ++ base.drop (s + vals.length)
  | [], s, base, h => by
    simp only [List.length_nil, List.range'_zero, scatterSet, List.zip_nil_right,
      List.foldl_nil, List.append_nil, Nat.add_zero]
    exact (List.take_append_drop s base).symm
  | v :: vs, s, base, h => by
    simp only [List.length_cons] at h
    have hs : s < base.length := by omega
    have hstep : scatterSet base (List.range' s (v :: vs).length) (v :: vs)
        = scatterSet (base.set s v) (List.range' (s + 1) vs.length) vs := by
      simp [scatterSet, List.range'_succ]
    have hlen : s + 1 + vs.length ≤ (base.set s v).length := by
      rw [List.length_set]
      omega
    rw [hstep, scatterSet_range vs (s + 1) (base.set s v) hlen]
    have hset : base.set s v = base.take s ++ v :: base.drop (s + 1) := by
      rw [List.set_eq_take_append_cons_drop, if_pos hs]
    have htake : (base.set s v).take (s + 1) = base.take s ++ [v] := by
      rw [hset]
      have hlt : (base.take s).length = s := by
        rw [List.length_take]
        omega
      have : s + 1 = (base.take s).length + 1 := by omega
      rw [this, List.take_append 1]
      simp
    have hdrop : (base.set s v).drop (s + 1 + vs.length) = base.drop (s + 1 + vs.length) :=
      List.drop_set_of_lt v base (by omega)
    rw [htake, hdrop]
    simp only [List.append_assoc, List.cons_append, List.singleton_append, List.nil_append]
    have heq : s + 1 + vs.length = s + (vs.length + 1) := by omega
    rw [heq]
    simp [List.length_cons]

end MCT

namespace MCT

/-! ### Characterisation of the worker output -/

theorem addF_zero (a : Frac) : a.add Frac.zero = a := by
  rcases a with ⟨n, d⟩
  simp [Frac.add, Frac.zero]

theorem zeroF_add (a : Frac) : Frac.zero.add a = a := by
  rcases a with ⟨n, d⟩
  simp [Frac.add, Frac.zero]

theorem foldr_add_of_zeros (l : List Frac) (b : Frac) (h : ∀ x ∈ l, x = Frac.zero) :
    l.foldr Frac.add b = b := by
  induction l with
  | nil => rfl
  | cons a tl ih =>
    have ha := h a (by simp)
    rw [List.foldr_cons, ih (fun x hx => h x (by simp [hx])), ha, zeroF_add]

theorem subF_self_num (a : Frac) : (a.sub a).num = 0 := by
  simp [Frac.sub]

theorem m2Cells_length : m2Cells.length = 8000 := by
  rw [m2Cells, List.length_map, List.length_range]

theorem mCells_ne_nil : mCells ≠ [] := by
  have h : mCells.length = 8000 := by rw [mCells, List.length_map, List.length_range]
  intro hn
  rw [hn] at h
  simp at h

theorem m2Cells_ne_nil : m2Cells ≠ [] := by
  intro hn
  have h := m2Cells_length
  rw [hn] at h
  simp at h

theorem prepare_pos (src tgt : List Box3) (h1 : src ≠ []) (h2 : tgt ≠ []) :
    prepare src tgt "P0P0" = (1, CSRMat.ofRows (tgt.map (crudeRow3D src))) := by
  rw [prepare, if_pos ⟨rfl, h1, h2⟩]

theorem matSeq_eq : matSeq = CSRMat.ofRows (m2Cells.map (crudeRow3D mCells)) := by
  rw [matSeq, prepare_pos mCells m2Cells mCells_ne_nil m2Cells_ne_nil]

theorem workToDo_getD (P i : Nat) (hiP : i < P) :
    (workToDo P).getD i ([], [])
      = ((m2Cells.drop (sliceStart 8000 P i)).take
           (sliceStart 8000 P (i + 1) - sliceStart 8000 P i),
         List.range' (sliceStart 8000 P i)
           (sliceStart 8000 P (i + 1) - sliceStart 8000 P i)) := by
  rw [workToDo, List.getD_eq_getElem _ _ (by rw [List.length_map, List.length_range]; omega),
    List.getElem_map, List.getElem_range]

theorem part_length (P i : Nat) (hP : 0 < P) (_hn : P ≤ 8000) (hiP : i < P) :
    ((m2Cells.drop (sliceStart 8000 P i)).take
      (sliceStart 8000 P (i + 1) - sliceStart 8000 P i)).length
      = sliceStart 8000 P (i + 1) - sliceStart 8000 P i := by
  have he : sliceStart 8000 P (i + 1) ≤ 8000 := sliceStart_le 8000 P (i + 1) hP (by omega)
  rw [List.length_take, List.length_drop, m2Cells_length]
  omega

theorem part_ne_nil (P i : Nat) (hP : 0 < P) (hn : P ≤ 8000) (hiP : i < P) :
    ((m2Cells.drop (sliceStart 8000 P i)).take
      (sliceStart 8000 P (i + 1) - sliceStart 8000 P i)) ≠ [] := by
  have hs := sliceStart_lt_succ 8000 P i hP hn hiP
  rw [← List.length_pos, part_length P i hP hn hiP]
  omega

theorem work_eq (P i : Nat) (hP : 0 < P) (hn : P ≤ 8000) (hiP : i < P) :
    work ((workToDo P).getD i ([], []))
      = CSRMat.ofRows (List.replicate (sliceStart 8000 P i) []
          ++ ((m2Cells.drop (sliceStart 8000 P i)).take
              (sliceStart 8000 P (i + 1) - sliceStart 8000 P i)).map (crudeRow3D mCells)
          ++ List.replicate (8000 - sliceStart 8000 P (i + 1)) []) := by
  have hs0 : sliceStart 8000 P i ≤ sliceStart 8000 P (i + 1) := sliceStart_succ_le 8000 P i
  have he : sliceStart 8000 P (i + 1) ≤ 8000 := sliceStart_le 8000 P (i + 1) hP (by omega)
  rw [workToDo_getD P i hiP]
  set s0 := sliceStart 8000 P i
  set e0 := sliceStart 8000 P (i + 1)
  set part := (m2Cells.drop s0).take (e0 - s0) with hpart
  set rows := part.map (crudeRow3D mCells) with hrows
  have hplen : part.length = e0 - s0 := part_length P i hP hn hiP
  have hrlen : (rows.map List.length).length = e0 - s0 := by
    rw [List.length_map, List.length_map, hplen]
  simp only [work]
  rw [prepare_pos mCells part mCells_ne_nil (part_ne_nil P i hP hn hiP)]
  have hdelta : deltaShiftIndex (CSRMat.ofRows rows).indptr = rows.map List.length := by
    rw [show (CSRMat.ofRows rows).indptr = offsetsOf (rows.map List.length) from rfl]
    exact deltaShift_offsetsOf (rows.map List.length)
  rw [hdelta]
  have hrange : List.range' s0 (e0 - s0) = List.range' s0 (rows.map List.length).length := by
    rw [hrlen]
  rw [hrange, scatterSet_range (rows.map List.length) s0 (List.replicate 8000 0)
    (by rw [List.length_replicate, hrlen]; omega)]
  have htk : (List.replicate 8000 (0 : Nat)).take s0 = List.replicate s0 0 := by
    rw [List.take_replicate]
    congr 1
    omega
  have hdp : (List.replicate 8000 (0 : Nat)).drop (s0 + (rows.map List.length).length)
      = List.replicate (8000 - e0) 0 := by
    rw [List.drop_replicate]
    congr 1
    omega
  rw [htk, hdp]
  have hmaplen : (List.replicate s0 ([] : List (Nat × Frac))
      ++ rows ++ List.replicate (8000 - e0) []).map List.length
      = List.replicate s0 0 ++ rows.map List.length ++ List.replicate (8000 - e0) 0 := by
    simp [List.map_append, List.map_replicate]
  have hflat : (List.replicate s0 ([] : List (Nat × Frac))
      ++ rows ++ List.replicate (8000 - e0) []).flatten = rows.flatten := by
    rw [List.flatten_append, List.flatten_append, flatten_replicate_nil, flatten_replicate_nil]
    simp
  simp only [CSRMat.ofRows]
  rw [hmaplen, hflat]

end MCT

namespace MCT

theorem getD_replicate_nil (k r : Nat) :
    (List.replicate k ([] : List (Nat × Frac))).getD r [] = [] := by
  rcases Nat.lt_or_ge r k with h | h
  · rw [List.getD_eq_getElem _ _ (by rw [List.length_replicate]; omega),
      List.getElem_replicate]
  · rw [List.getD_eq_default _ _ (by rw [List.length_replicate]; omega)]

theorem slice_exists (P r : Nat) (hP : 0 < P) (hr : r < 8000) :
    ∃ i, i < P ∧ sliceStart 8000 P i ≤ r ∧ r < sliceStart 8000 P (i + 1) := by
  have key : ∀ k, k ≤ P → r < sliceStart 8000 P k →
      ∃ i, i < k ∧ sliceStart 8000 P i ≤ r ∧ r < sliceStart 8000 P (i + 1) := by
    intro k
    induction k with
    | zero =>
      intro _ h
      rw [sliceStart_zero] at h
      omega
    | succ n ih =>
      intro hk h
      rcases Nat.lt_or_ge r (sliceStart 8000 P n) with h2 | h2
      · obtain ⟨i, hi, hle, hlt⟩ := ih (by omega) h2
        exact ⟨i, by omega, hle, hlt⟩
      · exact ⟨n, by omega, h2, h⟩
  have hP8 : r < sliceStart 8000 P P := by
    rw [sliceStart_last 8000 P hP]
    omega
  exact key P (le_refl P) hP8

theorem work_dense (P i r s : Nat) (hP : 0 < P) (hn : P ≤ 8000) (hiP : i < P) :
    (work ((workToDo P).getD i ([], []))).dense r s
      = if sliceStart 8000 P i ≤ r ∧ r < sliceStart 8000 P (i + 1)
        then matSeq.dense r s else Frac.zero := by
  have he : sliceStart 8000 P (i + 1) ≤ 8000 := sliceStart_le 8000 P (i + 1) hP (by omega)
  have hs0 : sliceStart 8000 P i ≤ sliceStart 8000 P (i + 1) := sliceStart_succ_le 8000 P i
  rw [work_eq P i hP hn hiP, ofRows_dense]
  have hreplen : (List.replicate (sliceStart 8000 P i) ([] : List (Nat × Frac))).length
      = sliceStart 8000 P i := List.length_replicate _ _
  have hmaplen2 : (((m2Cells.drop (sliceStart 8000 P i)).take
      (sliceStart 8000 P (i + 1) - sliceStart 8000 P i)).map (crudeRow3D mCells)).length
      = sliceStart 8000 P (i + 1) - sliceStart 8000 P i := by
    rw [List.length_map, part_length P i hP hn hiP]
  by_cases hcond : sliceStart 8000 P i ≤ r ∧ r < sliceStart 8000 P (i + 1)
  · rw [if_pos hcond]
    obtain ⟨h1, h2⟩ := hcond
    obtain ⟨k, rfl⟩ : ∃ k, r = sliceStart 8000 P i + k := ⟨r - sliceStart 8000 P i, by omega⟩
    rw [List.getD_append _ _ _ _ (by rw [List.length_append, hreplen, hmaplen2]; omega),
      List.getD_append_right _ _ _ _ (by rw [hreplen]; omega), hreplen,
      show sliceStart 8000 P i + k - sliceStart 8000 P i = k from by omega,
      List.getD_eq_getElem _ _ (by rw [hmaplen2]; omega),
      List.getElem_map, List.getElem_take, List.getElem_drop,
      matSeq_eq, ofRows_dense,
      List.getD_eq_getElem _ _ (by rw [List.length_map, m2Cells_length]; omega),
      List.getElem_map]
  · rw [if_neg hcond]
    rcases Nat.lt_or_ge r (sliceStart 8000 P i) with hlt | hge
    · rw [List.getD_append _ _ _ r (by rw [List.length_append, hreplen, hmaplen2]; omega),
        List.getD_append _ _ _ r (by rw [hreplen]; omega), getD_replicate_nil]
      rfl
    · have hre : sliceStart 8000 P (i + 1) ≤ r := by
        rcases Nat.lt_or_ge r (sliceStart 8000 P (i + 1)) with h | h
        · exact absurd ⟨hge, h⟩ hcond
        · exact h
      rw [List.getD_append_right _ _ _ _
          (by rw [List.length_append, hreplen, hmaplen2]; omega),
        List.length_append, hreplen, hmaplen2, getD_replicate_nil]
      rfl

theorem foldr_add_single (g : Nat → Frac) : ∀ (P i0 : Nat), i0 < P →
    (∀ i, i < P → i ≠ i0 → g i = Frac.zero) →
    ((List.range P).map g).foldr Frac.add Frac.zero = (g i0).add Frac.zero := by
  intro P
  induction P with
  | zero =>
    intro i0 h _
    exact absurd h (Nat.not_lt_zero i0)
  | succ n ih =>
    intro i0 hi0 hz
    rw [List.range_succ, List.map_append, List.foldr_append]
    simp only [List.map_cons, List.map_nil, List.foldr_cons, List.foldr_nil]
    rcases Nat.lt_trichotomy i0 n with hlt | heq | hgt
    · have hn0 : g n = Frac.zero := hz n (by omega) (by omega)
      have hbase : (g n).add Frac.zero = Frac.zero := by
        rw [hn0]
        simp [Frac.add, Frac.zero]
      rw [hbase]
      exact ih i0 hlt (fun i hi hne => hz i (by omega) hne)
    · subst heq
      apply foldr_add_of_zeros
      intro x hx
      obtain ⟨i, hi, rfl⟩ := List.mem_map.mp hx
      rw [List.mem_range] at hi
      exact hz i (by omega) (by omega)
    · omega

theorem matParDense_unfold (P r s : Nat) (hP : 0 < P) (hn : P ≤ 8000) :
    matParDense P r s
      = ((List.range P).map (fun i =>
          if sliceStart 8000 P i ≤ r ∧ r < sliceStart 8000 P (i + 1)
          then matSeq.dense r s else Frac.zero)).foldr Frac.add Frac.zero := by
  rw [matParDense, workToDo, List.map_map]
  congr 1
  apply List.map_congr_left
  intro a ha
  rw [List.mem_range] at ha
  have hwd := work_dense P a r s hP hn ha
  rw [workToDo_getD P a ha] at hwd
  simpa [Function.comp] using hwd

theorem matParDense_eq (P r s : Nat) (hP : 0 < P) (hn : P ≤ 8000) (hr : r < 8000) :
    matParDense P r s = matSeq.dense r s := by
  obtain ⟨i0, hi0, hle, hlt⟩ := slice_exists P r hP hr
  have hz : ∀ i, i < P → i ≠ i0 →
      (if sliceStart 8000 P i ≤ r ∧ r < sliceStart 8000 P (i + 1)
       then matSeq.dense r s else Frac.zero) = Frac.zero := by
    intro i hiP hne
    rw [if_neg]
    intro hc
    rcases Nat.lt_or_ge i i0 with hlt2 | hge2
    · have hmono : sliceStart 8000 P (i + 1) ≤ sliceStart 8000 P i0 :=
        sliceStart_mono 8000 P (by omega)
      exact absurd (lt_of_lt_of_le hc.2 (le_trans hmono hle)) (lt_irrefl r)
    · have hmono : sliceStart 8000 P (i0 + 1) ≤ sliceStart 8000 P i :=
        sliceStart_mono 8000 P (by omega)
      exact absurd (lt_of_lt_of_le hlt (le_trans hmono hc.1)) (lt_irrefl r)
  rw [matParDense_unfold P r s hP hn,
    foldr_add_single _ P i0 hi0 hz, if_pos ⟨hle, hlt⟩, addF_zero]

theorem matSeq_dense_big (r s : Nat) (hr : 8000 ≤ r) : matSeq.dense r s = Frac.zero := by
  rw [matSeq_eq, ofRows_dense,
    List.getD_eq_default _ _ (by rw [List.length_map, m2Cells_length]; omega)]
  rfl

theorem matParDense_big (P r s : Nat) (hP : 0 < P) (hn : P ≤ 8000) (hr : 8000 ≤ r) :
    matParDense P r s = Frac.zero := by
  rw [matParDense_unfold P r s hP hn]
  apply foldr_add_of_zeros
  intro x hx
  obtain ⟨i, hi, rfl⟩ := List.mem_map.mp hx
  rw [List.mem_range] at hi
  rw [if_neg]
  intro hc
  have hub : sliceStart 8000 P (i + 1) ≤ 8000 := sliceStart_le 8000 P (i + 1) hP (by omega)
  exact (Nat.not_lt.mpr hr) (lt_of_lt_of_le hc.2 hub)

/-- Claim C4: the interpolation matrix assembled by elementwise summation of
the per-slice partial matrices (each worker expanding its row-offset array to
the full target row count through its part-to-global id map) is exactly the
sequentially computed matrix: every dense entry of the difference matrix
matDelta = matSeq - matPar is the zero fraction, so the difference has zero
stored non-zero entries. -/
theorem claim_C4_parallel_matrix_equals_sequential (P r s : Nat)
    (hP : 0 < P) (hn : P ≤ 8000) :
    (matDelta P r s).num = 0 := by
  rw [matDelta]
  rcases Nat.lt_or_ge r 8000 with hr | hr
  · rw [matParDense_eq P r s hP hn hr]
    exact subF_self_num _
  · rw [matParDense_big P r s hP hn hr, matSeq_dense_big r s hr]
    exact subF_self_num _

theorem claim_C4_parallel_matrix_equals_sequential_witness :
    0 < 8 ∧ 8 ≤ 8000 ∧ (matDelta 8 0 0).num = 0 :=
  ⟨by decide, by decide,
    claim_C4_parallel_matrix_equals_sequential 8 0 0 (by decide) (by decide)⟩

/-- Claim C10: a P0P0 preparation between the (nonempty) source grid and the
full target grid, or any of the P nonempty target slices handed to the
workers, returns the status code 1; the assertion in the script and in each
worker accepts exactly this value and aborts on any other. -/
theorem claim_C10_prepare_status_one (P i : Nat) (hP : 0 < P) (hn : P ≤ 8000)
    (hiP : i < P) :
    (prepare mCells m2Cells "P0P0").1 = 1
    ∧ (prepare mCells ((workToDo P).getD i ([], [])).1 "P0P0").1 = 1
    ∧ assertPrepare (prepare mCells ((workToDo P).getD i ([], [])).1 "P0P0").1
        = Except.ok ()
    ∧ (∀ st, st ≠ 1 → assertPrepare st = Except.error "AssertionError") := by
  have h1 : (prepare mCells m2Cells "P0P0").1 = 1 := by
    rw [prepare_pos mCells m2Cells mCells_ne_nil m2Cells_ne_nil]
  have h2 : (prepare mCells ((workToDo P).getD i ([], [])).1 "P0P0").1 = 1 := by
    rw [workToDo_getD P i hiP]
    rw [prepare_pos mCells _ mCells_ne_nil (part_ne_nil P i hP hn hiP)]
  refine ⟨h1, h2, ?_, ?_⟩
  · rw [h2]
    rfl
  · intro st hst
    simp [assertPrepare, hst]

theorem claim_C10_prepare_status_one_witness :
    0 < 4 ∧ 4 ≤ 8000 ∧ 2 < 4
    ∧ ((prepare mCells m2Cells "P0P0").1 = 1
       ∧ (prepare mCells ((workToDo 4).getD 2 ([], [])).1 "P0P0").1 = 1
       ∧ assertPrepare (prepare mCells ((workToDo 4).getD 2 ([], [])).1 "P0P0").1
           = Except.ok ()
       ∧ (∀ st, st ≠ 1 → assertPrepare st = Except.error "AssertionError")) :=
  ⟨by decide, by decide, by decide,
    claim_C10_prepare_status_one 4 2 (by decide) (by decide) (by decide)⟩

end MCT
